import Mathlib

/-!
# Booking lifecycle of the travel-services marketplace backend

A shallow embedding of the booking routes (`routes/bookings.js`) over the
Mongoose models `Booking`, `Service` and `ServiceProvider`.

* A collection is the list of its documents.  A query `findOne(q)` is
  `List.find?` with the query's conjunction, `doc.save()` and
  `findByIdAndUpdate` rewrite the documents carrying the `_id`.
* A handler is a pure function from the store and the request to the
  response and the new store.  `authenticateJWT` has already run, so the
  handler receives `req.user`.
* Mongoose `Number`s are integers here, except the duration of a promotion,
  which is the double of the request body (`JsNumber`); a `Date` built with
  `new Date(text)` is kept as its source text, a `Date` read from the clock
  is its time in milliseconds.

The second part embeds the service routes (`routes/services.js`): creation,
update, deletion, promotion and the two ranked views, over `Service` and the
ledger `ServicePromotion`.
-/

namespace Backend

/-- A MongoDB ObjectId, kept as the number its twelve bytes encode. -/
abbrev ObjectId := Nat

/-- Functions the routes import from `utils/mongodb-helpers` and from
express-validator.  Their code is not among the sources, so the handlers take
them as a parameter. -/
structure Helpers where
  /-- The helper `isValidObjectId(id)` of `utils/mongodb-helpers`. -/
  isValidObjectId : String → Bool
  /-- The helper `toObjectId(id)` of `utils/mongodb-helpers`; also the cast
  Mongoose applies to an id given as text. -/
  toObjectId : String → ObjectId
  /-- The `isISO8601()` validator of express-validator. -/
  isISO8601 : String → Bool

/-! ## Entities -/

/-- The `status` of `bookingSchema`: enum pending, confirmed, cancelled, completed. -/
inductive BookingStatus where
  | pending
  | confirmed
  | cancelled
  | completed
  deriving DecidableEq, Repr

/-- The `payment_status` of `bookingSchema`: enum pending, paid, refunded. -/
inductive PaymentStatus where
  | pending
  | paid
  | refunded
  deriving DecidableEq, Repr

/-- The fields of `serviceProviderSchema` the booking routes read. -/
structure ServiceProvider where
  id : ObjectId
  user_id : ObjectId
  deriving DecidableEq, Repr

/-- A document of `serviceSchema` (all but `average_rating`, which no route
writes).  A field that may be absent from the document is an `Option`; the
defaults are those of the schema. -/
structure Service where
  id : ObjectId
  provider_id : ObjectId
  price : Int
  is_active : Bool := true
  bookings_count : Int := 0
  title : String := ""
  description : Option String := none
  category : Option String := none
  subcategory : Option String := none
  currency : String := "TZS"
  duration : Option Int := none
  max_participants : Option Int := none
  location : Option String := none
  country : Option String := none
  region : Option String := none
  district : Option String := none
  area : Option String := none
  images : List String := []
  amenities : List String := []
  is_featured : Bool := false
  featured_until : Option Int := none
  featured_priority : Option Int := some 0
  promotion_type : Option String := none
  promotion_location : Option String := none
  views_count : Int := 0
  total_bookings : Int := 0
  created_at : Int := 0
  deriving DecidableEq, Repr

/-- A number of a JSON body as `JSON.parse` gives it: the finite double
`mantissa * 2 ^ exponent`, negated when `negative` (for a double the mantissa is
below `2 ^ 53` and the exponent between -1074 and 971), or an infinity, which
is what a literal beyond the range of the doubles is read as. -/
inductive JsNumber where
  | finite (negative : Bool) (mantissa : Nat) (exponent : Int)
  | infinite (negative : Bool)
  deriving DecidableEq, Repr

/-- The number with the integer value `n`. -/
def JsNumber.ofInt (n : Int) : JsNumber := JsNumber.finite (decide (n < 0)) n.natAbs 0

instance (n : Nat) : OfNat JsNumber n := ⟨JsNumber.ofInt n⟩

/-- A document of `servicePromotionSchema`. -/
structure ServicePromotion where
  id : ObjectId
  service_id : ObjectId
  promotion_type : String
  promotion_location : Option String := none
  duration_days : JsNumber
  cost : Int
  payment_method : Option String := none
  payment_reference : Option String := none
  started_at : Int := 0
  expires_at : Int
  created_at : Int := 0
  deriving DecidableEq, Repr

/-- A document of `bookingSchema`.  The last column, `total_price`, is one the
analytics route reads although the schema does not define it: no document
written through the model carries it. -/
structure Booking where
  id : ObjectId
  traveler_id : ObjectId
  service_id : ObjectId
  provider_id : ObjectId
  booking_date : String
  start_time : Option String := none
  end_time : Option String := none
  participants : Int := 1
  total_amount : Int
  status : BookingStatus := BookingStatus.pending
  payment_status : PaymentStatus := PaymentStatus.pending
  special_requests : Option String := none
  created_at : Int := 0
  total_price : Option Int := none
  deriving DecidableEq, Repr

/-- A document of `userSchema`, as far as the routes read it.  The column
`country` is one the analytics route selects although the schema does not
define it: no document written through the model carries it. -/
structure User where
  id : ObjectId
  user_type : String := "traveler"
  first_name : Option String := none
  last_name : Option String := none
  country : Option String := none
  deriving DecidableEq, Repr

/-- The document store: one list of documents per collection. -/
structure Store where
  providers : List ServiceProvider := []
  services : List Service := []
  bookings : List Booking := []
  promotions : List ServicePromotion := []
  users : List User := []
  deriving DecidableEq, Repr

/-- The authenticated caller `req.user` set by the JWT strategy:
`id` is `user._id.toString()`.  The property `userType`, which some handlers
read, is kept apart from the column `user_type` of the user document. -/
structure ReqUser where
  id : String
  user_type : String := "traveler"
  userType : Option String := none
  deriving DecidableEq, Repr

/-- Body of `POST /bookings`; `none` is a field absent from the JSON body. -/
structure CreateBookingBody where
  serviceId : Option String := none
  bookingDate : Option String := none
  startTime : Option String := none
  endTime : Option String := none
  participants : Option Int := none
  specialRequests : Option String := none
  deriving DecidableEq, Repr

/-- What a handler sends: `res.status(status).json(...)` with the keys
`success`, `message`, `errors` and `booking`. -/
structure Response where
  status : Nat
  success : Bool
  message : Option String := none
  errors : List String := []
  booking : Option Booking := none
  deriving DecidableEq, Repr

/-! ## Collection primitives -/

/-- The query `ServiceProvider.findOne({ user_id })`. -/
def findProviderByUser (st : Store) (uid : ObjectId) : Option ServiceProvider :=
  st.providers.find? (fun p => p.user_id == uid)

/-- The query `Service.findById(id)`. -/
def findServiceById (st : Store) (sid : ObjectId) : Option Service :=
  st.services.find? (fun s => s.id == sid)

/-- The document `.populate('provider_id')` puts in place of a service's
`provider_id`; `none` is the `null` of a dangling reference. -/
def populateProvider (st : Store) (s : Service) : Option ServiceProvider :=
  st.providers.find? (fun p => p.id == s.provider_id)

/-- The query `Booking.findOne({ _id, provider_id })`. -/
def findBookingOfProvider (st : Store) (bid pid : ObjectId) : Option Booking :=
  st.bookings.find? (fun b => b.id == bid && b.provider_id == pid)

/-- The query `Booking.findOne({ _id, traveler_id })`. -/
def findBookingOfTraveler (st : Store) (bid tid : ObjectId) : Option Booking :=
  st.bookings.find? (fun b => b.id == bid && b.traveler_id == tid)

/-- The call `booking.save()` on a loaded document: the stored document with
its `_id` is overwritten. -/
def saveBooking (b : Booking) (bs : List Booking) : List Booking :=
  bs.map (fun x => if x.id == b.id then b else x)

/-- The update `Service.findByIdAndUpdate(id, { $inc: { bookings_count: 1 } })`. -/
def incBookingsCount (sid : ObjectId) (ss : List Service) : List Service :=
  ss.map (fun s => if s.id == sid then { s with bookings_count := s.bookings_count + 1 } else s)

/-- The test `['pending', 'confirmed', 'cancelled', 'completed'].includes(status)`
together with the enum value the accepted text denotes. -/
def BookingStatus.ofString? (s : String) : Option BookingStatus :=
  if s = "pending" then some BookingStatus.pending
  else if s = "confirmed" then some BookingStatus.confirmed
  else if s = "cancelled" then some BookingStatus.cancelled
  else if s = "completed" then some BookingStatus.completed
  else none

/-- Status of the stored booking with the given `_id`. -/
def Store.bookingStatus (st : Store) (bid : ObjectId) : Option BookingStatus :=
  (st.bookings.find? (fun b => b.id == bid)).map (fun b => b.status)

/-- The `bookings_count` of the stored service with the given `_id`. -/
def Store.bookingsCount (st : Store) (sid : ObjectId) : Option Int :=
  (findServiceById st sid).map (fun s => s.bookings_count)

/-- MongoDB keeps `_id` unique within the bookings collection. -/
def Store.uniqueBookingIds (st : Store) : Prop :=
  (st.bookings.map (fun b => b.id)).Nodup

instance (st : Store) : Decidable st.uniqueBookingIds := by
  unfold Store.uniqueBookingIds; infer_instance

/-! ## `POST /bookings` -/

/-- The validators `body('serviceId').notEmpty()` and
`body('bookingDate').isISO8601()`: the fields that fail. -/
def validateCreate (H : Helpers) (body : CreateBookingBody) : List String :=
  (match body.serviceId with
    | some s => if s = "" then ["serviceId"] else []
    | none => ["serviceId"]) ++
  (match body.bookingDate with
    | some d => if H.isISO8601 d then [] else ["bookingDate"]
    | none => ["bookingDate"])

/-- Handler of `router.post('/')`.  `newId` is the `_id` MongoDB gives the new
document and `now` its `created_at`. -/
def createBooking (H : Helpers) (st : Store) (user : ReqUser) (body : CreateBookingBody)
    (newId : ObjectId) (now : Int) : Response × Store :=
  let errors := validateCreate H body
  if !errors.isEmpty then
    ({ status := 400, success := false, errors := errors }, st)
  else
    match body.serviceId, body.bookingDate with
    | some serviceId, some bookingDate =>
      let participants := body.participants.getD 1
      if !H.isValidObjectId serviceId then
        ({ status := 400, success := false, message := some "Invalid service ID" }, st)
      else
        match findServiceById st (H.toObjectId serviceId) with
        | none => ({ status := 404, success := false, message := some "Service not available" }, st)
        | some service =>
          if !service.is_active then
            ({ status := 404, success := false, message := some "Service not available" }, st)
          else
            match populateProvider st service with
            | none =>
              -- `service.provider_id._id` throws on `null`; the `catch` answers 500
              ({ status := 500, success := false, message := some "Error creating booking" }, st)
            | some provider =>
              let totalAmount := service.price * participants
              let newBooking : Booking :=
                { id := newId
                  traveler_id := H.toObjectId user.id
                  service_id := service.id
                  provider_id := provider.id
                  booking_date := bookingDate
                  start_time := body.startTime
                  end_time := body.endTime
                  participants := participants
                  total_amount := totalAmount
                  special_requests := body.specialRequests
                  status := BookingStatus.pending
                  payment_status := PaymentStatus.pending
                  created_at := now }
              ({ status := 201, success := true, message := some "Booking created successfully",
                 booking := some newBooking },
               { st with
                 bookings := st.bookings ++ [newBooking]
                 services := incBookingsCount (H.toObjectId serviceId) st.services })
    | _, _ =>
      -- not reached: both validators passed
      ({ status := 400, success := false, errors := errors }, st)

/-! ## `PATCH /bookings/:id/status` -/

/-- Handler of `router.patch('/:id/status')`; `status` is `req.body.status`. -/
def updateBookingStatus (H : Helpers) (st : Store) (user : ReqUser) (idParam : String)
    (status : Option String) : Response × Store :=
  match status.bind BookingStatus.ofString? with
  | none => ({ status := 400, success := false, message := some "Invalid status" }, st)
  | some newStatus =>
    if !H.isValidObjectId idParam then
      ({ status := 400, success := false, message := some "Invalid booking ID" }, st)
    else
      match findProviderByUser st (H.toObjectId user.id) with
      | none =>
        ({ status := 403, success := false,
           message := some "Only providers can update booking status" }, st)
      | some provider =>
        match findBookingOfProvider st (H.toObjectId idParam) provider.id with
        | none => ({ status := 404, success := false, message := some "Booking not found" }, st)
        | some booking =>
          let booking := { booking with status := newStatus }
          ({ status := 200, success := true, message := some "Booking status updated",
             booking := some booking },
           { st with bookings := saveBooking booking st.bookings })

/-! ## `DELETE /bookings/:id` -/

/-- Handler of `router.delete('/:id')`. -/
def cancelBooking (H : Helpers) (st : Store) (user : ReqUser) (idParam : String) :
    Response × Store :=
  if !H.isValidObjectId idParam then
    ({ status := 400, success := false, message := some "Invalid booking ID" }, st)
  else
    match findBookingOfTraveler st (H.toObjectId idParam) (H.toObjectId user.id) with
    | none => ({ status := 404, success := false, message := some "Booking not found" }, st)
    | some booking =>
      if booking.status = BookingStatus.completed then
        ({ status := 400, success := false, message := some "Cannot cancel completed booking" }, st)
      else
        let booking := { booking with status := BookingStatus.cancelled }
        ({ status := 200, success := true, message := some "Booking cancelled successfully" },
         { st with bookings := saveBooking booking st.bookings })

/-! ## Sample helpers and a sample store for closed examples -/

/-- Value of a hexadecimal digit. -/
def hexDigit? (c : Char) : Option Nat :=
  if 48 ≤ c.toNat ∧ c.toNat ≤ 57 then some (c.toNat - 48)
  else if 97 ≤ c.toNat ∧ c.toNat ≤ 102 then some (c.toNat - 87)
  else if 65 ≤ c.toNat ∧ c.toNat ≤ 70 then some (c.toNat - 55)
  else none

/-- The number a hexadecimal text encodes. -/
def hexValue (cs : List Char) : Nat :=
  cs.foldl (fun acc c => 16 * acc + (hexDigit? c).getD 0) 0

/-- A date of the shape `YYYY-MM-DD`. -/
def isPlainDate (cs : List Char) : Bool :=
  match cs with
  | [y1, y2, y3, y4, d1, m1, m2, d2, t1, t2] =>
    [y1, y2, y3, y4, m1, m2, t1, t2].all Char.isDigit && d1 == '-' && d2 == '-'
  | _ => false

/-- Helpers for the examples: an id is valid when it is 24 hexadecimal digits
and denotes the number they encode; a date is accepted in the shape
`YYYY-MM-DD`. -/
def hexHelpers : Helpers where
  isValidObjectId := fun s => s.data.length == 24 && s.data.all (fun c => (hexDigit? c).isSome)
  toObjectId := fun s => hexValue s.data
  isISO8601 := fun s => isPlainDate s.data

/-- The hexadecimal id with the given last two digits. -/
def sampleId (last : String) : String := "0000000000000000000000" ++ last

/-- A traveler, `_id` 0xa1. -/
def alice : ReqUser := { id := sampleId "a1" }

/-- A provider's user, `_id` 0xb1. -/
def bob : ReqUser := { id := sampleId "b1", user_type := "service_provider" }

/-- The provider profile 0xc1 of user 0xb1. -/
def sampleProvider : ServiceProvider := { id := 193, user_id := 177 }

/-- The active service 0xd1 of provider 0xc1, price 100. -/
def activeService : Service :=
  { id := 209, provider_id := 193, price := 100, title := "Crater walk" }

/-- The inactive service 0xd2 of provider 0xc1. -/
def inactiveService : Service :=
  { id := 210, provider_id := 193, price := 40, is_active := false, title := "Harbour cruise" }

/-- The pending booking 0xe1 of traveler 0xa1. -/
def pendingBooking : Booking :=
  { id := 225, traveler_id := 161, service_id := 209, provider_id := 193,
    booking_date := "2025-01-15", participants := 3, total_amount := 300 }

/-- The confirmed booking 0xe2 of traveler 0xa1. -/
def confirmedBooking : Booking :=
  { id := 226, traveler_id := 161, service_id := 209, provider_id := 193,
    booking_date := "2025-01-16", participants := 2, total_amount := 200,
    status := BookingStatus.confirmed }

/-- The completed booking 0xe3 of traveler 0xa1. -/
def completedBooking : Booking :=
  { id := 227, traveler_id := 161, service_id := 209, provider_id := 193,
    booking_date := "2025-01-17", total_amount := 100, status := BookingStatus.completed }

/-- The cancelled booking 0xe4 of traveler 0xa1. -/
def cancelledBooking : Booking :=
  { id := 228, traveler_id := 161, service_id := 209, provider_id := 193,
    booking_date := "2025-01-18", total_amount := 100, status := BookingStatus.cancelled }

/-- One provider, an active and an inactive service, one booking in each status. -/
def sampleStore : Store where
  providers := [sampleProvider]
  services := [activeService, inactiveService]
  bookings := [pendingBooking, confirmedBooking, completedBooking, cancelledBooking]

/-- A well-formed creation request for the active service 0xd1. -/
def sampleBody : CreateBookingBody :=
  { serviceId := some (sampleId "d1"), bookingDate := some "2025-02-01" }

/-! ## Vocabulary of the statements -/

/-- The text a status is written with in a request and in the schema. -/
def BookingStatus.name : BookingStatus → String
  | BookingStatus.pending => "pending"
  | BookingStatus.confirmed => "confirmed"
  | BookingStatus.cancelled => "cancelled"
  | BookingStatus.completed => "completed"

/-- The status update is answered with success and takes the booking named in
the request from status `s` to status `t`. -/
def UpdateMoves (H : Helpers) (st : Store) (u : ReqUser) (idParam : String)
    (status : Option String) (s t : BookingStatus) : Prop :=
  st.bookingStatus (H.toObjectId idParam) = some s ∧
  (updateBookingStatus H st u idParam status).1.success = true ∧
  (updateBookingStatus H st u idParam status).2.bookingStatus (H.toObjectId idParam) = some t

instance (H : Helpers) (st : Store) (u : ReqUser) (idParam : String) (status : Option String)
    (s t : BookingStatus) : Decidable (UpdateMoves H st u idParam status s t) := by
  unfold UpdateMoves; infer_instance

/-- The cancel request is answered with success and takes the booking named in
the request from status `s` to status `t`. -/
def CancelMoves (H : Helpers) (st : Store) (u : ReqUser) (idParam : String)
    (s t : BookingStatus) : Prop :=
  st.bookingStatus (H.toObjectId idParam) = some s ∧
  (cancelBooking H st u idParam).1.success = true ∧
  (cancelBooking H st u idParam).2.bookingStatus (H.toObjectId idParam) = some t

instance (H : Helpers) (st : Store) (u : ReqUser) (idParam : String)
    (s t : BookingStatus) : Decidable (CancelMoves H st u idParam s t) := by
  unfold CancelMoves; infer_instance

/-- The caller owns a ServiceProvider profile whose `_id` is the `provider_id`
of a stored booking with the given `_id`. -/
def OwnsProviderOf (H : Helpers) (st : Store) (u : ReqUser) (bid : ObjectId) : Prop :=
  ∃ p ∈ st.providers, p.user_id = H.toObjectId u.id ∧
    ∃ b ∈ st.bookings, b.id = bid ∧ b.provider_id = p.id

instance (H : Helpers) (st : Store) (u : ReqUser) (bid : ObjectId) :
    Decidable (OwnsProviderOf H st u bid) := by
  unfold OwnsProviderOf; infer_instance

/-- The effect of a booking creation that went through: the response carries
the new document `b`, the document is appended to the bookings and the counter
of the service is incremented. -/
def CreatedWith (H : Helpers) (st : Store) (u : ReqUser) (body : CreateBookingBody)
    (newId : ObjectId) (sid : String) (s : Service) (p : ServiceProvider) (b : Booking)
    (r : Response × Store) : Prop :=
  r.1.status = 201 ∧ r.1.success = true ∧ r.1.booking = some b ∧
  r.2 = { st with bookings := st.bookings ++ [b]
                  services := incBookingsCount (H.toObjectId sid) st.services } ∧
  b.id = newId ∧ b.traveler_id = H.toObjectId u.id ∧ b.service_id = s.id ∧
  b.provider_id = p.id ∧ b.participants = body.participants.getD 1 ∧
  b.total_amount = s.price * body.participants.getD 1 ∧
  b.status = BookingStatus.pending ∧ b.payment_status = PaymentStatus.pending

/-- A request to one of the three booking routes that write. -/
inductive BookingRequest where
  | create (user : ReqUser) (body : CreateBookingBody) (newId : ObjectId) (now : Int)
  | updateStatus (user : ReqUser) (idParam : String) (status : Option String)
  | cancel (user : ReqUser) (idParam : String)

/-- Dispatch of a writing request to its handler. -/
def handleBooking (H : Helpers) (st : Store) : BookingRequest → Response × Store
  | BookingRequest.create user body newId now => createBooking H st user body newId now
  | BookingRequest.updateStatus user idParam status => updateBookingStatus H st user idParam status
  | BookingRequest.cancel user idParam => cancelBooking H st user idParam

/-! ## Service routes: bodies, responses and primitives -/

/-- Body of `POST /services` and `PUT /services/:id`; `none` is a field absent
from the JSON body. -/
structure ServiceBody where
  title : Option String := none
  description : Option String := none
  category : Option String := none
  subcategory : Option String := none
  price : Option Int := none
  currency : Option String := none
  duration : Option Int := none
  maxParticipants : Option Int := none
  location : Option String := none
  country : Option String := none
  region : Option String := none
  district : Option String := none
  area : Option String := none
  images : Option (List String) := none
  amenities : Option (List String) := none
  deriving DecidableEq, Repr

/-- Body of `POST /services/:id/promote`. -/
structure PromoteBody where
  promotion_type : Option String := none
  duration_days : Option JsNumber := none
  location : Option String := none
  payment_method : Option String := none
  payment_reference : Option String := none
  amount : Option Int := none
  deriving DecidableEq, Repr

/-- The `promotion` object in the answer of a successful promote. -/
structure PromotionInfo where
  service_id : String
  promotion_type : Option String
  location : Option String
  duration_days : JsNumber
  cost : Int
  expires_at : Int
  deriving DecidableEq, Repr

/-- What a service handler sends: `res.status(status).json(...)` with the keys
`success`, `message`, `errors`, `service`, `promotion` and `is_active`. -/
structure ServiceResponse where
  status : Nat
  success : Bool
  message : Option String := none
  errors : List String := []
  service : Option Service := none
  promotion : Option PromotionInfo := none
  is_active : Option Bool := none
  deriving DecidableEq, Repr

/-- The characters `String.prototype.trim` removes: WhiteSpace and
LineTerminator of ECMAScript, by code point. -/
def jsWhiteSpace (c : Char) : Bool :=
  [9, 10, 11, 12, 13, 32, 160, 5760, 8232, 8233, 8239, 8287, 12288, 65279].contains c.toNat ||
    (8192 ≤ c.toNat && c.toNat ≤ 8202)

/-- The JavaScript `trim`, as the `trim()` sanitizer of express-validator and
the `trim: true` setter of Mongoose apply it. -/
def trimText (s : String) : String :=
  String.mk ((s.data.dropWhile jsWhiteSpace).reverse.dropWhile jsWhiteSpace).reverse

/-- Milliseconds in a day. -/
def msPerDay : Int := 86400000

/-- The time `days` whole days, of `msPerDay` milliseconds each, after
`now`. -/
def addDays (now : Int) (days : Int) : Int := now + days * msPerDay

/-- Days from 1970-01-01 to the day `d` of month `m` (1 to 12) of year `y` in
the Gregorian calendar. -/
def daysFromCivil (y m d : Int) : Int :=
  let y' := if m ≤ 2 then y - 1 else y
  let era := y' / 400
  let yoe := y' - era * 400
  let mp := (m + 9) % 12
  let doy := (153 * mp + 2) / 5 + d - 1
  let doe := yoe * 365 + yoe / 4 - yoe / 100 + doy
  era * 146097 + doe - 719468

/-- Year, month (1 to 12) and day of the day `z0` days after 1970-01-01. -/
def civilFromDays (z0 : Int) : Int × Int × Int :=
  let z := z0 + 719468
  let era := z / 146097
  let doe := z - era * 146097
  let yoe := (doe - doe / 1460 + doe / 36524 - doe / 146096) / 365
  let doy := doe - (365 * yoe + yoe / 4 - yoe / 100)
  let mp := (5 * doy + 2) / 153
  let d := doy - (153 * mp + 2) / 5 + 1
  let m := if mp < 10 then mp + 3 else mp - 9
  (if m ≤ 2 then yoe + era * 400 + 1 else yoe + era * 400, m, d)

/-- The value `date.getFullYear()`, the server running in UTC. -/
def fullYear (date : Int) : Int := (civilFromDays (date / msPerDay)).1

/-- The value `date.getMonth()`, 0 for January, the server running in UTC. -/
def monthIndex (date : Int) : Int := (civilFromDays (date / msPerDay)).2.1 - 1

/-- The date `new Date(year, month, day)`: midnight of the day `day` of the
month with index `month` of `year`, a month index outside 0 to 11 and a day
outside the month carrying over, as `MakeDay` of ECMAScript does. -/
def jsDate (year month day : Int) : Int :=
  (daysFromCivil (year + month / 12) (month % 12 + 1) 1 + (day - 1)) * msPerDay

/-- The value `date.getDate()`, the day of the month, the server running in
UTC. -/
def dateOfMonth (date : Int) : Int := (civilFromDays (date / msPerDay)).2.2

/-- The operation `TimeClip` of ECMAScript: a time value beyond 100 000 000
days from the epoch is no date (`none` stands for the Invalid Date). -/
def timeClip (time : Int) : Option Int :=
  if -8640000000000000 ≤ time ∧ time ≤ 8640000000000000 then some time else none

def bitLengthAux : Nat → Nat → Nat
  | 0, _ => 0
  | fuel + 1, n => if n = 0 then 0 else bitLengthAux fuel (n / 2) + 1

/-- The number of binary digits of `n`. -/
def bitLength (n : Nat) : Nat := bitLengthAux n n

/-- Rounding of `n` to the 53 significant binary digits of a double, ties to
even: the pair `(q, s)` stands for `q * 2 ^ s`. -/
def roundBits (n : Nat) : Nat × Nat :=
  if bitLength n ≤ 53 then (n, 0)
  else
    let s := bitLength n - 53
    let q := n / 2 ^ s
    let r := n % 2 ^ s
    let half := 2 ^ (s - 1)
    if decide (half < r) || (r == half && q % 2 == 1) then (q + 1, s) else (q, s)

/-- The integer `ToIntegerOrInfinity(g + d)` that `setDate` makes of its
argument `g + d`, for the integer `g` that `getDate()` gave: the sum
`numerator / 2 ^ k` is rounded to a double and its fraction dropped; `none`
when the sum is not finite. -/
def JsNumber.truncSum (g : Int) : JsNumber → Option Int
  | JsNumber.infinite _ => none
  | JsNumber.finite negative mantissa exponent =>
    let k := (-exponent).toNat
    let signed : Int := if negative then -(mantissa : Int) else mantissa
    let numerator : Int := g * 2 ^ k + signed * 2 ^ exponent.toNat
    let rounded := roundBits numerator.natAbs
    let magnitude : Int := ((rounded.1 * 2 ^ rounded.2 / 2 ^ k : Nat) : Int)
    some (if numerator < 0 then -magnitude else magnitude)

/-- The date after `date.setDate(day)`, the server running in UTC:
`TimeClip(MakeDate(MakeDay(year, month, day), TimeWithinDay(date)))`, with
`none` for the Invalid Date and for a `day` that is not finite. -/
def setDate (date : Int) (day : Option Int) : Option Int :=
  match day with
  | none => none
  | some dt => timeClip (jsDate (fullYear date) (monthIndex date) dt + date % msPerDay)

/-- The date `featuredUntil` of the promote handler:
`featuredUntil.setDate(featuredUntil.getDate() + duration_days)` on the date
`new Date()`. -/
def featuredUntil (now : Int) (duration_days : JsNumber) : Option Int :=
  setDate now (duration_days.truncSum (dateOfMonth now))

/-- The query `Service.findOne({ _id, provider_id })`. -/
def findServiceOfProvider (st : Store) (sid pid : ObjectId) : Option Service :=
  st.services.find? (fun s => s.id == sid && s.provider_id == pid)

/-- The call `service.save()` on a loaded document: the stored document with
its `_id` is overwritten. -/
def saveService (s : Service) (ss : List Service) : List Service :=
  ss.map (fun x => if x.id == s.id then s else x)

/-- The update `Service.findByIdAndUpdate(id, { $inc: { views_count: 1 } })`. -/
def incViewsCount (sid : ObjectId) (ss : List Service) : List Service :=
  ss.map (fun s => if s.id == sid then { s with views_count := s.views_count + 1 } else s)

/-- MongoDB keeps `_id` unique within the services collection. -/
def Store.uniqueServiceIds (st : Store) : Prop :=
  (st.services.map (fun s => s.id)).Nodup

instance (st : Store) : Decidable st.uniqueServiceIds := by
  unfold Store.uniqueServiceIds; infer_instance

/-- The enum of `promotion_type` in `servicePromotionSchema`. -/
def promotionTypes : List String := ["featured", "trending", "search_boost"]

/-- The enum validator of `promotion_type` in `serviceSchema`
(`['featured', 'trending', 'search_boost', null]`), run by `service.save()`:
an absent value passes. -/
def validServicePromotionType : Option String → Bool
  | none => true
  | some t => promotionTypes.contains t

/-- The validators of `promotion_type` in `servicePromotionSchema`
(`required: true` and the enum), run by `promotion.save()`. -/
def validLedgerPromotionType : Option String → Bool
  | none => false
  | some t => promotionTypes.contains t

/-! ## `GET /services/:id` -/

/-- Handler of `router.get('/:id')`: the service is answered and its
`views_count` incremented. -/
def getService (H : Helpers) (st : Store) (idParam : String) : ServiceResponse × Store :=
  if !H.isValidObjectId idParam then
    ({ status := 400, success := false, message := some "Invalid service ID" }, st)
  else
    match findServiceById st (H.toObjectId idParam) with
    | none => ({ status := 404, success := false, message := some "Service not found" }, st)
    | some service =>
      ({ status := 200, success := true, service := some service },
       { st with services := incViewsCount (H.toObjectId idParam) st.services })

/-! ## `POST /services` -/

/-- The validators of `router.post('/')`: `title` trimmed of length 1 to 255,
`description` trimmed and not empty, `category` trimmed and not empty, `price`
numeric; the fields that fail. -/
def validateServiceCreate (body : ServiceBody) : List String :=
  (match body.title with
    | some t => if 1 ≤ (trimText t).length ∧ (trimText t).length ≤ 255 then [] else ["title"]
    | none => ["title"]) ++
  (match body.description with
    | some d => if 1 ≤ (trimText d).length then [] else ["description"]
    | none => ["description"]) ++
  (match body.category with
    | some c => if trimText c = "" then ["category"] else []
    | none => ["category"]) ++
  (match body.price with
    | some _ => []
    | none => ["price"])

/-- The value of `currency || 'TZS'`. -/
def currencyOrDefault : Option String → String
  | some c => if c = "" then "TZS" else c
  | none => "TZS"

/-- Handler of `router.post('/')`.  `newId` is the `_id` MongoDB gives the new
document and `now` its `created_at`. -/
def createService (H : Helpers) (st : Store) (user : ReqUser) (body : ServiceBody)
    (newId : ObjectId) (now : Int) : ServiceResponse × Store :=
  let errors := validateServiceCreate body
  if !errors.isEmpty then
    ({ status := 400, success := false, errors := errors }, st)
  else
    match findProviderByUser st (H.toObjectId user.id) with
    | none =>
      ({ status := 403, success := false,
         message := some "Only service providers can create services" }, st)
    | some provider =>
      match body.title, body.price with
      | some title, some price =>
        let newService : Service :=
          { id := newId
            provider_id := provider.id
            title := trimText title
            description := body.description.map trimText
            category := body.category.map trimText
            subcategory := body.subcategory.map trimText
            price := price
            currency := trimText (currencyOrDefault body.currency)
            duration := body.duration
            max_participants := body.maxParticipants
            location := body.location.map trimText
            country := body.country.map trimText
            region := body.region.map trimText
            district := body.district.map trimText
            area := body.area.map trimText
            images := body.images.getD []
            amenities := body.amenities.getD []
            created_at := now }
        ({ status := 201, success := true, message := some "Service created successfully",
           service := some newService },
         { st with services := st.services ++ [newService] })
      | _, _ =>
        -- not reached: the validators of `title` and `price` passed
        ({ status := 400, success := false, errors := errors }, st)

/-! ## `PUT /services/:id` -/

/-- The validators of `router.put('/:id')`: `title` and `description` are
optional; when present, trimmed, `title` has length 1 to 255 and `description`
is not empty. -/
def validateServiceUpdate (body : ServiceBody) : List String :=
  (match body.title with
    | some t => if 1 ≤ (trimText t).length ∧ (trimText t).length ≤ 255 then [] else ["title"]
    | none => []) ++
  (match body.description with
    | some d => if 1 ≤ (trimText d).length then [] else ["description"]
    | none => [])

/-- The assignment `Object.assign(service, updateData)`: each field of
`allowedFields` present in the body overwrites its column (`maxParticipants`
goes to `max_participants`); `title` and `description` arrive trimmed by their
sanitizers and the schema trims its `trim: true` columns. -/
def applyServiceUpdate (body : ServiceBody) (s : Service) : Service :=
  { s with
    title := match body.title with
      | some t => trimText t
      | none => s.title
    description := match body.description with
      | some d => some (trimText d)
      | none => s.description
    category := match body.category with
      | some c => some (trimText c)
      | none => s.category
    subcategory := match body.subcategory with
      | some c => some (trimText c)
      | none => s.subcategory
    price := body.price.getD s.price
    currency := match body.currency with
      | some c => trimText c
      | none => s.currency
    duration := match body.duration with
      | some d => some d
      | none => s.duration
    max_participants := match body.maxParticipants with
      | some m => some m
      | none => s.max_participants
    location := match body.location with
      | some l => some (trimText l)
      | none => s.location
    country := match body.country with
      | some l => some (trimText l)
      | none => s.country
    region := match body.region with
      | some l => some (trimText l)
      | none => s.region
    district := match body.district with
      | some l => some (trimText l)
      | none => s.district
    area := match body.area with
      | some l => some (trimText l)
      | none => s.area
    images := body.images.getD s.images
    amenities := body.amenities.getD s.amenities }

/-- Handler of `router.put('/:id')`. -/
def updateService (H : Helpers) (st : Store) (user : ReqUser) (idParam : String)
    (body : ServiceBody) : ServiceResponse × Store :=
  let errors := validateServiceUpdate body
  if !errors.isEmpty then
    ({ status := 400, success := false, errors := errors }, st)
  else if !H.isValidObjectId idParam then
    ({ status := 400, success := false, message := some "Invalid service ID" }, st)
  else
    match findProviderByUser st (H.toObjectId user.id) with
    | none =>
      ({ status := 403, success := false,
         message := some "Service provider profile not found" }, st)
    | some provider =>
      match findServiceOfProvider st (H.toObjectId idParam) provider.id with
      | none =>
        ({ status := 404, success := false,
           message := some "Service not found or you do not have permission to update it" }, st)
      | some service =>
        let service := applyServiceUpdate body service
        ({ status := 200, success := true, message := some "Service updated successfully",
           service := some service },
         { st with services := saveService service st.services })

/-! ## `DELETE /services/:id` -/

/-- Handler of `router.delete('/:id')`; `findOneAndDelete` removes the one
document the query matches. -/
def deleteService (H : Helpers) (st : Store) (user : ReqUser) (idParam : String) :
    ServiceResponse × Store :=
  if !H.isValidObjectId idParam then
    ({ status := 400, success := false, message := some "Invalid service ID" }, st)
  else
    match findProviderByUser st (H.toObjectId user.id) with
    | none =>
      ({ status := 403, success := false,
         message := some "Service provider profile not found" }, st)
    | some provider =>
      match findServiceOfProvider st (H.toObjectId idParam) provider.id with
      | none =>
        ({ status := 404, success := false,
           message := some "Service not found or you do not have permission to delete it" }, st)
      | some _ =>
        let query := fun (s : Service) =>
          s.id == H.toObjectId idParam && s.provider_id == provider.id
        ({ status := 200, success := true, message := some "Service deleted successfully" },
         { st with services := st.services.eraseP query })

/-! ## `PATCH /services/:id/status` -/

/-- Handler of `router.patch('/:id/status')` of the services router. -/
def toggleServiceStatus (H : Helpers) (st : Store) (user : ReqUser) (idParam : String) :
    ServiceResponse × Store :=
  if !H.isValidObjectId idParam then
    ({ status := 400, success := false, message := some "Invalid service ID" }, st)
  else
    match findProviderByUser st (H.toObjectId user.id) with
    | none =>
      ({ status := 403, success := false,
         message := some "Service provider profile not found" }, st)
    | some provider =>
      match findServiceOfProvider st (H.toObjectId idParam) provider.id with
      | none => ({ status := 404, success := false, message := some "Service not found" }, st)
      | some service =>
        let service := { service with is_active := !service.is_active }
        ({ status := 200, success := true,
           message := some (if service.is_active then "Service activated successfully"
                            else "Service deactivated successfully"),
           is_active := some service.is_active },
         { st with services := saveService service st.services })

/-! ## `POST /services/:id/promote` -/

/-- The cost computed by the promote handler: `amount || 50000`, replaced by
the fixed price of the three known types. -/
def promotionCost (promotion_type location : Option String) (amount : Option Int) : Int :=
  let totalCost : Int :=
    match amount with
    | some a => if a = 0 then 50000 else a
    | none => 50000
  if promotion_type = some "featured" then
    if location = some "both" then 80000 else 50000
  else if promotion_type = some "trending" then 30000
  else if promotion_type = some "search_boost" then 20000
  else totalCost

/-- The value of `payment_reference || 'DEMO-' + Date.now()`. -/
def paymentReference (given : Option String) (now : Int) : String :=
  match given with
  | some r => if r = "" then "DEMO-" ++ toString now else r
  | none => "DEMO-" ++ toString now

/-- The assignments of the promote handler to the loaded service, `expires`
being the date `featuredUntil`. -/
def promotedService (body : PromoteBody) (expires : Int) (service : Service) : Service :=
  { service with
    is_featured := true
    featured_until := some expires
    featured_priority := some (service.featured_priority.getD 0 + 1)
    promotion_type := body.promotion_type
    promotion_location := body.location }

/-- The document `new ServicePromotion(...)` of the promote handler, for a
request whose `promotion_type` is the text `ptype`, `expires` being the date
`featuredUntil`. -/
def promotionRecord (body : PromoteBody) (ptype : String) (service : Service)
    (newId : ObjectId) (now expires : Int) : ServicePromotion :=
  { id := newId
    service_id := service.id
    promotion_type := ptype
    promotion_location := body.location
    duration_days := body.duration_days.getD 30
    cost := promotionCost body.promotion_type body.location body.amount
    payment_method := some (body.payment_method.getD "demo")
    payment_reference := some (paymentReference body.payment_reference now)
    started_at := now
    expires_at := expires
    created_at := now }

/-- Handler of `router.post('/:id/promote')`.  `now` is the clock of the
request and `newId` the `_id` MongoDB gives the ledger record.  An exception
(the `null` provider, a document refused by its validators or holding an
Invalid Date) is answered 500 by the `catch`; what was saved before it stays
saved. -/
def promoteService (H : Helpers) (st : Store) (user : ReqUser) (idParam : String)
    (body : PromoteBody) (newId : ObjectId) (now : Int) : ServiceResponse × Store :=
  if !H.isValidObjectId idParam then
    ({ status := 400, success := false, message := some "Invalid service ID" }, st)
  else
    let totalCost := promotionCost body.promotion_type body.location body.amount
    match findProviderByUser st (H.toObjectId user.id) with
    | none =>
      -- `provider._id` throws on `null`
      ({ status := 500, success := false, message := some "Error promoting service" }, st)
    | some provider =>
      match findServiceOfProvider st (H.toObjectId idParam) provider.id with
      | none => ({ status := 404, success := false, message := some "Service not found" }, st)
      | some service =>
        match featuredUntil now (body.duration_days.getD 30) with
        | none =>
          -- `service.save()` rejects the Invalid Date in `featured_until`
          ({ status := 500, success := false, message := some "Error promoting service" }, st)
        | some expires =>
          let service := promotedService body expires service
          if !validServicePromotionType service.promotion_type then
            -- `service.save()` rejects the document
            ({ status := 500, success := false, message := some "Error promoting service" }, st)
          else
            let st1 := { st with services := saveService service st.services }
            match body.promotion_type with
            | none =>
              -- `promotion.save()` rejects the record: `promotion_type` is required
              ({ status := 500, success := false, message := some "Error promoting service" },
               st1)
            | some ptype =>
              if !validLedgerPromotionType (some ptype) then
                ({ status := 500, success := false, message := some "Error promoting service" },
                 st1)
              else
                let promotion := promotionRecord body ptype service newId now expires
                ({ status := 200, success := true,
                   message := some "Service promoted successfully",
                   promotion := some
                     { service_id := idParam
                       promotion_type := body.promotion_type
                       location := body.location
                       duration_days := body.duration_days.getD 30
                       cost := totalCost
                       expires_at := expires } },
                 { st1 with promotions := st1.promotions ++ [promotion] })

/-! ## The ranked views -/

/-- The test `{ $gt: now }` on a date column. -/
def dateAfter (t : Option Int) (now : Int) : Bool :=
  match t with
  | some u => decide (now < u)
  | none => false

/-- The test `{ $in: values }` on a text column. -/
def textIn (v : Option String) (values : List String) : Bool :=
  match v with
  | some x => values.contains x
  | none => false

/-- The locations of the featured-slides query. -/
def slideLocations : List String := ["homepage", "both", "homepage_slides", "top_carousel"]

/-- The locations of the trending query. -/
def trendingLocations : List String :=
  ["trending_section", "increased_visibility", "search_priority"]

/-- The filter of `router.get('/featured/slides')`. -/
def slidesQuery (now : Int) (s : Service) : Bool :=
  s.is_active && s.is_featured && dateAfter s.featured_until now &&
    textIn s.promotion_location slideLocations

/-- The filter of `router.get('/trending')`. -/
def trendingQuery (now : Int) (s : Service) : Bool :=
  s.is_active && s.is_featured && dateAfter s.featured_until now &&
    (s.promotion_type == some "trending") && textIn s.promotion_location trendingLocations

/-- Order of MongoDB on a numeric column that may be absent: strictly below;
an absent value sorts below every number. -/
def fieldLT : Option Int → Option Int → Bool
  | none, some _ => true
  | some a, some b => decide (a < b)
  | _, none => false

/-- The sort `{ featured_priority: -1, created_at: -1 }`: `a` may stand before
`b`. -/
def slidesBefore (a b : Service) : Prop :=
  fieldLT b.featured_priority a.featured_priority = true ∨
    (a.featured_priority = b.featured_priority ∧ b.created_at ≤ a.created_at)

instance : DecidableRel slidesBefore := fun a b => by
  unfold slidesBefore; infer_instance

/-- The sort `{ featured_priority: -1, views_count: -1, created_at: -1 }`: `a`
may stand before `b`. -/
def trendingBefore (a b : Service) : Prop :=
  fieldLT b.featured_priority a.featured_priority = true ∨
    (a.featured_priority = b.featured_priority ∧
      (b.views_count < a.views_count ∨
        (a.views_count = b.views_count ∧ b.created_at ≤ a.created_at)))

instance : DecidableRel trendingBefore := fun a b => by
  unfold trendingBefore; infer_instance

/-- The services `router.get('/featured/slides')` answers: the query, the sort
and `limit(5)`; the provider names added to each entry are left out. -/
def featuredSlides (st : Store) (now : Int) : List Service :=
  (((st.services.filter (slidesQuery now)).insertionSort slidesBefore).take 5)

/-- The services `router.get('/trending')` answers: the query, the sort and
`limit(12)`; the provider names added to each entry are left out. -/
def trendingServices (st : Store) (now : Int) : List Service :=
  (((st.services.filter (trendingQuery now)).insertionSort trendingBefore).take 12)

/-! ## Vocabulary of the statements on services -/

/-- A service as the spec admits it to the featured slides: active, featured,
`featured_until` later than `now`, and a location of the homepage set. -/
def SlideEligible (now : Int) (s : Service) : Prop :=
  s.is_active = true ∧ s.is_featured = true ∧
  (∃ t ∈ s.featured_until, now < t) ∧
  (∃ l ∈ s.promotion_location,
    l = "homepage" ∨ l = "both" ∨ l = "homepage_slides" ∨ l = "top_carousel")

instance (now : Int) : DecidablePred (SlideEligible now) := fun s => by
  unfold SlideEligible; infer_instance

/-- A service as the spec admits it to the trending view: active, featured,
`featured_until` later than `now`, type trending and a location of the
trending set. -/
def TrendingEligible (now : Int) (s : Service) : Prop :=
  s.is_active = true ∧ s.is_featured = true ∧
  (∃ t ∈ s.featured_until, now < t) ∧
  s.promotion_type = some "trending" ∧
  (∃ l ∈ s.promotion_location,
    l = "trending_section" ∨ l = "increased_visibility" ∨ l = "search_priority")

instance (now : Int) : DecidablePred (TrendingEligible now) := fun s => by
  unfold TrendingEligible; infer_instance

/-- Spec side: the value of a number as a rational, `none` for an infinity. -/
def JsNumber.toRat : JsNumber → Option Rat
  | JsNumber.infinite _ => none
  | JsNumber.finite negative mantissa exponent =>
    some ((if negative then -(mantissa : Rat) else (mantissa : Rat)) * 2 ^ exponent)

/-- A time value that a `Date` can hold, as the clock gives one. -/
def ValidTime (time : Int) : Prop :=
  -8640000000000000 ≤ time ∧ time ≤ 8640000000000000

/-- Spec side: the priority of a service as a rank, a service without a
priority standing below every service that has one. -/
def priorityRank : Option Int → WithBot Int
  | none => ⊥
  | some p => (p : WithBot Int)

/-- Spec side: the rank of a service among the featured slides, the pair of
its `featured_priority` and its `created_at` in lexicographic order. -/
def slideRank (s : Service) : Lex (WithBot Int × Int) :=
  toLex (priorityRank s.featured_priority, s.created_at)

/-- Spec side: `a` stands before `b` when the services are ordered by
`featured_priority` descending, then `created_at` descending. -/
def slidesDescending (a b : Service) : Prop := slideRank b ≤ slideRank a

/-- Spec side: the rank of a service in the trending view, the triple of its
`featured_priority`, its `views_count` and its `created_at` in lexicographic
order. -/
def trendingRank (s : Service) : Lex (WithBot Int × Lex (Int × Int)) :=
  toLex (priorityRank s.featured_priority, toLex (s.views_count, s.created_at))

/-- Spec side: `a` stands before `b` when the services are ordered by
`featured_priority` descending, then `views_count` descending, then
`created_at` descending. -/
def trendingDescending (a b : Service) : Prop := trendingRank b ≤ trendingRank a

/-- The list `result` is the first `k` (or all, if fewer) of the members of
`all` that satisfy `eligible`, in an order that respects `before`: it is
ordered, it has `min k n` entries where `n` members are eligible, and together
with some `rest` it is a rearrangement of the eligible members, each entry of
`result` standing before each entry of `rest`. -/
def IsRankedPrefix (k : Nat) (all : List Service) (eligible : Service → Prop)
    [DecidablePred eligible] (before : Service → Service → Prop) (result : List Service) :
    Prop :=
  result.Pairwise before ∧
  result.length = min k (all.filter (fun s => decide (eligible s))).length ∧
  ∃ rest, (result ++ rest).Perm (all.filter (fun s => decide (eligible s))) ∧
    ∀ x ∈ result, ∀ y ∈ rest, before x y

/-- A request to one of the service routes that write. -/
inductive ServiceRequest where
  | view (idParam : String)
  | create (user : ReqUser) (body : ServiceBody) (newId : ObjectId) (now : Int)
  | update (user : ReqUser) (idParam : String) (body : ServiceBody)
  | delete (user : ReqUser) (idParam : String)
  | promote (user : ReqUser) (idParam : String) (body : PromoteBody) (newId : ObjectId)
      (now : Int)
  | toggle (user : ReqUser) (idParam : String)

/-- Dispatch of a service request to its handler. -/
def handleService (H : Helpers) (st : Store) : ServiceRequest → ServiceResponse × Store
  | ServiceRequest.view idParam => getService H st idParam
  | ServiceRequest.create user body newId now => createService H st user body newId now
  | ServiceRequest.update user idParam body => updateService H st user idParam body
  | ServiceRequest.delete user idParam => deleteService H st user idParam
  | ServiceRequest.promote user idParam body newId now =>
    promoteService H st user idParam body newId now
  | ServiceRequest.toggle user idParam => toggleServiceStatus H st user idParam

/-- A service or booking operation. -/
inductive Operation where
  | service (req : ServiceRequest)
  | booking (req : BookingRequest)

/-- The store an operation leaves. -/
def Operation.apply (H : Helpers) (st : Store) : Operation → Store
  | Operation.service req => (handleService H st req).2
  | Operation.booking req => (handleBooking H st req).2

/-- MongoDB gives a new service an `_id` no service carries and no ledger
record refers to. -/
def Operation.fresh (st : Store) : Operation → Prop
  | Operation.service (ServiceRequest.create _ _ newId _) =>
    (∀ s ∈ st.services, s.id ≠ newId) ∧ ∀ r ∈ st.promotions, r.service_id ≠ newId
  | _ => True

/-- The stores reachable through service and booking operations from a store
whose promotion ledger is empty. -/
inductive Reachable (H : Helpers) : Store → Prop where
  | init (st : Store) (h : st.promotions = []) : Reachable H st
  | step (st : Store) (op : Operation) (h : Reachable H st) (hf : op.fresh st) :
      Reachable H (op.apply H st)

/-- The promotion state of a service after one operation: the `_id` is kept,
and either `featured_priority` and `is_featured` are as before, or the
priority is the previous one (absent counted as 0) plus 1 and the service is
featured. -/
def PromotionStep (s s' : Service) : Prop :=
  s'.id = s.id ∧
  ((s'.featured_priority = s.featured_priority ∧ s'.is_featured = s.is_featured) ∨
   (s'.featured_priority = some (s.featured_priority.getD 0 + 1) ∧ s'.is_featured = true))

/-- The ways one operation changes the services collection: not at all, by
rewriting documents in place, by saving one loaded document, by appending a
new document (which satisfies `isNew`), or by deleting one document. -/
inductive ServicesChange (isNew : Service → Prop) (ss : List Service) : List Service → Prop where
  | same : ServicesChange isNew ss ss
  | mapped (f : Service → Service) (h : ∀ s, PromotionStep s (f s)) :
      ServicesChange isNew ss (ss.map f)
  | saved (found updated : Service) (hmem : found ∈ ss) (h : PromotionStep found updated) :
      ServicesChange isNew ss (saveService updated ss)
  | appended (n : Service) (h : isNew n) : ServicesChange isNew ss (ss ++ [n])
  | erased (p : Service → Bool) : ServicesChange isNew ss (ss.eraseP p)

/-- The ledger invariant: a service for which a ledger record exists is
featured. -/
def LedgerInvariant (st : Store) : Prop :=
  ∀ r ∈ st.promotions, ∀ s ∈ st.services, s.id = r.service_id → s.is_featured = true

/-- The caller owns a ServiceProvider profile whose `_id` is the `provider_id`
of a stored service with the given `_id`. -/
def OwnsService (H : Helpers) (st : Store) (u : ReqUser) (sid : ObjectId) : Prop :=
  ∃ p ∈ st.providers, p.user_id = H.toObjectId u.id ∧
    ∃ s ∈ st.services, s.id = sid ∧ s.provider_id = p.id

instance (H : Helpers) (st : Store) (u : ReqUser) (sid : ObjectId) :
    Decidable (OwnsService H st u sid) := by
  unfold OwnsService; infer_instance

/-- The columns of a service that `PUT /services/:id` has no business with:
owner, activity, promotion state and counters. -/
def SameProtectedFields (s s' : Service) : Prop :=
  s'.id = s.id ∧ s'.provider_id = s.provider_id ∧ s'.is_active = s.is_active ∧
  s'.is_featured = s.is_featured ∧ s'.featured_until = s.featured_until ∧
  s'.featured_priority = s.featured_priority ∧ s'.promotion_type = s.promotion_type ∧
  s'.promotion_location = s.promotion_location ∧ s'.views_count = s.views_count ∧
  s'.bookings_count = s.bookings_count

/-! ## Route tables and dispatch -/

/-- The HTTP methods the routers register. -/
inductive Method where
  | GET
  | POST
  | PUT
  | PATCH
  | DELETE
  deriving DecidableEq, Repr

/-- A segment of a route path: a fixed text or a parameter such as `:id`. -/
inductive Segment where
  | fixed (text : String)
  | param (name : String)
  deriving DecidableEq, Repr

/-- The handlers of `routes/services.js`, named after their routes. -/
inductive ServiceHandler where
  | list
  | getById
  | myServices
  | create
  | update
  | delete
  | promote
  | featuredSlides
  | trending
  | toggleStatus
  deriving DecidableEq, Repr

/-- The handlers of `routes/bookings.js`, named after their routes. -/
inductive BookingHandler where
  | list
  | getById
  | create
  | updateStatus
  | cancel
  | recentActivity
  | providerAnalytics
  deriving DecidableEq, Repr

/-- One `router.METHOD(path, ...)` registration; `auth` tells whether
`authenticateJWT` stands before the handler. -/
structure Route (α : Type) where
  method : Method
  path : List Segment
  auth : Bool
  handler : α

/-- The match of a route path with the segments of a request path: a fixed
segment matches its own text, a parameter matches any one non-empty segment. -/
def matchPath : List Segment → List String → Bool
  | [], [] => true
  | Segment.fixed text :: ps, x :: xs => text == x && matchPath ps xs
  | Segment.param _ :: ps, x :: xs => x != "" && matchPath ps xs
  | _, _ => false

/-- What a router does with a request. -/
inductive Outcome (α : Type) where
  | notFound
  | unauthorized
  | handled (handler : α)
  deriving DecidableEq, Repr

/-- Dispatch of Express: the first registered route whose method and path
match takes the request; its `authenticateJWT` answers 401 to a request
without a valid token, otherwise its handler answers.  No handler of the two
routers passes the request on with `next()`. -/
def serve {α : Type} (routes : List (Route α)) (m : Method) (path : List String)
    (authenticated : Bool) : Outcome α :=
  match routes.find? (fun r => r.method == m && matchPath r.path path) with
  | none => Outcome.notFound
  | some r => if r.auth && !authenticated then Outcome.unauthorized else Outcome.handled r.handler

/-- The registrations of `routes/services.js`, in the order of the file. -/
def servicesRouter : List (Route ServiceHandler) :=
  [ { method := Method.GET, path := [], auth := false, handler := ServiceHandler.list },
    { method := Method.GET, path := [Segment.param "id"], auth := false,
      handler := ServiceHandler.getById },
    { method := Method.GET, path := [Segment.fixed "provider", Segment.fixed "my-services"],
      auth := true, handler := ServiceHandler.myServices },
    { method := Method.POST, path := [], auth := true, handler := ServiceHandler.create },
    { method := Method.PUT, path := [Segment.param "id"], auth := true,
      handler := ServiceHandler.update },
    { method := Method.DELETE, path := [Segment.param "id"], auth := true,
      handler := ServiceHandler.delete },
    { method := Method.POST, path := [Segment.param "id", Segment.fixed "promote"],
      auth := true, handler := ServiceHandler.promote },
    { method := Method.GET, path := [Segment.fixed "featured", Segment.fixed "slides"],
      auth := false, handler := ServiceHandler.featuredSlides },
    { method := Method.GET, path := [Segment.fixed "trending"], auth := false,
      handler := ServiceHandler.trending },
    { method := Method.PATCH, path := [Segment.param "id", Segment.fixed "status"],
      auth := true, handler := ServiceHandler.toggleStatus } ]

/-- The registrations of `routes/bookings.js`, in the order of the file. -/
def bookingsRouter : List (Route BookingHandler) :=
  [ { method := Method.GET, path := [], auth := true, handler := BookingHandler.list },
    { method := Method.GET, path := [Segment.param "id"], auth := true,
      handler := BookingHandler.getById },
    { method := Method.POST, path := [], auth := true, handler := BookingHandler.create },
    { method := Method.PATCH, path := [Segment.param "id", Segment.fixed "status"],
      auth := true, handler := BookingHandler.updateStatus },
    { method := Method.DELETE, path := [Segment.param "id"], auth := true,
      handler := BookingHandler.cancel },
    { method := Method.GET, path := [Segment.fixed "recent-activity"], auth := false,
      handler := BookingHandler.recentActivity },
    { method := Method.GET, path := [Segment.fixed "provider-analytics"], auth := true,
      handler := BookingHandler.providerAnalytics } ]

/-! ## `GET /bookings` and the JWT strategy -/

/-- The hexadecimal digit of a value below 16. -/
def hexDigitChar (n : Nat) : Char :=
  if n < 10 then Char.ofNat (48 + n) else Char.ofNat (87 + n)

/-- The text `_id.toString()` of an ObjectId: its 24 hexadecimal digits. -/
def hexText (n : ObjectId) : String :=
  String.mk ((List.range 24).reverse.map (fun i => hexDigitChar (n / 16 ^ i % 16)))

/-- The verify callback of the JWT strategy in `config/passport.js`: the user
document of the token's `id`, with `id = _id.toString()` added, becomes
`req.user`; `none` is `done(null, false)`.  Nothing of the token's payload is
copied, so `req.user` has the column `user_type` and no property `userType`. -/
def jwtStrategy (st : Store) (payloadId : ObjectId) : Option ReqUser :=
  (st.users.find? (fun user => user.id == payloadId)).map
    (fun user => { id := hexText user.id, user_type := user.user_type })

/-- What `GET /bookings` sends: the page of bookings and the size of the whole
selection (`page` and `totalPages` are left out). -/
structure BookingListResponse where
  status : Nat
  success : Bool
  message : Option String := none
  bookings : List Booking := []
  total : Nat := 0
  deriving DecidableEq, Repr

/-- The part `if (status) query.status = status` of the query of
`GET /bookings`: an absent or empty `status` selects every booking. -/
def statusQuery (status : Option String) (b : Booking) : Bool :=
  match status with
  | none => true
  | some s => if s = "" then true else b.status.name == s

/-- The selection `Booking.find(query).sort({ created_at: -1 }).skip(skip)
.limit(limit)` with `Booking.countDocuments(query)`; the names the handler
adds to each entry are left out. -/
def answerBookings (st : Store) (query : Booking → Bool) (skip pageLimit : Nat) :
    BookingListResponse :=
  { status := 200, success := true,
    bookings := (((st.bookings.filter query).insertionSort
      (fun a b => b.created_at ≤ a.created_at)).drop skip).take pageLimit,
    total := (st.bookings.filter query).length }

/-- Handler of `router.get('/')` of the bookings router.  `skip` and
`pageLimit` are the result of `getPagination(page, limit)`, a helper whose code
is not among the sources. -/
def listBookings (H : Helpers) (st : Store) (user : ReqUser) (status : Option String)
    (skip pageLimit : Nat) : BookingListResponse :=
  let userType := user.userType
  if userType = some "traveler" then
    answerBookings st
      (fun b => b.traveler_id == H.toObjectId user.id && statusQuery status b) skip pageLimit
  else if userType = some "service_provider" then
    match findProviderByUser st (H.toObjectId user.id) with
    | none => { status := 404, success := false, message := some "Provider profile not found" }
    | some provider =>
      answerBookings st (fun b => b.provider_id == provider.id && statusQuery status b) skip
        pageLimit
  else
    answerBookings st (fun b => statusQuery status b) skip pageLimit

/-! ## `GET /bookings/provider-analytics` -/

/-- The test `['confirmed', 'completed'].includes(b.status)`. -/
def isConfirmed (b : Booking) : Bool :=
  b.status == BookingStatus.confirmed || b.status == BookingStatus.completed

/-- The number of days the `switch (timeRange)` selects; every other value,
the absent one included, takes the `default` branch. -/
def rangeDays (timeRange : Option String) : Int :=
  if timeRange = some "7days" then 7
  else if timeRange = some "90days" then 90
  else if timeRange = some "1year" then 365
  else 30

/-- The date `startDate` of the handler. -/
def analyticsStart (now : Int) (timeRange : Option String) : Int :=
  now - rangeDays timeRange * 24 * 60 * 60 * 1000

/-- The date `previousStartDate` of the handler. -/
def analyticsPreviousStart (now : Int) (timeRange : Option String) : Int :=
  analyticsStart now timeRange - (now - analyticsStart now timeRange)

/-- The query `Booking.find({ provider_id, created_at: { $gte: startDate } })`. -/
def windowBookings (st : Store) (pid : ObjectId) (startDate : Int) : List Booking :=
  st.bookings.filter (fun b => b.provider_id == pid && decide (startDate ≤ b.created_at))

/-- The query for `previousBookings`: the provider's confirmed or completed
bookings with `created_at` from `previousStartDate` on and before `startDate`. -/
def previousWindowBookings (st : Store) (pid : ObjectId) (previousStartDate startDate : Int) :
    List Booking :=
  st.bookings.filter (fun b => b.provider_id == pid &&
    decide (previousStartDate ≤ b.created_at) && decide (b.created_at < startDate) &&
    isConfirmed b)

/-- The sum `reduce((sum, b) => sum + (b.total_price || 0), 0)`. -/
def revenueOf (bs : List Booking) : Int :=
  bs.foldl (fun sum b => sum + b.total_price.getD 0) 0

/-- The quotient of two numbers; `none` stands for the value that is not
finite (`Infinity` or `NaN`) a zero divisor gives. -/
def quotient (n d : Int) : Option Rat :=
  if d = 0 then none else some ((n : Rat) / (d : Rat))

/-- The number `parseFloat(x.toFixed(1))`: the nearest tenth, a half rounded
away from zero (in exact arithmetic; the rounding of floating point is left
out). -/
def roundTenth (x : Rat) : Rat :=
  if 0 ≤ x then ((⌊x * 10 + 1 / 2⌋ : Int) : Rat) / 10
  else -(((⌊-x * 10 + 1 / 2⌋ : Int) : Rat) / 10)

/-- The growth the handler computes from the current and the previous value:
`previous > 0 ? (((current - previous) / previous) * 100).toFixed(1) : 0`, read
back with `parseFloat`. -/
def growthOf (current previous : Int) : Option Rat :=
  if previous > 0 then
    (quotient (current - previous) previous).map (fun q => roundTenth (q * 100))
  else some 0

/-- The country the handler files a booking under:
`b.traveler_id?.country || 'Unknown'`, `traveler_id` being the populated user. -/
def countryOf (st : Store) (b : Booking) : String :=
  match (st.users.find? (fun user => user.id == b.traveler_id)).bind (fun user => user.country) with
  | some c => if c = "" then "Unknown" else c
  | none => "Unknown"

/-- The step `countryStats[country] = (countryStats[country] || 0) + 1`, the
keys kept in the order they were first written. -/
def bumpCount (stats : List (String × Nat)) (country : String) : List (String × Nat) :=
  match stats with
  | [] => [(country, 1)]
  | (c, n) :: rest =>
    if c = country then (c, n + 1) :: rest else (c, n) :: bumpCount rest country

/-- The object `countryStats` after the `forEach` over the bookings. -/
def countryStats (st : Store) (bs : List Booking) : List (String × Nat) :=
  bs.foldl (fun stats b => bumpCount stats (countryOf st b)) []

/-- The value `totalBookings > 0 ? Math.round((bookings / totalBookings) * 100) : 0`;
`Math.round` of the quotient is the integer quotient of `200 * bookings +
totalBookings` by `2 * totalBookings`. -/
def percentageOf (bookings totalBookings : Nat) : Int :=
  if totalBookings > 0 then
    (200 * (bookings : Int) + (totalBookings : Int)) / (2 * (totalBookings : Int))
  else 0

/-- An entry of `topCountries`. -/
structure CountryShare where
  country : String
  bookings : Nat
  percentage : Int
  deriving DecidableEq, Repr

/-- The list `topCountries`: the entries of `countryStats` with their
percentage of `totalBookings`, sorted by `bookings` descending (the sort is
stable), the first five. -/
def topCountries (st : Store) (bs : List Booking) (totalBookings : Nat) : List CountryShare :=
  (((countryStats st bs).map
      (fun entry => { country := entry.1, bookings := entry.2,
                      percentage := percentageOf entry.2 totalBookings : CountryShare })).insertionSort
    (fun a b => b.bookings ≤ a.bookings)).take 5

/-- The text `toLocaleDateString('en-US', { month: 'short' })` of a date. -/
def shortMonth (date : Int) : String :=
  ["Jan", "Feb", "Mar", "Apr", "May", "Jun", "Jul", "Aug", "Sep", "Oct", "Nov",
    "Dec"].getD (monthIndex date).toNat ""

/-- An entry of `monthlyData`. -/
structure MonthEntry where
  month : String
  revenue : Int
  bookings : Nat
  deriving DecidableEq, Repr

/-- The entry the loop pushes for `i`: the bookings with `monthStart <= date
&& date <= monthEnd` that are confirmed or completed, where `monthStart = new
Date(year, month - i, 1)` and `monthEnd = new Date(year, month - i + 1, 0)`. -/
def monthEntry (now : Int) (bs : List Booking) (i : Int) : MonthEntry :=
  let monthStart := jsDate (fullYear now) (monthIndex now - i) 1
  let monthEnd := jsDate (fullYear now) (monthIndex now - i + 1) 0
  let monthBookings := bs.filter (fun b =>
    decide (monthStart ≤ b.created_at) && decide (b.created_at ≤ monthEnd) && isConfirmed b)
  { month := shortMonth monthStart, revenue := revenueOf monthBookings,
    bookings := monthBookings.length }

/-- The list `monthlyData`: the loop `for (let i = 5; i >= 0; i--)`. -/
def monthlyData (now : Int) (bs : List Booking) : List MonthEntry :=
  [5, 4, 3, 2, 1, 0].map (monthEntry now bs)

/-- The analytics the handler answers; the keys no statement here reads
(`customers`, `rating`, `topServices`, the trends) are left out.  A growth of
`none` is a value that is not finite. -/
structure Analytics where
  revenueTotal : Int
  revenueGrowth : Option Rat
  bookingsTotal : Nat
  bookingsGrowth : Option Rat
  topCountries : List CountryShare
  monthlyData : List MonthEntry

/-- Handler of `router.get('/provider-analytics')`, as a function of the store,
the caller, `req.query.timeRange` and the clock; `none` is the answer 404
"Provider profile not found". -/
def providerAnalytics (H : Helpers) (st : Store) (user : ReqUser) (timeRange : Option String)
    (now : Int) : Option Analytics :=
  match findProviderByUser st (H.toObjectId user.id) with
  | none => none
  | some provider =>
    let startDate := analyticsStart now timeRange
    let bookings := windowBookings st provider.id startDate
    let confirmedBookings := bookings.filter isConfirmed
    let totalRevenue := revenueOf confirmedBookings
    let totalBookings := confirmedBookings.length
    let previousStartDate := analyticsPreviousStart now timeRange
    let previousBookings := previousWindowBookings st provider.id previousStartDate startDate
    let previousRevenue := revenueOf previousBookings
    some
      { revenueTotal := totalRevenue
        revenueGrowth := growthOf totalRevenue previousRevenue
        bookingsTotal := totalBookings
        bookingsGrowth := growthOf totalBookings previousBookings.length
        topCountries := topCountries st bookings totalBookings
        monthlyData := monthlyData now bookings }

/-- The revenue the spec means: the sum of `total_amount` over the bookings. -/
def amountOf (bs : List Booking) : Int :=
  (bs.map (fun b => b.total_amount)).sum

/-- The month (year, month from 1) a date lies in. -/
def monthOf (date : Int) : Int × Int :=
  ((civilFromDays (date / msPerDay)).1, (civilFromDays (date / msPerDay)).2.1)

/-! ## Sample data for the service routes -/

/-- A second provider's user, `_id` 0xb2. -/
def carol : ReqUser := { id := sampleId "b2", user_type := "service_provider" }

/-- The provider profile 0xc2 of user 0xb2. -/
def otherProvider : ServiceProvider := { id := 194, user_id := 178 }

/-- Two providers, the services 0xd1 and 0xd2 of the first one, an empty
ledger. -/
def promoStore : Store :=
  { providers := [sampleProvider, otherProvider], services := [activeService, inactiveService] }

/-- A promote request: trending, 30 days, shown in the trending section. -/
def trendingBody : PromoteBody :=
  { promotion_type := some "trending", duration_days := some 30,
    location := some "trending_section" }

/-- The promote request of bob for his service 0xd1, made at time 1000. -/
def promoteRequest : Operation :=
  Operation.service (ServiceRequest.promote bob (sampleId "d1") trendingBody 241 1000)

/-- The store `promoStore` after bob's promote request. -/
def promotedStore : Store := promoteRequest.apply hexHelpers promoStore

/-- A promote request whose body carries no field at all. -/
def emptyPromoteBody : PromoteBody := {}

/-- A promote request for one day and a half: the duration is the double
`3 * 2 ^ (-1)`. -/
def fractionalBody : PromoteBody :=
  { promotion_type := some "trending", duration_days := some (JsNumber.finite false 3 (-1)),
    location := some "trending_section" }

/-- A promote request for 100 000 000 days. -/
def endlessBody : PromoteBody :=
  { promotion_type := some "trending", duration_days := some 100000000,
    location := some "trending_section" }

/-- An update request that changes the price only. -/
def priceBody : ServiceBody := { price := some 250 }

/-- The user document of the traveler 0xa1. -/
def aliceDoc : User := { id := 161, user_type := "traveler" }

/-- The user document of another traveler, 0xa2. -/
def danaDoc : User := { id := 162, user_type := "traveler" }

/-- A confirmed booking 0xe6 of the traveler 0xa2. -/
def danaBooking : Booking :=
  { id := 230, traveler_id := 162, service_id := 209, provider_id := 193,
    booking_date := "2025-01-20", total_amount := 100, status := BookingStatus.confirmed,
    created_at := 5000 }

/-- Two travelers with one booking each. -/
def listStore : Store :=
  { providers := [sampleProvider], services := [activeService],
    bookings := [pendingBooking, danaBooking], users := [aliceDoc, danaDoc] }

/-- The clock of the analytics examples: 2025-02-15T00:00:00Z. -/
def analyticsNow : Int := 1739577600000

/-- A confirmed booking 0xe7 of traveler 0xa1 with provider 0xc1, amount 300,
created 2025-01-31T12:00:00Z. -/
def januaryBooking : Booking :=
  { id := 231, traveler_id := 161, service_id := 209, provider_id := 193,
    booking_date := "2025-03-01", participants := 3, total_amount := 300,
    status := BookingStatus.confirmed, created_at := 1738324800000 }

/-- A pending booking 0xe8 of traveler 0xa2 with provider 0xc1, amount 100,
created 2025-02-10T00:00:00Z. -/
def februaryBooking : Booking :=
  { id := 232, traveler_id := 162, service_id := 209, provider_id := 193,
    booking_date := "2025-03-02", total_amount := 100, created_at := 1739145600000 }

/-- The provider 0xc1 with the two bookings above. -/
def analyticsStore : Store :=
  { providers := [sampleProvider], services := [activeService],
    bookings := [januaryBooking, februaryBooking], users := [aliceDoc, danaDoc] }

/-! ## Lemmas on the collection primitives -/

theorem find_saveBooking (b : Booking) (bs : List Booking) (k : ObjectId) :
    (saveBooking b bs).find? (fun x => x.id == k) =
      (bs.find? (fun x => x.id == k)).map (fun x => if x.id == b.id then b else x) := by
  have hcomp : ((fun x : Booking => x.id == k) ∘ fun x => if x.id == b.id then b else x) =
      fun x => x.id == k := by
    funext x
    by_cases h : x.id = b.id
    · simp [Function.comp, h]
    · simp [Function.comp, h]
  unfold saveBooking
  rw [List.find?_map, hcomp]

theorem bookingStatus_save (st : Store) (b : Booking) (k : ObjectId) :
    Store.bookingStatus { st with bookings := saveBooking b st.bookings } k =
      if k = b.id then (st.bookingStatus k).map (fun _ => b.status) else st.bookingStatus k := by
  unfold Store.bookingStatus
  simp only [find_saveBooking]
  cases hf : st.bookings.find? (fun x => x.id == k) with
  | none => simp
  | some x =>
    have hx : x.id = k := by simpa using List.find?_some hf
    by_cases h : k = b.id
    · simp [h, hx]
    · have h2 : ¬ x.id = b.id := fun e => h (hx ▸ e)
      simp [h, h2]

theorem find_conj_some {bs : List Booking} {k : ObjectId} {q : Booking → Bool} {b : Booking}
    (h : bs.find? (fun x => x.id == k && q x) = some b) : b ∈ bs ∧ b.id = k ∧ q b = true := by
  refine ⟨List.mem_of_find?_eq_some h, ?_⟩
  simpa using List.find?_some h

theorem find_id_of_mem {bs : List Booking} (hu : (bs.map (fun b => b.id)).Nodup) {b : Booking}
    (hb : b ∈ bs) : bs.find? (fun x => x.id == b.id) = some b := by
  induction bs with
  | nil => cases hb
  | cons a l ih =>
    rw [List.map_cons, List.nodup_cons] at hu
    rcases List.mem_cons.mp hb with rfl | hmem
    · simp [List.find?_cons]
    · have hne : ¬ a.id = b.id := fun e => hu.1 (e ▸ List.mem_map_of_mem (fun b => b.id) hmem)
      simp [List.find?_cons, hne, ih hu.2 hmem]

/-! ## What each handler does, case by case -/

theorem updateBookingStatus_ok {H : Helpers} {st : Store} {u : ReqUser} {idParam : String}
    {status : Option String} {t : BookingStatus} {p : ServiceProvider} {b : Booking}
    (ht : status.bind BookingStatus.ofString? = some t)
    (hv : H.isValidObjectId idParam = true)
    (hp : findProviderByUser st (H.toObjectId u.id) = some p)
    (hb : findBookingOfProvider st (H.toObjectId idParam) p.id = some b) :
    updateBookingStatus H st u idParam status =
      ({ status := 200, success := true, message := some "Booking status updated",
         booking := some { b with status := t } },
       { st with bookings := saveBooking { b with status := t } st.bookings }) := by
  simp [updateBookingStatus, ht, hv, hp, hb]

theorem updateBookingStatus_success {H : Helpers} {st : Store} {u : ReqUser} {idParam : String}
    {status : Option String}
    (h : (updateBookingStatus H st u idParam status).1.success = true) :
    ∃ t p b, status.bind BookingStatus.ofString? = some t ∧
      H.isValidObjectId idParam = true ∧
      findProviderByUser st (H.toObjectId u.id) = some p ∧
      findBookingOfProvider st (H.toObjectId idParam) p.id = some b := by
  unfold updateBookingStatus at h
  cases ht : status.bind BookingStatus.ofString? with
  | none => simp [ht] at h
  | some t =>
    cases hv : H.isValidObjectId idParam with
    | false => simp [ht, hv] at h
    | true =>
      cases hp : findProviderByUser st (H.toObjectId u.id) with
      | none => simp [ht, hv, hp] at h
      | some p =>
        cases hb : findBookingOfProvider st (H.toObjectId idParam) p.id with
        | none => simp [ht, hv, hp, hb] at h
        | some b => exact ⟨t, p, b, rfl, rfl, rfl, hb⟩

theorem updateBookingStatus_fail {H : Helpers} {st : Store} {u : ReqUser} {idParam : String}
    {status : Option String}
    (h : (updateBookingStatus H st u idParam status).1.success = false) :
    (updateBookingStatus H st u idParam status).2 = st := by
  unfold updateBookingStatus at h ⊢
  cases ht : status.bind BookingStatus.ofString? with
  | none => simp [ht]
  | some t =>
    cases hv : H.isValidObjectId idParam with
    | false => simp [ht, hv]
    | true =>
      cases hp : findProviderByUser st (H.toObjectId u.id) with
      | none => simp [ht, hv, hp]
      | some p =>
        cases hb : findBookingOfProvider st (H.toObjectId idParam) p.id with
        | none => simp [ht, hv, hp, hb]
        | some b => simp [ht, hv, hp, hb] at h

theorem cancelBooking_ok {H : Helpers} {st : Store} {u : ReqUser} {idParam : String}
    {b : Booking} (hv : H.isValidObjectId idParam = true)
    (hb : findBookingOfTraveler st (H.toObjectId idParam) (H.toObjectId u.id) = some b)
    (hs : b.status ≠ BookingStatus.completed) :
    cancelBooking H st u idParam =
      ({ status := 200, success := true, message := some "Booking cancelled successfully" },
       { st with bookings := saveBooking { b with status := BookingStatus.cancelled } st.bookings }) := by
  simp [cancelBooking, hv, hb, hs]

theorem cancelBooking_completed {H : Helpers} {st : Store} {u : ReqUser} {idParam : String}
    {b : Booking} (hv : H.isValidObjectId idParam = true)
    (hb : findBookingOfTraveler st (H.toObjectId idParam) (H.toObjectId u.id) = some b)
    (hs : b.status = BookingStatus.completed) :
    cancelBooking H st u idParam =
      ({ status := 400, success := false, message := some "Cannot cancel completed booking" }, st) := by
  simp [cancelBooking, hv, hb, hs]

theorem cancelBooking_success {H : Helpers} {st : Store} {u : ReqUser} {idParam : String}
    (h : (cancelBooking H st u idParam).1.success = true) :
    ∃ b, H.isValidObjectId idParam = true ∧
      findBookingOfTraveler st (H.toObjectId idParam) (H.toObjectId u.id) = some b ∧
      b.status ≠ BookingStatus.completed := by
  unfold cancelBooking at h
  cases hv : H.isValidObjectId idParam with
  | false => simp [hv] at h
  | true =>
    cases hb : findBookingOfTraveler st (H.toObjectId idParam) (H.toObjectId u.id) with
    | none => simp [hv, hb] at h
    | some b =>
      by_cases hs : b.status = BookingStatus.completed
      · simp [hv, hb, hs] at h
      · exact ⟨b, rfl, rfl, hs⟩

theorem cancelBooking_fail {H : Helpers} {st : Store} {u : ReqUser} {idParam : String}
    (h : (cancelBooking H st u idParam).1.success = false) :
    (cancelBooking H st u idParam).2 = st := by
  unfold cancelBooking at h ⊢
  cases hv : H.isValidObjectId idParam with
  | false => simp [hv]
  | true =>
    cases hb : findBookingOfTraveler st (H.toObjectId idParam) (H.toObjectId u.id) with
    | none => simp [hv, hb]
    | some b =>
      by_cases hs : b.status = BookingStatus.completed
      · simp [hv, hb, hs]
      · simp [hv, hb, hs] at h

theorem validateCreate_nil {H : Helpers} {body : CreateBookingBody}
    (h : validateCreate H body = []) :
    ∃ sid d, body.serviceId = some sid ∧ sid ≠ "" ∧ body.bookingDate = some d ∧
      H.isISO8601 d = true := by
  unfold validateCreate at h
  rw [List.append_eq_nil] at h
  obtain ⟨h1, h2⟩ := h
  cases hs : body.serviceId with
  | none => simp [hs] at h1
  | some sid =>
    cases hd : body.bookingDate with
    | none => simp [hd] at h2
    | some d =>
      refine ⟨sid, d, rfl, ?_, rfl, ?_⟩
      · intro e; simp [hs, e] at h1
      · by_contra hc; simp [hd, hc] at h2

theorem createBooking_ok {H : Helpers} {st : Store} (u : ReqUser) {body : CreateBookingBody}
    (newId : ObjectId) (now : Int) {sid : String} {s : Service} {p : ServiceProvider}
    (hval : validateCreate H body = []) (hsid : body.serviceId = some sid)
    (hv : H.isValidObjectId sid = true)
    (hs : findServiceById st (H.toObjectId sid) = some s) (ha : s.is_active = true)
    (hp : populateProvider st s = some p) :
    ∃ b, CreatedWith H st u body newId sid s p b (createBooking H st u body newId now) := by
  obtain ⟨sid', d, h1, _, h3, _⟩ := validateCreate_nil hval
  have e : sid' = sid := by rw [hsid] at h1; exact (Option.some.inj h1).symm
  subst e
  refine ⟨{ id := newId, traveler_id := H.toObjectId u.id, service_id := s.id,
             provider_id := p.id, booking_date := d, start_time := body.startTime,
             end_time := body.endTime, participants := body.participants.getD 1,
             total_amount := s.price * body.participants.getD 1,
             special_requests := body.specialRequests, status := BookingStatus.pending,
             payment_status := PaymentStatus.pending, created_at := now }, ?_⟩
  simp [CreatedWith, createBooking, hval, h1, h3, hv, hs, ha, hp]

theorem createBooking_success {H : Helpers} {st : Store} {u : ReqUser}
    {body : CreateBookingBody} {newId : ObjectId} {now : Int}
    (h : (createBooking H st u body newId now).1.success = true) :
    ∃ sid s p, validateCreate H body = [] ∧ body.serviceId = some sid ∧
      H.isValidObjectId sid = true ∧ findServiceById st (H.toObjectId sid) = some s ∧
      s.is_active = true ∧ populateProvider st s = some p := by
  unfold createBooking at h
  by_cases hval : validateCreate H body = []
  · obtain ⟨sid, d, h1, _, h3, _⟩ := validateCreate_nil hval
    cases hv : H.isValidObjectId sid with
    | false => simp [hval, h1, h3, hv] at h
    | true =>
      cases hs : findServiceById st (H.toObjectId sid) with
      | none => simp [hval, h1, h3, hv, hs] at h
      | some s =>
        cases ha : s.is_active with
        | false => simp [hval, h1, h3, hv, hs, ha] at h
        | true =>
          cases hp : populateProvider st s with
          | none => simp [hval, h1, h3, hv, hs, ha, hp] at h
          | some p => exact ⟨sid, s, p, hval, h1, hv, hs, ha, hp⟩
  · have hne : (validateCreate H body).isEmpty = false := by
      cases hl : validateCreate H body with
      | nil => exact absurd hl hval
      | cons a l => rfl
    simp [hne] at h

theorem createBooking_fail {H : Helpers} {st : Store} {u : ReqUser}
    {body : CreateBookingBody} {newId : ObjectId} {now : Int}
    (h : (createBooking H st u body newId now).1.success = false) :
    (createBooking H st u body newId now).2 = st := by
  unfold createBooking at h ⊢
  by_cases hval : validateCreate H body = []
  · obtain ⟨sid, d, h1, _, h3, _⟩ := validateCreate_nil hval
    cases hv : H.isValidObjectId sid with
    | false => simp [hval, h1, h3, hv]
    | true =>
      cases hs : findServiceById st (H.toObjectId sid) with
      | none => simp [hval, h1, h3, hv, hs]
      | some s =>
        cases ha : s.is_active with
        | false => simp [hval, h1, h3, hv, hs, ha]
        | true =>
          cases hp : populateProvider st s with
          | none => simp [hval, h1, h3, hv, hs, ha, hp]
          | some p => simp [hval, h1, h3, hv, hs, ha, hp] at h
  · have hne : (validateCreate H body).isEmpty = false := by
      cases hl : validateCreate H body with
      | nil => exact absurd hl hval
      | cons a l => rfl
    simp [hne]

theorem ofString_name (t : BookingStatus) : BookingStatus.ofString? t.name = some t := by
  cases t <;> decide

theorem bind_ofString_name (t : BookingStatus) :
    (some t.name).bind BookingStatus.ofString? = some t := by
  simp [ofString_name]

theorem ofString_cancelled {s : String}
    (h : BookingStatus.ofString? s = some BookingStatus.cancelled) : s = "cancelled" := by
  unfold BookingStatus.ofString? at h
  by_cases h1 : s = "pending"
  · simp [h1] at h
  · by_cases h2 : s = "confirmed"
    · simp [h2] at h
    · by_cases h3 : s = "cancelled"
      · exact h3
      · by_cases h4 : s = "completed"
        · simp [h4] at h
        · simp [h1, h2, h3, h4] at h

/-- After a successful status update the booking named in the request has the
requested status. -/
theorem updateBookingStatus_result {H : Helpers} {st : Store} {u : ReqUser} {idParam : String}
    {status : Option String} {t : BookingStatus} {p : ServiceProvider} {b : Booking}
    (ht : status.bind BookingStatus.ofString? = some t)
    (hv : H.isValidObjectId idParam = true)
    (hp : findProviderByUser st (H.toObjectId u.id) = some p)
    (hb : findBookingOfProvider st (H.toObjectId idParam) p.id = some b) :
    (updateBookingStatus H st u idParam status).1.success = true ∧
    (updateBookingStatus H st u idParam status).2.bookingStatus (H.toObjectId idParam) =
      some t := by
  rw [updateBookingStatus_ok ht hv hp hb]
  obtain ⟨hmem, hid, _⟩ := find_conj_some hb
  refine ⟨rfl, ?_⟩
  rw [bookingStatus_save]
  have hex : ∃ x, st.bookings.find? (fun x => x.id == H.toObjectId idParam) = some x := by
    cases hf : st.bookings.find? (fun x => x.id == H.toObjectId idParam) with
    | some x => exact ⟨x, rfl⟩
    | none =>
      rw [List.find?_eq_none] at hf
      exact absurd (by simpa using hid) (hf b hmem)
  obtain ⟨x, hx⟩ := hex
  simp [Store.bookingStatus, hx, hid]

/-- After a successful cancel the booking named in the request is cancelled. -/
theorem cancelBooking_result {H : Helpers} {st : Store} {u : ReqUser} {idParam : String}
    {b : Booking} (hv : H.isValidObjectId idParam = true)
    (hb : findBookingOfTraveler st (H.toObjectId idParam) (H.toObjectId u.id) = some b)
    (hs : b.status ≠ BookingStatus.completed) :
    (cancelBooking H st u idParam).1.success = true ∧
    (cancelBooking H st u idParam).2.bookingStatus (H.toObjectId idParam) =
      some BookingStatus.cancelled := by
  rw [cancelBooking_ok hv hb hs]
  obtain ⟨hmem, hid, _⟩ := find_conj_some hb
  refine ⟨rfl, ?_⟩
  rw [bookingStatus_save]
  have hex : ∃ x, st.bookings.find? (fun x => x.id == H.toObjectId idParam) = some x := by
    cases hf : st.bookings.find? (fun x => x.id == H.toObjectId idParam) with
    | some x => exact ⟨x, rfl⟩
    | none =>
      rw [List.find?_eq_none] at hf
      exact absurd (by simpa using hid) (hf b hmem)
  obtain ⟨x, hx⟩ := hex
  simp [Store.bookingStatus, hx, hid]

/-- With unique ids, the document a route finds by `_id` and one more field is
the document stored under that `_id`. -/
theorem found_is_stored {st : Store} (hu : st.uniqueBookingIds) {bid : ObjectId}
    {q : Booking → Bool} {b : Booking}
    (hb : st.bookings.find? (fun x => x.id == bid && q x) = some b) :
    st.bookings.find? (fun x => x.id == bid) = some b := by
  obtain ⟨hmem, hid, _⟩ := find_conj_some hb
  rw [← hid]
  exact find_id_of_mem hu hmem

theorem status_of_found {st : Store} (hu : st.uniqueBookingIds) {bid : ObjectId}
    {q : Booking → Bool} {b : Booking} {s : BookingStatus}
    (hb : st.bookings.find? (fun x => x.id == bid && q x) = some b)
    (hs : st.bookingStatus bid = some s) : b.status = s := by
  have h := found_is_stored hu hb
  simp [Store.bookingStatus, h] at hs
  exact hs

theorem findProviderByUser_some {st : Store} {uid : ObjectId} {p : ServiceProvider}
    (h : findProviderByUser st uid = some p) : p ∈ st.providers ∧ p.user_id = uid := by
  unfold findProviderByUser at h
  exact ⟨List.mem_of_find?_eq_some h, by simpa using List.find?_some h⟩

theorem findBookingOfProvider_some {st : Store} {bid pid : ObjectId} {b : Booking}
    (h : findBookingOfProvider st bid pid = some b) :
    b ∈ st.bookings ∧ b.id = bid ∧ b.provider_id = pid := by
  unfold findBookingOfProvider at h
  obtain ⟨h1, h2, h3⟩ := find_conj_some h
  exact ⟨h1, h2, by simpa using h3⟩

theorem findBookingOfTraveler_some {st : Store} {bid tid : ObjectId} {b : Booking}
    (h : findBookingOfTraveler st bid tid = some b) :
    b ∈ st.bookings ∧ b.id = bid ∧ b.traveler_id = tid := by
  unfold findBookingOfTraveler at h
  obtain ⟨h1, h2, h3⟩ := find_conj_some h
  exact ⟨h1, h2, by simpa using h3⟩

theorem updateBookingStatus_owner {H : Helpers} {st : Store} {u : ReqUser} {idParam : String}
    {status : Option String}
    (h : (updateBookingStatus H st u idParam status).1.success = true) :
    OwnsProviderOf H st u (H.toObjectId idParam) := by
  obtain ⟨t, p, b, _, _, hp, hb⟩ := updateBookingStatus_success h
  obtain ⟨hpm, hpu⟩ := findProviderByUser_some hp
  obtain ⟨hbm, hbi, hbp⟩ := findBookingOfProvider_some hb
  exact ⟨p, hpm, hpu, b, hbm, hbi, hbp⟩

theorem updateMoves_target {H : Helpers} {st : Store} {u : ReqUser} {idParam : String}
    {status : Option String} {s t : BookingStatus}
    (h : UpdateMoves H st u idParam status s t) :
    status.bind BookingStatus.ofString? = some t := by
  obtain ⟨_, hsucc, hafter⟩ := h
  obtain ⟨t', p, b, ht, hv, hp, hb⟩ := updateBookingStatus_success hsucc
  have h2 := (updateBookingStatus_result ht hv hp hb).2
  rw [h2] at hafter
  rw [ht, hafter]

theorem cancelMoves_target {H : Helpers} {st : Store} {u : ReqUser} {idParam : String}
    {s t : BookingStatus} (h : CancelMoves H st u idParam s t) :
    t = BookingStatus.cancelled := by
  obtain ⟨_, hsucc, hafter⟩ := h
  obtain ⟨b, hv, hb, hs⟩ := cancelBooking_success hsucc
  have h2 := (cancelBooking_result hv hb hs).2
  rw [h2] at hafter
  exact (Option.some.inj hafter).symm

/-! ## Status transitions -/

/-- C1, the claim fails: one successful status update by the owning provider
takes the pending booking 0xe1 to completed, and another one takes it from
pending to pending. -/
theorem pending_booking_completed_in_one_update :
    UpdateMoves hexHelpers sampleStore bob (sampleId "e1") (some "completed")
      BookingStatus.pending BookingStatus.completed ∧
    UpdateMoves hexHelpers sampleStore bob (sampleId "e1") (some "pending")
      BookingStatus.pending BookingStatus.pending := by
  decide

/-- C1, as amended: from pending, a successful status update leaves the booking
in the status the request names and a successful cancel leaves it cancelled;
the update of the owning provider succeeds for each of the four statuses,
completed and pending included, and the cancel of the owning traveler
succeeds. -/
theorem pending_booking_one_step (H : Helpers) (st : Store) (u : ReqUser) (idParam : String)
    (hu : st.uniqueBookingIds)
    (hpend : st.bookingStatus (H.toObjectId idParam) = some BookingStatus.pending) :
    (∀ status t, UpdateMoves H st u idParam status BookingStatus.pending t →
      status.bind BookingStatus.ofString? = some t) ∧
    (∀ t, CancelMoves H st u idParam BookingStatus.pending t → t = BookingStatus.cancelled) ∧
    (∀ p b, H.isValidObjectId idParam = true →
      findProviderByUser st (H.toObjectId u.id) = some p →
      findBookingOfProvider st (H.toObjectId idParam) p.id = some b →
      ∀ t, UpdateMoves H st u idParam (some t.name) BookingStatus.pending t) ∧
    (∀ b, H.isValidObjectId idParam = true →
      findBookingOfTraveler st (H.toObjectId idParam) (H.toObjectId u.id) = some b →
      CancelMoves H st u idParam BookingStatus.pending BookingStatus.cancelled) := by
  refine ⟨fun _ _ h => updateMoves_target h, fun _ h => cancelMoves_target h, ?_, ?_⟩
  · intro p b hv hp hb t
    exact ⟨hpend, updateBookingStatus_result (bind_ofString_name t) hv hp hb⟩
  · intro b hv hb
    have hs : b.status = BookingStatus.pending := status_of_found hu hb hpend
    exact ⟨hpend, cancelBooking_result hv hb (by rw [hs]; decide)⟩

theorem pending_booking_one_step_witness :
    UpdateMoves hexHelpers sampleStore bob (sampleId "e1") (some "completed")
      BookingStatus.pending BookingStatus.completed ∧
    CancelMoves hexHelpers sampleStore alice (sampleId "e1")
      BookingStatus.pending BookingStatus.cancelled :=
  ⟨(pending_booking_one_step hexHelpers sampleStore bob (sampleId "e1") (by decide)
      (by decide)).2.2.1 sampleProvider pendingBooking (by decide) (by decide) (by decide)
      BookingStatus.completed,
   (pending_booking_one_step hexHelpers sampleStore alice (sampleId "e1") (by decide)
      (by decide)).2.2.2 pendingBooking (by decide) (by decide)⟩

/-- C2, the claim fails: the owning provider's status update on the completed
booking 0xe3 succeeds and reopens it as pending, and the owning traveler's
cancel of the cancelled booking 0xe4 is answered with success. -/
theorem terminal_booking_requests_succeed :
    UpdateMoves hexHelpers sampleStore bob (sampleId "e3") (some "pending")
      BookingStatus.completed BookingStatus.pending ∧
    CancelMoves hexHelpers sampleStore alice (sampleId "e4")
      BookingStatus.cancelled BookingStatus.cancelled := by
  decide

/-- C2, as amended: for a booking that is completed or cancelled, every cancel
request leaves the status as it is; on a completed booking it fails and changes
nothing, on a cancelled booking the owning traveler's cancel succeeds.  A status
update succeeds only for a caller whose provider profile owns the booking and
then sets the status the request names; a failed update changes nothing; the
owning provider's update succeeds for each of the four statuses. -/
theorem terminal_booking_requests (H : Helpers) (st : Store) (u : ReqUser) (idParam : String)
    (s : BookingStatus) (hu : st.uniqueBookingIds)
    (hs : st.bookingStatus (H.toObjectId idParam) = some s)
    (hterm : s = BookingStatus.completed ∨ s = BookingStatus.cancelled) :
    (cancelBooking H st u idParam).2.bookingStatus (H.toObjectId idParam) = some s ∧
    (s = BookingStatus.completed →
      (cancelBooking H st u idParam).1.success = false ∧
      (cancelBooking H st u idParam).2 = st) ∧
    (s = BookingStatus.cancelled → ∀ b, H.isValidObjectId idParam = true →
      findBookingOfTraveler st (H.toObjectId idParam) (H.toObjectId u.id) = some b →
      (cancelBooking H st u idParam).1.success = true) ∧
    (∀ status, (updateBookingStatus H st u idParam status).1.success = true →
      OwnsProviderOf H st u (H.toObjectId idParam) ∧
      ∃ t, status.bind BookingStatus.ofString? = some t ∧
        (updateBookingStatus H st u idParam status).2.bookingStatus (H.toObjectId idParam) =
          some t) ∧
    (∀ status, (updateBookingStatus H st u idParam status).1.success = false →
      (updateBookingStatus H st u idParam status).2 = st) ∧
    (∀ p b, H.isValidObjectId idParam = true →
      findProviderByUser st (H.toObjectId u.id) = some p →
      findBookingOfProvider st (H.toObjectId idParam) p.id = some b →
      ∀ t, UpdateMoves H st u idParam (some t.name) s t) := by
  have hcompleted : s = BookingStatus.completed →
      (cancelBooking H st u idParam).1.success = false ∧
      (cancelBooking H st u idParam).2 = st := by
    intro hc
    have hfail : (cancelBooking H st u idParam).1.success = false := by
      cases hsucc : (cancelBooking H st u idParam).1.success with
      | false => rfl
      | true =>
        obtain ⟨b, _, hb, hne⟩ := cancelBooking_success hsucc
        exact absurd ((status_of_found hu hb hs).trans hc) hne
    exact ⟨hfail, cancelBooking_fail hfail⟩
  refine ⟨?_, hcompleted, ?_, ?_, fun _ h => updateBookingStatus_fail h, ?_⟩
  · rcases hterm with hc | hc
    · rw [(hcompleted hc).2]; exact hs
    · cases hsucc : (cancelBooking H st u idParam).1.success with
      | false => rw [cancelBooking_fail hsucc]; exact hs
      | true =>
        obtain ⟨b, hv, hb, hne⟩ := cancelBooking_success hsucc
        rw [(cancelBooking_result hv hb hne).2, hc]
  · intro hc b hv hb
    have hbs : b.status = BookingStatus.cancelled := (status_of_found hu hb hs).trans hc
    exact (cancelBooking_result hv hb (by rw [hbs]; decide)).1
  · intro status hsucc
    obtain ⟨t, p, b, ht, hv, hp, hb⟩ := updateBookingStatus_success hsucc
    exact ⟨updateBookingStatus_owner hsucc, t, ht, (updateBookingStatus_result ht hv hp hb).2⟩
  · intro p b hv hp hb t
    exact ⟨hs, updateBookingStatus_result (bind_ofString_name t) hv hp hb⟩

theorem terminal_booking_requests_witness :
    (cancelBooking hexHelpers sampleStore alice (sampleId "e3")).1.success = false ∧
    (cancelBooking hexHelpers sampleStore alice (sampleId "e3")).2 = sampleStore :=
  (terminal_booking_requests hexHelpers sampleStore alice (sampleId "e3")
    BookingStatus.completed (by decide) (by decide) (Or.inl rfl)).2.1 rfl

/-- C3, the claim fails: the owning provider's status update with target
pending on the confirmed booking 0xe2 succeeds and leaves it pending. -/
theorem confirmed_booking_back_to_pending :
    UpdateMoves hexHelpers sampleStore bob (sampleId "e2") (some "pending")
      BookingStatus.confirmed BookingStatus.pending := by
  decide

/-- C3, as amended: for a confirmed booking, the status update of the owning
provider with target pending succeeds and leaves the booking pending; from
confirmed the owning provider's update reaches each of the four statuses. -/
theorem confirmed_booking_update (H : Helpers) (st : Store) (u : ReqUser) (idParam : String)
    (p : ServiceProvider) (b : Booking)
    (hconf : st.bookingStatus (H.toObjectId idParam) = some BookingStatus.confirmed)
    (hv : H.isValidObjectId idParam = true)
    (hp : findProviderByUser st (H.toObjectId u.id) = some p)
    (hb : findBookingOfProvider st (H.toObjectId idParam) p.id = some b) :
    UpdateMoves H st u idParam (some "pending") BookingStatus.confirmed BookingStatus.pending ∧
    ∀ t, UpdateMoves H st u idParam (some t.name) BookingStatus.confirmed t := by
  have hall : ∀ t, UpdateMoves H st u idParam (some t.name) BookingStatus.confirmed t :=
    fun t => ⟨hconf, updateBookingStatus_result (bind_ofString_name t) hv hp hb⟩
  exact ⟨hall BookingStatus.pending, hall⟩

theorem confirmed_booking_update_witness :
    UpdateMoves hexHelpers sampleStore bob (sampleId "e2") (some "pending")
      BookingStatus.confirmed BookingStatus.pending :=
  (confirmed_booking_update hexHelpers sampleStore bob (sampleId "e2") sampleProvider
    confirmedBooking (by decide) (by decide) (by decide) (by decide)).1

/-! ## Who may change a status -/

/-- C9: a status update is answered with success only when the caller owns a
provider profile whose id is the `provider_id` of the booking; for every other
caller it fails and the store, hence the booking, is unchanged. -/
theorem status_update_only_by_owning_provider (H : Helpers) (st : Store) (u : ReqUser)
    (idParam : String) (status : Option String) :
    ((updateBookingStatus H st u idParam status).1.success = true →
      OwnsProviderOf H st u (H.toObjectId idParam)) ∧
    (¬ OwnsProviderOf H st u (H.toObjectId idParam) →
      (updateBookingStatus H st u idParam status).1.success = false ∧
      (updateBookingStatus H st u idParam status).2 = st) := by
  refine ⟨updateBookingStatus_owner, fun hno => ?_⟩
  have hfail : (updateBookingStatus H st u idParam status).1.success = false := by
    cases hsucc : (updateBookingStatus H st u idParam status).1.success with
    | false => rfl
    | true => exact absurd (updateBookingStatus_owner hsucc) hno
  exact ⟨hfail, updateBookingStatus_fail hfail⟩

theorem status_update_only_by_owning_provider_witness :
    (updateBookingStatus hexHelpers sampleStore alice (sampleId "e1")
      (some "confirmed")).1.success = false ∧
    (updateBookingStatus hexHelpers sampleStore alice (sampleId "e1")
      (some "confirmed")).2 = sampleStore :=
  (status_update_only_by_owning_provider hexHelpers sampleStore alice (sampleId "e1")
    (some "confirmed")).2 (by decide)

theorem bookingStatus_append (st : Store) (ss : List Service) (b : Booking) (k : ObjectId)
    (hb : b.status ≠ BookingStatus.cancelled)
    (hafter : Store.bookingStatus { st with bookings := st.bookings ++ [b], services := ss } k =
      some BookingStatus.cancelled) :
    st.bookingStatus k = some BookingStatus.cancelled := by
  unfold Store.bookingStatus at hafter ⊢
  simp only [List.find?_append] at hafter
  cases hf : st.bookings.find? (fun x => x.id == k) with
  | some x => simpa [hf] using hafter
  | none =>
    rw [hf] at hafter
    by_cases hk : b.id = k
    · simp [List.find?_cons, hk] at hafter
      exact absurd hafter hb
    · simp [List.find?_cons, hk] at hafter

/-- C10, the claim fails: bob is not the traveler of the pending booking 0xe1
(that is user 0xa1), yet his status update with target cancelled, made as the
owning provider, succeeds and leaves the booking cancelled. -/
theorem provider_update_cancels_booking :
    findBookingOfTraveler sampleStore (hexHelpers.toObjectId (sampleId "e1"))
      (hexHelpers.toObjectId bob.id) = none ∧
    findBookingOfTraveler sampleStore (hexHelpers.toObjectId (sampleId "e1"))
      (hexHelpers.toObjectId alice.id) = some pendingBooking ∧
    UpdateMoves hexHelpers sampleStore bob (sampleId "e1") (some "cancelled")
      BookingStatus.pending BookingStatus.cancelled := by
  decide

/-- C10, as amended: a request that changes the status of a booking to
cancelled is either a cancel request of the user whose id is the booking's
`traveler_id`, or a status update with target cancelled of a user owning the
provider profile whose id is the booking's `provider_id`. -/
theorem cancelled_only_by_traveler_or_provider (H : Helpers) (st : Store)
    (req : BookingRequest) (bid : ObjectId) (hu : st.uniqueBookingIds)
    (hbefore : st.bookingStatus bid ≠ some BookingStatus.cancelled)
    (hafter : (handleBooking H st req).2.bookingStatus bid = some BookingStatus.cancelled) :
    ∃ b, st.bookings.find? (fun x => x.id == bid) = some b ∧
      ((∃ u idParam, req = BookingRequest.cancel u idParam ∧ H.toObjectId idParam = bid ∧
          b.traveler_id = H.toObjectId u.id) ∨
       (∃ u idParam p, req = BookingRequest.updateStatus u idParam (some "cancelled") ∧
          H.toObjectId idParam = bid ∧ p ∈ st.providers ∧ p.user_id = H.toObjectId u.id ∧
          b.provider_id = p.id)) := by
  cases req with
  | create u body newId now =>
    exfalso
    simp only [handleBooking] at hafter
    cases hsucc : (createBooking H st u body newId now).1.success with
    | false => rw [createBooking_fail hsucc] at hafter; exact hbefore hafter
    | true =>
      obtain ⟨sid, s, p, hval, hsid, hv, hs, ha, hp⟩ := createBooking_success hsucc
      obtain ⟨b, hc⟩ := createBooking_ok u newId now hval hsid hv hs ha hp
      obtain ⟨_, _, _, hst, _, _, _, _, _, _, hpend, _⟩ := hc
      rw [hst] at hafter
      exact hbefore (bookingStatus_append st _ b bid (by rw [hpend]; decide) hafter)
  | updateStatus u idParam status =>
    simp only [handleBooking] at hafter
    cases hsucc : (updateBookingStatus H st u idParam status).1.success with
    | false => rw [updateBookingStatus_fail hsucc] at hafter; exact absurd hafter hbefore
    | true =>
      obtain ⟨t, p, b, ht, hv, hp, hb⟩ := updateBookingStatus_success hsucc
      rw [updateBookingStatus_ok ht hv hp hb, bookingStatus_save] at hafter
      obtain ⟨hpm, hpu⟩ := findProviderByUser_some hp
      obtain ⟨_, hbi, hbp⟩ := findBookingOfProvider_some hb
      by_cases hk : bid = H.toObjectId idParam
      · subst hk
        have hstored := found_is_stored hu hb
        have htc : t = BookingStatus.cancelled := by
          simpa [hbi, Store.bookingStatus, hstored] using hafter
        subst htc
        have hstatus : status = some "cancelled" := by
          cases status with
          | none => simp at ht
          | some txt =>
            have htxt : txt = "cancelled" := ofString_cancelled (by simpa using ht)
            rw [htxt]
        exact ⟨b, hstored, Or.inr ⟨u, idParam, p, by rw [hstatus], rfl, hpm, hpu, hbp⟩⟩
      · have hk2 : ¬ bid = b.id := by rw [hbi]; exact hk
        rw [if_neg hk2] at hafter
        exact absurd hafter hbefore
  | cancel u idParam =>
    simp only [handleBooking] at hafter
    cases hsucc : (cancelBooking H st u idParam).1.success with
    | false => rw [cancelBooking_fail hsucc] at hafter; exact absurd hafter hbefore
    | true =>
      obtain ⟨b, hv, hb, hne⟩ := cancelBooking_success hsucc
      rw [cancelBooking_ok hv hb hne, bookingStatus_save] at hafter
      obtain ⟨_, hbi, hbt⟩ := findBookingOfTraveler_some hb
      by_cases hk : bid = H.toObjectId idParam
      · subst hk
        exact ⟨b, found_is_stored hu hb, Or.inl ⟨u, idParam, rfl, rfl, hbt⟩⟩
      · have hk2 : ¬ bid = b.id := by rw [hbi]; exact hk
        rw [if_neg hk2] at hafter
        exact absurd hafter hbefore

theorem cancelled_only_by_traveler_or_provider_witness :
    ∃ b, sampleStore.bookings.find? (fun x => x.id == 225) = some b ∧
      ((∃ u idParam, BookingRequest.cancel alice (sampleId "e1") = BookingRequest.cancel u idParam ∧
          hexHelpers.toObjectId idParam = 225 ∧ b.traveler_id = hexHelpers.toObjectId u.id) ∨
       (∃ u idParam p, BookingRequest.cancel alice (sampleId "e1") =
            BookingRequest.updateStatus u idParam (some "cancelled") ∧
          hexHelpers.toObjectId idParam = 225 ∧ p ∈ sampleStore.providers ∧
          p.user_id = hexHelpers.toObjectId u.id ∧ b.provider_id = p.id)) :=
  cancelled_only_by_traveler_or_provider hexHelpers sampleStore
    (BookingRequest.cancel alice (sampleId "e1")) 225 (by decide) (by decide) (by decide)

/-! ## Booking creation -/

theorem findServiceById_some {st : Store} {sid : ObjectId} {s : Service}
    (h : findServiceById st sid = some s) : s ∈ st.services ∧ s.id = sid := by
  unfold findServiceById at h
  exact ⟨List.mem_of_find?_eq_some h, by simpa using List.find?_some h⟩

theorem populateProvider_some {st : Store} {s : Service} {p : ServiceProvider}
    (h : populateProvider st s = some p) : p ∈ st.providers ∧ p.id = s.provider_id := by
  unfold populateProvider at h
  exact ⟨List.mem_of_find?_eq_some h, by simpa using List.find?_some h⟩

theorem find_incBookingsCount (k j : ObjectId) (ss : List Service) :
    (incBookingsCount k ss).find? (fun s => s.id == j) =
      (ss.find? (fun s => s.id == j)).map
        (fun s => if s.id == k then { s with bookings_count := s.bookings_count + 1 } else s) := by
  have hcomp : ((fun s : Service => s.id == j) ∘
      fun s => if s.id == k then { s with bookings_count := s.bookings_count + 1 } else s) =
      fun s => s.id == j := by
    funext x
    by_cases h : x.id = k
    · simp [Function.comp, h]
    · simp [Function.comp, h]
  unfold incBookingsCount
  rw [List.find?_map, hcomp]

theorem bookingsCount_inc (st : Store) (bs : List Booking) (k j : ObjectId) :
    Store.bookingsCount { st with bookings := bs, services := incBookingsCount k st.services } j =
      if j = k then (st.bookingsCount j).map (fun c => c + 1) else st.bookingsCount j := by
  unfold Store.bookingsCount findServiceById
  simp only [find_incBookingsCount]
  cases hf : st.services.find? (fun s => s.id == j) with
  | none => simp
  | some x =>
    have hx : x.id = j := by simpa using List.find?_some hf
    by_cases h : j = k
    · simp [h, hx]
    · have h2 : ¬ x.id = k := fun e => h (hx ▸ e)
      simp [h, h2]

/-- C4: for an active service with price `p` (its provider profile in place)
and a request that passes the validators with participants `n`, the creation
answers 201 with a booking that is persisted and has
`total_amount = p * n`, `status = pending` and `payment_status = pending`. -/
theorem createBooking_total_amount (H : Helpers) (st : Store) (u : ReqUser)
    (body : CreateBookingBody) (newId : ObjectId) (now : Int) (sid : String) (s : Service)
    (p : ServiceProvider) (n : Int)
    (hval : validateCreate H body = []) (hsid : body.serviceId = some sid)
    (hv : H.isValidObjectId sid = true)
    (hs : findServiceById st (H.toObjectId sid) = some s) (ha : s.is_active = true)
    (hp : populateProvider st s = some p) (hn : body.participants = some n) :
    ∃ b, (createBooking H st u body newId now).1.status = 201 ∧
      (createBooking H st u body newId now).1.success = true ∧
      (createBooking H st u body newId now).1.booking = some b ∧
      b ∈ (createBooking H st u body newId now).2.bookings ∧
      b.total_amount = s.price * n ∧
      b.status = BookingStatus.pending ∧ b.payment_status = PaymentStatus.pending := by
  obtain ⟨b, h1, h2, h3, h4, _, _, _, _, _, h10, h11, h12⟩ :=
    createBooking_ok u newId now hval hsid hv hs ha hp
  refine ⟨b, h1, h2, h3, ?_, ?_, h11, h12⟩
  · rw [h4]; simp
  · rw [h10, hn]; rfl

theorem createBooking_total_amount_witness :
    ∃ b, (createBooking hexHelpers sampleStore alice
        { sampleBody with participants := some 3 } 229 1000).1.status = 201 ∧
      (createBooking hexHelpers sampleStore alice
        { sampleBody with participants := some 3 } 229 1000).1.success = true ∧
      (createBooking hexHelpers sampleStore alice
        { sampleBody with participants := some 3 } 229 1000).1.booking = some b ∧
      b ∈ (createBooking hexHelpers sampleStore alice
        { sampleBody with participants := some 3 } 229 1000).2.bookings ∧
      b.total_amount = activeService.price * 3 ∧
      b.status = BookingStatus.pending ∧ b.payment_status = PaymentStatus.pending :=
  createBooking_total_amount hexHelpers sampleStore alice
    { sampleBody with participants := some 3 } 229 1000 (sampleId "d1") activeService
    sampleProvider 3 (by decide) (by decide) (by decide) (by decide) (by decide) (by decide)
    (by decide)

/-- C5: when the service id of the request resolves to no service or to an
inactive one, the creation fails, answers no booking and leaves the store as it
was (no booking persisted, no `bookings_count` changed); for a request that
reaches the lookup (validators passed, well-formed id) the answer is the
not-found one, 404 "Service not available". -/
theorem createBooking_service_unavailable (H : Helpers) (st : Store) (u : ReqUser)
    (body : CreateBookingBody) (newId : ObjectId) (now : Int)
    (hno : ∀ sid s, body.serviceId = some sid →
      findServiceById st (H.toObjectId sid) = some s → s.is_active = false) :
    (createBooking H st u body newId now).1.success = false ∧
    (createBooking H st u body newId now).1.booking = none ∧
    (createBooking H st u body newId now).2 = st ∧
    (validateCreate H body = [] →
      (∀ sid, body.serviceId = some sid → H.isValidObjectId sid = true) →
      (createBooking H st u body newId now).1.status = 404 ∧
      (createBooking H st u body newId now).1.message = some "Service not available") := by
  have hfail : (createBooking H st u body newId now).1.success = false := by
    cases hsucc : (createBooking H st u body newId now).1.success with
    | false => rfl
    | true =>
      obtain ⟨sid, s, p, _, hsid, _, hs, ha, _⟩ := createBooking_success hsucc
      rw [hno sid s hsid hs] at ha
      cases ha
  refine ⟨hfail, ?_, createBooking_fail hfail, ?_⟩
  · unfold createBooking at hfail ⊢
    by_cases hval : validateCreate H body = []
    · obtain ⟨sid, d, h1, _, h3, _⟩ := validateCreate_nil hval
      cases hv : H.isValidObjectId sid with
      | false => simp [hval, h1, h3, hv]
      | true =>
        cases hs : findServiceById st (H.toObjectId sid) with
        | none => simp [hval, h1, h3, hv, hs]
        | some s => simp [hval, h1, h3, hv, hs, hno sid s h1 hs]
    · have hne : (validateCreate H body).isEmpty = false := by
        cases hl : validateCreate H body with
        | nil => exact absurd hl hval
        | cons a l => rfl
      simp [hne]
  · intro hval hvalid
    obtain ⟨sid, d, h1, _, h3, _⟩ := validateCreate_nil hval
    have hv := hvalid sid h1
    unfold createBooking
    cases hs : findServiceById st (H.toObjectId sid) with
    | none => simp [hval, h1, h3, hv, hs]
    | some s => simp [hval, h1, h3, hv, hs, hno sid s h1 hs]

theorem createBooking_service_unavailable_witness :
    (createBooking hexHelpers sampleStore alice
      { sampleBody with serviceId := some (sampleId "d2") } 229 1000).1.status = 404 ∧
    (createBooking hexHelpers sampleStore alice
      { sampleBody with serviceId := some (sampleId "d2") } 229 1000).2 = sampleStore :=
  have h := createBooking_service_unavailable hexHelpers sampleStore alice
    { sampleBody with serviceId := some (sampleId "d2") } 229 1000 (by
      intro sid s hsid hs
      have e : sid = sampleId "d2" := (Option.some.inj hsid).symm
      subst e
      have e2 : s = inactiveService := (Option.some.inj hs).symm
      subst e2
      rfl)
  ⟨(h.2.2.2 (by decide) (by
      intro sid hsid
      have e : sid = sampleId "d2" := (Option.some.inj hsid).symm
      subst e
      decide)).1, h.2.2.1⟩

/-- C6, the claim fails: the request `sampleBody` has no participants field,
yet the creation answers 201 and persists the booking 0xe5 with
participants 1. -/
theorem createBooking_without_participants_succeeds :
    sampleBody.participants = none ∧
    (createBooking hexHelpers sampleStore alice sampleBody 229 1000).1.status = 201 ∧
    (createBooking hexHelpers sampleStore alice sampleBody 229 1000).1.success = true ∧
    ∃ b ∈ (createBooking hexHelpers sampleStore alice sampleBody 229 1000).2.bookings,
      b.id = 229 ∧ b.participants = 1 := by
  decide

/-- C6, as amended: a creation request without the participants field is
handled with participants 1; when it passes the validators and names an active
service (its provider profile in place) it answers 201 and persists a booking
with `participants = 1` and `total_amount` equal to the price of the service. -/
theorem createBooking_participants_default (H : Helpers) (st : Store) (u : ReqUser)
    (body : CreateBookingBody) (newId : ObjectId) (now : Int) (sid : String) (s : Service)
    (p : ServiceProvider)
    (hval : validateCreate H body = []) (hsid : body.serviceId = some sid)
    (hv : H.isValidObjectId sid = true)
    (hs : findServiceById st (H.toObjectId sid) = some s) (ha : s.is_active = true)
    (hp : populateProvider st s = some p) (hn : body.participants = none) :
    ∃ b, (createBooking H st u body newId now).1.status = 201 ∧
      (createBooking H st u body newId now).1.success = true ∧
      (createBooking H st u body newId now).1.booking = some b ∧
      b ∈ (createBooking H st u body newId now).2.bookings ∧
      b.participants = 1 ∧ b.total_amount = s.price := by
  obtain ⟨b, h1, h2, h3, h4, _, _, _, _, h9, h10, _, _⟩ :=
    createBooking_ok u newId now hval hsid hv hs ha hp
  refine ⟨b, h1, h2, h3, ?_, ?_, ?_⟩
  · rw [h4]; simp
  · rw [h9, hn]; rfl
  · rw [h10, hn]; simp

theorem createBooking_participants_default_witness :
    ∃ b, (createBooking hexHelpers sampleStore alice sampleBody 229 1000).1.status = 201 ∧
      (createBooking hexHelpers sampleStore alice sampleBody 229 1000).1.success = true ∧
      (createBooking hexHelpers sampleStore alice sampleBody 229 1000).1.booking = some b ∧
      b ∈ (createBooking hexHelpers sampleStore alice sampleBody 229 1000).2.bookings ∧
      b.participants = 1 ∧ b.total_amount = activeService.price :=
  createBooking_participants_default hexHelpers sampleStore alice sampleBody 229 1000
    (sampleId "d1") activeService sampleProvider (by decide) (by decide) (by decide)
    (by decide) (by decide) (by decide) (by decide)

/-- C7: every booking the creation answers with is persisted, references a
service of the store as it was read, and carries that service's
`provider_id`. -/
theorem createBooking_provider_id (H : Helpers) (st : Store) (u : ReqUser)
    (body : CreateBookingBody) (newId : ObjectId) (now : Int)
    (hsucc : (createBooking H st u body newId now).1.success = true) :
    ∃ b s, (createBooking H st u body newId now).1.booking = some b ∧
      b ∈ (createBooking H st u body newId now).2.bookings ∧
      findServiceById st b.service_id = some s ∧ b.provider_id = s.provider_id := by
  obtain ⟨sid, s, p, hval, hsid, hv, hs, ha, hp⟩ := createBooking_success hsucc
  obtain ⟨b, _, _, h3, h4, _, _, h7, h8, _⟩ :=
    createBooking_ok u newId now hval hsid hv hs ha hp
  refine ⟨b, s, h3, ?_, ?_, ?_⟩
  · rw [h4]; simp
  · rw [h7, (findServiceById_some hs).2]; exact hs
  · rw [h8]; exact (populateProvider_some hp).2

theorem createBooking_provider_id_witness :
    ∃ b s, (createBooking hexHelpers sampleStore alice sampleBody 229 1000).1.booking = some b ∧
      b ∈ (createBooking hexHelpers sampleStore alice sampleBody 229 1000).2.bookings ∧
      findServiceById sampleStore b.service_id = some s ∧ b.provider_id = s.provider_id :=
  createBooking_provider_id hexHelpers sampleStore alice sampleBody 229 1000 (by decide)

/-- C8: a successful creation raises `bookings_count` of the booked service by
exactly 1 and leaves `bookings_count` of every other service as it was. -/
theorem createBooking_bookings_count (H : Helpers) (st : Store) (u : ReqUser)
    (body : CreateBookingBody) (newId : ObjectId) (now : Int)
    (hsucc : (createBooking H st u body newId now).1.success = true) :
    ∃ b c, (createBooking H st u body newId now).1.booking = some b ∧
      st.bookingsCount b.service_id = some c ∧
      (createBooking H st u body newId now).2.bookingsCount b.service_id = some (c + 1) ∧
      ∀ j, j ≠ b.service_id →
        (createBooking H st u body newId now).2.bookingsCount j = st.bookingsCount j := by
  obtain ⟨sid, s, p, hval, hsid, hv, hs, ha, hp⟩ := createBooking_success hsucc
  obtain ⟨b, _, _, h3, h4, _, _, h7, _⟩ :=
    createBooking_ok u newId now hval hsid hv hs ha hp
  have hid : b.service_id = H.toObjectId sid := by rw [h7]; exact (findServiceById_some hs).2
  have hc : st.bookingsCount b.service_id = some s.bookings_count := by
    rw [hid]; simp [Store.bookingsCount, hs]
  refine ⟨b, s.bookings_count, h3, hc, ?_, ?_⟩
  · rw [h4, bookingsCount_inc, if_pos hid, hc]; rfl
  · intro j hj
    rw [h4, bookingsCount_inc, if_neg (by rw [← hid]; exact hj)]

theorem createBooking_bookings_count_witness :
    ∃ b c, (createBooking hexHelpers sampleStore alice sampleBody 229 1000).1.booking = some b ∧
      sampleStore.bookingsCount b.service_id = some c ∧
      (createBooking hexHelpers sampleStore alice sampleBody 229 1000).2.bookingsCount
        b.service_id = some (c + 1) ∧
      ∀ j, j ≠ b.service_id →
        (createBooking hexHelpers sampleStore alice sampleBody 229 1000).2.bookingsCount j =
          sampleStore.bookingsCount j :=
  createBooking_bookings_count hexHelpers sampleStore alice sampleBody 229 1000 (by decide)

/-! ## Cancel of a completed booking -/

/-- C11: the cancel request on a booking whose status is completed fails for
every caller and leaves the store, hence the status completed, as it was; for
the owning traveler the answer is 400 "Cannot cancel completed booking". -/
theorem cancel_completed_booking_fails (H : Helpers) (st : Store) (u : ReqUser)
    (idParam : String) (hu : st.uniqueBookingIds)
    (hs : st.bookingStatus (H.toObjectId idParam) = some BookingStatus.completed) :
    (cancelBooking H st u idParam).1.success = false ∧
    (cancelBooking H st u idParam).2 = st ∧
    (cancelBooking H st u idParam).2.bookingStatus (H.toObjectId idParam) =
      some BookingStatus.completed ∧
    (∀ b, H.isValidObjectId idParam = true →
      findBookingOfTraveler st (H.toObjectId idParam) (H.toObjectId u.id) = some b →
      (cancelBooking H st u idParam).1.status = 400 ∧
      (cancelBooking H st u idParam).1.message = some "Cannot cancel completed booking") := by
  have hfail : (cancelBooking H st u idParam).1.success = false := by
    cases hsucc : (cancelBooking H st u idParam).1.success with
    | false => rfl
    | true =>
      obtain ⟨b, _, hb, hne⟩ := cancelBooking_success hsucc
      exact absurd (status_of_found hu hb hs) hne
  have hst := cancelBooking_fail hfail
  refine ⟨hfail, hst, by rw [hst]; exact hs, ?_⟩
  intro b hv hb
  rw [cancelBooking_completed hv hb (status_of_found hu hb hs)]
  exact ⟨rfl, rfl⟩

theorem cancel_completed_booking_fails_witness :
    (cancelBooking hexHelpers sampleStore alice (sampleId "e3")).1.status = 400 ∧
    (cancelBooking hexHelpers sampleStore alice (sampleId "e3")).1.message =
      some "Cannot cancel completed booking" :=
  (cancel_completed_booking_fails hexHelpers sampleStore alice (sampleId "e3") (by decide)
    (by decide)).2.2.2 completedBooking (by decide) (by decide)

/-! ## Dates and numbers -/

theorem civil_yoe (doe : Int) (h0 : 0 ≤ doe) (h1 : doe ≤ 146096) :
    0 ≤ (doe - doe / 1460 + doe / 36524 - doe / 146096) / 365 ∧
    (doe - doe / 1460 + doe / 36524 - doe / 146096) / 365 ≤ 399 := by
  omega

theorem civil_doy (doe yoe : Int) (h0 : 0 ≤ doe) (h1 : doe ≤ 146096)
    (hy : yoe = (doe - doe / 1460 + doe / 36524 - doe / 146096) / 365) :
    0 ≤ doe - (365 * yoe + yoe / 4 - yoe / 100) ∧
    doe - (365 * yoe + yoe / 4 - yoe / 100) ≤ 365 := by
  have hb := civil_yoe doe h0 h1
  rw [← hy] at hb
  obtain ⟨hb0, hb1⟩ := hb
  have h4 : yoe / 100 = 0 ∨ yoe / 100 = 1 ∨ yoe / 100 = 2 ∨ yoe / 100 = 3 := by omega
  have h5 : doe / 36524 = 0 ∨ doe / 36524 = 1 ∨ doe / 36524 = 2 ∨ doe / 36524 = 3 ∨
      doe / 36524 = 4 := by omega
  rcases h4 with h4 | h4 | h4 | h4 <;> rcases h5 with h5 | h5 | h5 | h5 | h5 <;> omega

/-- The month of a civil date is between 1 and 12 and its day between 1 and
31. -/
theorem civilFromDays_range (z : Int) :
    1 ≤ (civilFromDays z).2.1 ∧ (civilFromDays z).2.1 ≤ 12 ∧
    1 ≤ (civilFromDays z).2.2 ∧ (civilFromDays z).2.2 ≤ 31 := by
  have h0 : 0 ≤ z + 719468 - (z + 719468) / 146097 * 146097 := by omega
  have h1 : z + 719468 - (z + 719468) / 146097 * 146097 ≤ 146096 := by omega
  have hd := civil_doy _ _ h0 h1 rfl
  simp only [civilFromDays]
  generalize z + 719468 - (z + 719468) / 146097 * 146097 = doe at *
  generalize (doe - doe / 1460 + doe / 36524 - doe / 146096) / 365 = yoe at *
  generalize doe - (365 * yoe + yoe / 4 - yoe / 100) = doy at *
  split_ifs <;> omega

theorem daysFromCivil_of_parts (era yoe mp d : Int) (hy0 : 0 ≤ yoe) (hy1 : yoe ≤ 399)
    (hm0 : 0 ≤ mp) (hm1 : mp ≤ 11) :
    daysFromCivil
      (if (if mp < 10 then mp + 3 else mp - 9) ≤ 2 then yoe + era * 400 + 1 else yoe + era * 400)
      (if mp < 10 then mp + 3 else mp - 9) d =
    era * 146097 + (yoe * 365 + yoe / 4 - yoe / 100 + ((153 * mp + 2) / 5 + d - 1)) - 719468 := by
  have e1 : (yoe + era * 400) / 400 = era := by omega
  have e2 : yoe + era * 400 - era * 400 = yoe := by ring
  by_cases c : mp < 10
  · have c2 : ¬ (mp + 3 ≤ 2) := by omega
    have e3 : (mp + 3 + 9) % 12 = mp := by omega
    simp only [daysFromCivil, if_pos c, if_neg c2, e1, e2, e3]
  · have c2 : mp - 9 ≤ 2 := by omega
    have e3 : (mp - 9 + 9) % 12 = mp := by omega
    have e4 : yoe + era * 400 + 1 - 1 = yoe + era * 400 := by ring
    simp only [daysFromCivil, if_neg c, if_pos c2, e4, e1, e2, e3]

/-- The day count of the first of the month of a civil date, moved on to the
day of the month, is the day count the date was computed from. -/
theorem daysFromCivil_civilFromDays (z : Int) :
    daysFromCivil (civilFromDays z).1 (civilFromDays z).2.1 1 + ((civilFromDays z).2.2 - 1) =
      z := by
  have h0 : 0 ≤ z + 719468 - (z + 719468) / 146097 * 146097 := by omega
  have h1 : z + 719468 - (z + 719468) / 146097 * 146097 ≤ 146096 := by omega
  have hy := civil_yoe _ h0 h1
  have hd := civil_doy _ _ h0 h1 rfl
  simp only [civilFromDays]
  generalize hera : (z + 719468) / 146097 = era at *
  generalize hdoe : z + 719468 - era * 146097 = doe at *
  generalize (doe - doe / 1460 + doe / 36524 - doe / 146096) / 365 = yoe at *
  generalize hdoy : doe - (365 * yoe + yoe / 4 - yoe / 100) = doy at *
  have hmp : 0 ≤ (5 * doy + 2) / 153 ∧ (5 * doy + 2) / 153 ≤ 11 := by omega
  generalize hmpe : (5 * doy + 2) / 153 = mp at *
  rw [daysFromCivil_of_parts era yoe mp 1 hy.1 hy.2 hmp.1 hmp.2]
  omega

theorem dateOfMonth_range (date : Int) : 1 ≤ dateOfMonth date ∧ dateOfMonth date ≤ 31 :=
  ⟨(civilFromDays_range _).2.2.1, (civilFromDays_range _).2.2.2⟩

/-- The method `setDate` moves a date by whole days: to the day `day` of the
month, which lies `day - getDate()` days after the date. -/
theorem setDate_some (date day : Int) :
    setDate date (some day) = timeClip (date + (day - dateOfMonth date) * msPerDay) := by
  have hr := civilFromDays_range (date / msPerDay)
  have hz := daysFromCivil_civilFromDays (date / msPerDay)
  have hm : (civilFromDays (date / msPerDay)).2.1 - 1 + 1 = (civilFromDays (date / msPerDay)).2.1 := by
    ring
  have e1 : ((civilFromDays (date / msPerDay)).2.1 - 1) / 12 = 0 := by omega
  have e2 : ((civilFromDays (date / msPerDay)).2.1 - 1) % 12 + 1 =
      (civilFromDays (date / msPerDay)).2.1 := by omega
  have hsplit : date / msPerDay * msPerDay + date % msPerDay = date :=
    Int.ediv_add_emod' date msPerDay
  simp only [setDate, jsDate, fullYear, monthIndex, dateOfMonth, e1, e2, add_zero]
  congr 1
  have hz2 : daysFromCivil (civilFromDays (date / msPerDay)).1 (civilFromDays (date / msPerDay)).2.1 1 =
      date / msPerDay - ((civilFromDays (date / msPerDay)).2.2 - 1) := by omega
  rw [hz2]
  linear_combination hsplit

theorem bitLengthAux_le_iff (fuel n b : Nat) (h : n ≤ fuel) :
    bitLengthAux fuel n ≤ b ↔ n < 2 ^ b := by
  induction fuel generalizing n b with
  | zero =>
    have hn : n = 0 := by omega
    subst hn
    simp [bitLengthAux]
  | succ f ih =>
    by_cases hn : n = 0
    · subst hn
      simp [bitLengthAux]
    · simp only [bitLengthAux, if_neg hn]
      cases b with
      | zero =>
        simp only [pow_zero]
        omega
      | succ c =>
        have hdiv : n / 2 ≤ f := by omega
        rw [Nat.add_le_add_iff_right, ih (n / 2) c hdiv, pow_succ]
        omega

/-- A number has at most `b` binary digits exactly when it is below `2 ^ b`. -/
theorem bitLength_le_iff (n b : Nat) : bitLength n ≤ b ↔ n < 2 ^ b :=
  bitLengthAux_le_iff n n b (le_refl n)

/-- A multiple `a * 2 ^ k` with `a` below `2 ^ 53` is a double: rounding keeps
it. -/
theorem roundBits_exact (a k : Nat) (ha : a < 2 ^ 53) :
    (roundBits (a * 2 ^ k)).1 * 2 ^ (roundBits (a * 2 ^ k)).2 = a * 2 ^ k := by
  unfold roundBits
  by_cases hlen : bitLength (a * 2 ^ k) ≤ 53
  · simp [hlen]
  · rw [if_neg hlen]
    have hk : bitLength (a * 2 ^ k) ≤ 53 + k := by
      rw [bitLength_le_iff, pow_add]
      exact Nat.mul_lt_mul_of_pos_right ha (Nat.two_pow_pos k)
    have hs : bitLength (a * 2 ^ k) - 53 ≤ k := by omega
    have hs1 : 1 ≤ bitLength (a * 2 ^ k) - 53 := by omega
    generalize bitLength (a * 2 ^ k) - 53 = s at hs hs1
    have hdvd : 2 ^ s ∣ a * 2 ^ k := Dvd.dvd.mul_left (pow_dvd_pow 2 hs) a
    have hr : a * 2 ^ k % 2 ^ s = 0 := Nat.mod_eq_zero_of_dvd hdvd
    have hhalf : 0 < 2 ^ (s - 1) := Nat.two_pow_pos _
    have hne : (0 : Nat) ≠ 2 ^ (s - 1) := by omega
    simp only [hr, Nat.not_lt_zero, decide_False, Bool.false_or, beq_iff_eq, hne, false_and,
      Bool.and_eq_true, if_false, Bool.false_eq_true]
    exact Nat.div_mul_cancel hdvd

/-- A multiple `a * 2 ^ k` with `a` of `2 ^ 53` or more stays at `2 ^ 53` or
more when it is rounded. -/
theorem roundBits_large (a k : Nat) (ha : 2 ^ 53 ≤ a) :
    2 ^ 53 ≤ (roundBits (a * 2 ^ k)).1 * 2 ^ (roundBits (a * 2 ^ k)).2 / 2 ^ k := by
  have hbig : ¬ bitLength (a * 2 ^ k) ≤ 53 + k := by
    rw [bitLength_le_iff, pow_add, not_lt]
    exact Nat.mul_le_mul_right _ ha
  have hlen : ¬ bitLength (a * 2 ^ k) ≤ 53 := by omega
  have hlow : ¬ bitLength (a * 2 ^ k) ≤ bitLength (a * 2 ^ k) - 1 := by omega
  rw [bitLength_le_iff, not_lt] at hlow
  have hq : ∀ q s : Nat, 2 ^ 52 ≤ q → k + 1 ≤ s → 2 ^ 53 ≤ q * 2 ^ s / 2 ^ k := by
    intro q s hq hs
    rw [Nat.le_div_iff_mul_le (Nat.two_pow_pos k)]
    have h1 : 2 ^ 53 * 2 ^ k = 2 ^ 52 * 2 ^ (k + 1) := by
      rw [pow_succ]; ring
    rw [h1]
    exact Nat.mul_le_mul hq (Nat.pow_le_pow_right (by decide) hs)
  have hs : k + 1 ≤ bitLength (a * 2 ^ k) - 53 := by omega
  have hdiv : 2 ^ 52 ≤ a * 2 ^ k / 2 ^ (bitLength (a * 2 ^ k) - 53) := by
    rw [Nat.le_div_iff_mul_le (Nat.two_pow_pos _), ← pow_add]
    have e : 52 + (bitLength (a * 2 ^ k) - 53) = bitLength (a * 2 ^ k) - 1 := by omega
    rw [e]
    exact hlow
  unfold roundBits
  rw [if_neg hlen]
  simp only
  split_ifs
  · exact hq _ _ (Nat.le_succ_of_le hdiv) hs
  · exact hq _ _ hdiv hs

/-- The numerator of the sum in `truncSum` for a number whose value is the
integer `n`. -/
theorem numerator_of_whole (g n : Int) (negative : Bool) (mantissa : Nat) (exponent : Int)
    (h : (JsNumber.finite negative mantissa exponent).toRat = some (n : Rat)) :
    g * 2 ^ (-exponent).toNat +
        (if negative then -(mantissa : Int) else (mantissa : Int)) * 2 ^ exponent.toNat =
      (g + n) * 2 ^ (-exponent).toNat := by
  have hcast : (if negative then -(mantissa : Rat) else (mantissa : Rat)) =
      (((if negative then -(mantissa : Int) else (mantissa : Int)) : Int) : Rat) := by
    cases negative <;> simp
  simp only [JsNumber.toRat, Option.some.injEq, hcast] at h
  generalize (if negative then -(mantissa : Int) else (mantissa : Int)) = signed at h ⊢
  cases exponent with
  | ofNat up =>
    have h2 : ((signed * 2 ^ up : Int) : Rat) = (n : Rat) := by
      rw [← h]; push_cast; simp
    have h3 : signed * 2 ^ up = n := by exact_mod_cast h2
    simp only [Int.ofNat_eq_coe, Int.toNat_ofNat]
    have hk : (-(up : Int)).toNat = 0 := by omega
    rw [hk, h3]
    ring
  | negSucc j =>
    have hpos : ((2 : Rat) ^ (j + 1)) ≠ 0 := pow_ne_zero _ (by norm_num)
    have h2 : (signed : Rat) = (n : Rat) * 2 ^ (j + 1) := by
      rw [← h, zpow_negSucc]
      field_simp
    have h3 : signed = n * 2 ^ (j + 1) := by exact_mod_cast h2
    have hk : (-(Int.negSucc j)).toNat = j + 1 := by
      rw [Int.neg_negSucc]; rfl
    have hup : (Int.negSucc j).toNat = 0 := rfl
    rw [hk, hup, h3]
    ring

/-- For a number whose value is the integer `n`, the day `setDate` receives is
`g + n` as long as that is below `2 ^ 53` in magnitude, and is `2 ^ 53` or more
in magnitude otherwise. -/
theorem truncSum_of_whole (g n : Int) (d : JsNumber) (h : d.toRat = some (n : Rat)) :
    ∃ dt, d.truncSum g = some dt ∧
      ((g + n).natAbs < 2 ^ 53 → dt = g + n) ∧
      (2 ^ 53 ≤ (g + n).natAbs → 2 ^ 53 ≤ dt.natAbs) := by
  cases d with
  | infinite negative => simp [JsNumber.toRat] at h
  | finite negative mantissa exponent =>
    have hnum := numerator_of_whole g n negative mantissa exponent h
    simp only [JsNumber.truncSum, hnum]
    generalize (-exponent).toNat = k
    have habs : ((g + n) * 2 ^ k).natAbs = (g + n).natAbs * 2 ^ k := by
      rw [Int.natAbs_mul, Int.natAbs_pow]; rfl
    have hpos : (0 : Int) < 2 ^ k := pow_pos (by decide) k
    have hsign : ((g + n) * 2 ^ k < 0) ↔ g + n < 0 := by
      constructor
      · intro hlt
        by_contra hge
        exact absurd hlt (not_lt.mpr (mul_nonneg (not_lt.mp hge) hpos.le))
      · intro hlt
        exact mul_neg_of_neg_of_pos hlt hpos
    rw [habs]
    refine ⟨_, rfl, ?_, ?_⟩
    · intro hsmall
      rw [roundBits_exact _ k hsmall, Nat.mul_div_cancel _ (Nat.two_pow_pos k)]
      by_cases hneg : g + n < 0
      · rw [if_pos (hsign.mpr hneg)]; omega
      · rw [if_neg (fun hc => hneg (hsign.mp hc))]; omega
    · intro hlarge
      have hr := roundBits_large _ k hlarge
      split_ifs <;> omega

/-- The promotion of a whole number of days `n` at a valid time `now` ends `n`
days after `now`, when it ends at a valid date at all. -/
theorem featuredUntil_of_whole (now n t : Int) (d : JsNumber) (hnow : ValidTime now)
    (h : d.toRat = some (n : Rat)) (ht : featuredUntil now d = some t) :
    t = now + n * 86400000 := by
  obtain ⟨dt, hdt, hsmall, hlarge⟩ := truncSum_of_whole (dateOfMonth now) n d h
  have hg := dateOfMonth_range now
  unfold featuredUntil at ht
  rw [hdt, setDate_some] at ht
  unfold timeClip msPerDay at ht
  unfold ValidTime at hnow
  split_ifs at ht with hclip
  simp only [Option.some.injEq] at ht
  by_cases hc : (dateOfMonth now + n).natAbs < 2 ^ 53
  · rw [hsmall hc] at ht
    omega
  · have hl := hlarge (not_lt.mp hc)
    have e53 : (2 : Nat) ^ 53 = 9007199254740992 := by norm_num
    rw [e53] at hl
    omega

/-! ## Promotion -/

/-- C12: the cost is 80000 for featured with location both, 50000 for featured
with every other location, 30000 for trending and 20000 for search_boost,
whatever amount the caller supplies. -/
theorem promotionCost_schedule (location : Option String) (amount : Option Int) :
    promotionCost (some "featured") (some "both") amount = 80000 ∧
    (location ≠ some "both" → promotionCost (some "featured") location amount = 50000) ∧
    promotionCost (some "trending") location amount = 30000 ∧
    promotionCost (some "search_boost") location amount = 20000 := by
  refine ⟨?_, ?_, ?_, ?_⟩
  · simp [promotionCost]
  · intro h; simp [promotionCost, h]
  · simp [promotionCost]
  · simp [promotionCost]

theorem findServiceOfProvider_some {st : Store} {sid pid : ObjectId} {s : Service}
    (h : findServiceOfProvider st sid pid = some s) :
    s ∈ st.services ∧ s.id = sid ∧ s.provider_id = pid := by
  unfold findServiceOfProvider at h
  refine ⟨List.mem_of_find?_eq_some h, ?_⟩
  simpa using List.find?_some h

theorem find_saveService (s : Service) (ss : List Service) (k : ObjectId) :
    (saveService s ss).find? (fun x => x.id == k) =
      (ss.find? (fun x => x.id == k)).map (fun x => if x.id == s.id then s else x) := by
  have hcomp : ((fun x : Service => x.id == k) ∘ fun x => if x.id == s.id then s else x) =
      fun x => x.id == k := by
    funext x
    by_cases h : x.id = s.id
    · simp [Function.comp, h]
    · simp [Function.comp, h]
  unfold saveService
  rw [List.find?_map, hcomp]

theorem validLedger_of_validService {t : String}
    (h : validServicePromotionType (some t) = true) :
    validLedgerPromotionType (some t) = true := h

theorem promoteService_ok {H : Helpers} {st : Store} (u : ReqUser) {idParam : String}
    (body : PromoteBody) (newId : ObjectId) (now : Int) {p : ServiceProvider} {s : Service}
    {t : String} {expires : Int} (hv : H.isValidObjectId idParam = true)
    (hp : findProviderByUser st (H.toObjectId u.id) = some p)
    (hs : findServiceOfProvider st (H.toObjectId idParam) p.id = some s)
    (he : featuredUntil now (body.duration_days.getD 30) = some expires)
    (ht : body.promotion_type = some t) (hmem : t ∈ promotionTypes) :
    promoteService H st u idParam body newId now =
      ({ status := 200, success := true, message := some "Service promoted successfully",
         promotion := some
           { service_id := idParam
             promotion_type := body.promotion_type
             location := body.location
             duration_days := body.duration_days.getD 30
             cost := promotionCost body.promotion_type body.location body.amount
             expires_at := expires } },
       { st with
         services := saveService (promotedService body expires s) st.services
         promotions := st.promotions ++
           [promotionRecord body t (promotedService body expires s) newId now expires] }) := by
  have h1 : validServicePromotionType (promotedService body expires s).promotion_type =
      true := by
    simp [promotedService, ht, validServicePromotionType, hmem]
  have h2 : validLedgerPromotionType (some t) = true := by
    simp [validLedgerPromotionType, hmem]
  simp only [promoteService, hv, hp, hs, he, h1, h2, ht]
  simp

theorem promoteService_success {H : Helpers} {st : Store} {u : ReqUser} {idParam : String}
    {body : PromoteBody} {newId : ObjectId} {now : Int}
    (h : (promoteService H st u idParam body newId now).1.success = true) :
    ∃ p s t expires, H.isValidObjectId idParam = true ∧
      findProviderByUser st (H.toObjectId u.id) = some p ∧
      findServiceOfProvider st (H.toObjectId idParam) p.id = some s ∧
      featuredUntil now (body.duration_days.getD 30) = some expires ∧
      body.promotion_type = some t ∧ t ∈ promotionTypes := by
  unfold promoteService at h
  cases hv : H.isValidObjectId idParam with
  | false => simp [hv] at h
  | true =>
    cases hp : findProviderByUser st (H.toObjectId u.id) with
    | none => simp [hv, hp] at h
    | some p =>
      cases hs : findServiceOfProvider st (H.toObjectId idParam) p.id with
      | none => simp [hv, hp, hs] at h
      | some s =>
        cases he : featuredUntil now (body.duration_days.getD 30) with
        | none => simp [hv, hp, hs, he] at h
        | some expires =>
          cases ht : body.promotion_type with
          | none =>
            simp [hv, hp, hs, he, ht, promotedService, validServicePromotionType] at h
          | some t =>
            by_cases hmem : t ∈ promotionTypes
            · exact ⟨p, s, t, expires, rfl, rfl, hs, rfl, rfl, hmem⟩
            · simp [hv, hp, hs, he, ht, promotedService, validServicePromotionType,
                hmem] at h

/-- Without a provider profile that owns the service the promote request
fails and changes nothing. -/
theorem promoteService_not_owner {H : Helpers} {st : Store} {u : ReqUser} {idParam : String}
    {body : PromoteBody} {newId : ObjectId} {now : Int}
    (hno : ∀ p, findProviderByUser st (H.toObjectId u.id) = some p →
      findServiceOfProvider st (H.toObjectId idParam) p.id = none) :
    (promoteService H st u idParam body newId now).1.success = false ∧
    (promoteService H st u idParam body newId now).2 = st := by
  unfold promoteService
  cases hv : H.isValidObjectId idParam with
  | false => simp [hv]
  | true =>
    cases hp : findProviderByUser st (H.toObjectId u.id) with
    | none => simp [hv, hp]
    | some p => simp [hv, hp, hno p hp]

/-- The service a successful promote saved is the one the lookup by `_id`
returns afterwards. -/
theorem findServiceById_saved {st : Store} {sid pid : ObjectId} {s s' : Service}
    (ps : List ServicePromotion) (hs : findServiceOfProvider st sid pid = some s)
    (hid : s'.id = s.id) :
    findServiceById { st with services := saveService s' st.services, promotions := ps } sid =
      some s' := by
  obtain ⟨hmem, hsid, _⟩ := findServiceOfProvider_some hs
  unfold findServiceById
  simp only [find_saveService]
  cases hf : st.services.find? (fun x => x.id == sid) with
  | none =>
    rw [List.find?_eq_none] at hf
    exact absurd (by simpa using hsid) (hf s hmem)
  | some x =>
    have hx : x.id = sid := by simpa using List.find?_some hf
    simp [hx, hid, hsid]

theorem toRat_ofInt (n : Int) : (JsNumber.ofInt n).toRat = some (n : Rat) := by
  unfold JsNumber.ofInt JsNumber.toRat
  simp only [zpow_zero, mul_one, Option.some.injEq]
  by_cases h : n < 0
  · have e : ((n.natAbs : Int)) = -n := by omega
    have e2 : (((n.natAbs : Int) : Rat)) = ((-n : Int) : Rat) := by rw [e]
    simp only [Int.cast_natCast, Int.cast_neg] at e2
    simp [h, e2]
  · have e : ((n.natAbs : Int)) = n := by omega
    have e2 : (((n.natAbs : Int) : Rat)) = (n : Rat) := by rw [e]
    simp only [Int.cast_natCast] at e2
    simp [h, e2]

/-- A promote whose duration leads to no valid date fails and changes
nothing. -/
theorem promote_invalid_date_fails (H : Helpers) (st : Store) (u : ReqUser)
    (idParam : String) (body : PromoteBody) (newId : ObjectId) (now : Int)
    (h : featuredUntil now (body.duration_days.getD 30) = none) :
    (promoteService H st u idParam body newId now).1.success = false ∧
    (promoteService H st u idParam body newId now).2 = st := by
  unfold promoteService
  cases hv : H.isValidObjectId idParam with
  | false => simp [hv]
  | true =>
    cases hp : findProviderByUser st (H.toObjectId u.id) with
    | none => simp [hv, hp]
    | some p =>
      cases hs : findServiceOfProvider st (H.toObjectId idParam) p.id with
      | none => simp [hv, hp, hs]
      | some s => simp [hv, hp, hs, h]

/-- The promote of bob for 100 000 000 days at time 1000 is answered 500 and
changes nothing: the date would lie beyond the last one a `Date` can hold. -/
theorem promote_endless_duration_fails :
    (promoteService hexHelpers promoStore bob (sampleId "d1") endlessBody 241 1000).1.status =
      500 ∧
    (promoteService hexHelpers promoStore bob (sampleId "d1") endlessBody 241 1000).2 =
      promoStore := by
  decide

/-- C13, the claim fails: bob promotes his service 0xd1 at time 1000 for one
day and a half; the request succeeds and the stored `featured_until` is one day
after the request, 86401000, where the claim puts it one day and a half after
the request, at 129601000. -/
theorem promote_fractional_duration_truncated :
    fractionalBody.duration_days = some (JsNumber.finite false 3 (-1)) ∧
    (JsNumber.finite false 3 (-1)).toRat = some (3 / 2) ∧
    (promoteService hexHelpers promoStore bob (sampleId "d1") fractionalBody 241
      1000).1.status = 200 ∧
    ∃ s, findServiceById (promoteService hexHelpers promoStore bob (sampleId "d1")
        fractionalBody 241 1000).2 209 = some s ∧
      s.featured_until = some (1000 + 1 * 86400000) ∧
      ((1000 + 1 * 86400000 : Int) : Rat) ≠ 1000 + 3 / 2 * 86400000 := by
  refine ⟨rfl, ?_, by decide, promotedService fractionalBody (addDays 1000 1) activeService,
    by decide, by decide, ?_⟩
  · simp only [JsNumber.toRat, Option.some.injEq]
    norm_num
  · norm_num

/-- C13, as amended: a successful promote leaves the service with
`is_featured = true`, with `promotion_type` and `promotion_location` as the
request gives them, and with `featured_until` at the date that `setDate`
computes from the duration of the request (30 when it gives none); when the
clock shows a valid time and the duration is a whole number of days `n`, that
date is the time of the request plus `n` days. -/
theorem promote_sets_service_fields (H : Helpers) (st : Store) (u : ReqUser)
    (idParam : String) (body : PromoteBody) (newId : ObjectId) (now : Int)
    (hsucc : (promoteService H st u idParam body newId now).1.success = true) :
    ∃ s t, findServiceById (promoteService H st u idParam body newId now).2
        (H.toObjectId idParam) = some s ∧
      s.featured_until = some t ∧
      featuredUntil now (body.duration_days.getD 30) = some t ∧
      (∀ n : Int, ValidTime now → (body.duration_days.getD 30).toRat = some (n : Rat) →
        t = now + n * 86400000) ∧
      s.is_featured = true ∧
      s.promotion_type = body.promotion_type ∧ s.promotion_location = body.location := by
  obtain ⟨p, s, t, expires, hv, hp, hs, he, ht, hmem⟩ := promoteService_success hsucc
  rw [promoteService_ok u body newId now hv hp hs he ht hmem]
  refine ⟨promotedService body expires s, expires, findServiceById_saved _ hs rfl, rfl, he, ?_,
    rfl, rfl, rfl⟩
  intro n hnow hn
  exact featuredUntil_of_whole now n expires _ hnow hn he

theorem promote_sets_service_fields_witness :
    ∃ s, findServiceById (promoteService hexHelpers promoStore bob (sampleId "d1")
        trendingBody 241 1000).2 (hexHelpers.toObjectId (sampleId "d1")) = some s ∧
      s.featured_until = some (1000 + 30 * 86400000) ∧ s.is_featured = true ∧
      s.promotion_type = trendingBody.promotion_type ∧
      s.promotion_location = trendingBody.location := by
  obtain ⟨s, t, h1, h2, _, h4, h5, h6, h7⟩ :=
    promote_sets_service_fields hexHelpers promoStore bob (sampleId "d1") trendingBody 241 1000
      (by decide)
  have e : t = 1000 + 30 * 86400000 :=
    h4 30 ⟨by decide, by decide⟩ (toRat_ofInt 30)
  rw [e] at h2
  exact ⟨s, h1, h2, h5, h6, h7⟩

/-- C15: a successful promote appends exactly one ledger record and leaves the
records before it as they were; the record names the promoted service, its
`expires_at` is the new `featured_until` of the service, and its type,
location, duration and cost are those of the request (the duration 30 when the
request gives none, the cost from the schedule). -/
theorem promote_appends_ledger_record (H : Helpers) (st : Store) (u : ReqUser)
    (idParam : String) (body : PromoteBody) (newId : ObjectId) (now : Int)
    (hsucc : (promoteService H st u idParam body newId now).1.success = true) :
    ∃ r s, (promoteService H st u idParam body newId now).2.promotions =
        st.promotions ++ [r] ∧
      r.service_id = H.toObjectId idParam ∧
      findServiceById (promoteService H st u idParam body newId now).2
        (H.toObjectId idParam) = some s ∧
      s.featured_until = some r.expires_at ∧
      some r.promotion_type = body.promotion_type ∧
      r.promotion_location = body.location ∧
      r.duration_days = body.duration_days.getD 30 ∧
      r.cost = promotionCost body.promotion_type body.location body.amount := by
  obtain ⟨p, s, t, expires, hv, hp, hs, he, ht, hmem⟩ := promoteService_success hsucc
  rw [promoteService_ok u body newId now hv hp hs he ht hmem]
  refine ⟨promotionRecord body t (promotedService body expires s) newId now expires,
    promotedService body expires s, rfl, ?_, findServiceById_saved _ hs rfl, rfl, ?_, rfl, rfl,
    rfl⟩
  · exact (findServiceOfProvider_some hs).2.1
  · rw [ht]; rfl

theorem promote_appends_ledger_record_witness :
    ∃ r s, (promoteService hexHelpers promoStore bob (sampleId "d1") trendingBody 241
        1000).2.promotions = promoStore.promotions ++ [r] ∧
      r.service_id = hexHelpers.toObjectId (sampleId "d1") ∧
      findServiceById (promoteService hexHelpers promoStore bob (sampleId "d1") trendingBody
        241 1000).2 (hexHelpers.toObjectId (sampleId "d1")) = some s ∧
      s.featured_until = some r.expires_at ∧
      some r.promotion_type = trendingBody.promotion_type ∧
      r.promotion_location = trendingBody.location ∧
      r.duration_days = trendingBody.duration_days.getD 30 ∧
      r.cost = promotionCost trendingBody.promotion_type trendingBody.location
        trendingBody.amount :=
  promote_appends_ledger_record hexHelpers promoStore bob (sampleId "d1") trendingBody 241 1000
    (by decide)

/-- C16, the claim fails: carol owns the provider profile 0xc2, the service
0xd1 belongs to the profile 0xc1, and her promote request is answered 404
"Service not found", not 403. -/
theorem promote_by_other_provider_is_not_found :
    findProviderByUser promoStore (hexHelpers.toObjectId carol.id) = some otherProvider ∧
    findServiceOfProvider promoStore (hexHelpers.toObjectId (sampleId "d1")) otherProvider.id =
      none ∧
    (promoteService hexHelpers promoStore carol (sampleId "d1") trendingBody 241 1000).1.status =
      404 ∧
    (promoteService hexHelpers promoStore carol (sampleId "d1") trendingBody 241
      1000).1.message = some "Service not found" := by
  decide

/-- C16, as amended: a promote by a caller who owns no provider profile, or
whose provider profile does not own the service, fails and leaves the store,
hence the service and the ledger, unchanged; when the caller has a profile that
does not own the service, the answer to a well-formed id is 404 "Service not
found". -/
theorem promote_without_ownership_fails (H : Helpers) (st : Store) (u : ReqUser)
    (idParam : String) (body : PromoteBody) (newId : ObjectId) (now : Int)
    (hno : ∀ p, findProviderByUser st (H.toObjectId u.id) = some p →
      findServiceOfProvider st (H.toObjectId idParam) p.id = none) :
    (promoteService H st u idParam body newId now).1.success = false ∧
    (promoteService H st u idParam body newId now).2 = st ∧
    (∀ p, H.isValidObjectId idParam = true →
      findProviderByUser st (H.toObjectId u.id) = some p →
      (promoteService H st u idParam body newId now).1.status = 404 ∧
      (promoteService H st u idParam body newId now).1.message = some "Service not found") := by
  refine ⟨(promoteService_not_owner hno).1, (promoteService_not_owner hno).2, ?_⟩
  intro p hv hp
  unfold promoteService
  simp [hv, hp, hno p hp]

theorem promote_without_ownership_fails_witness :
    (promoteService hexHelpers promoStore alice (sampleId "d1") trendingBody 241
      1000).1.success = false ∧
    (promoteService hexHelpers promoStore alice (sampleId "d1") trendingBody 241 1000).2 =
      promoStore :=
  have h := promote_without_ownership_fails hexHelpers promoStore alice (sampleId "d1")
    trendingBody 241 1000 (by
      intro p hp
      have e : findProviderByUser promoStore (hexHelpers.toObjectId alice.id) = none := by
        decide
      rw [e] at hp
      cases hp)
  ⟨h.1, h.2.1⟩

/-! ## The ranked views -/

theorem fieldLT_irrefl (a : Option Int) : fieldLT a a = false := by
  cases a <;> simp [fieldLT]

theorem fieldLT_trans {a b c : Option Int} (h1 : fieldLT a b = true) (h2 : fieldLT b c = true) :
    fieldLT a c = true := by
  cases a <;> cases b <;> cases c <;> simp_all [fieldLT]
  omega

theorem fieldLT_asymm {a b : Option Int} (h1 : fieldLT a b = true) : fieldLT b a = false := by
  cases a <;> cases b <;> simp_all [fieldLT]
  omega

theorem fieldLT_trichotomy (a b : Option Int) :
    fieldLT a b = true ∨ a = b ∨ fieldLT b a = true := by
  cases a <;> cases b <;> simp [fieldLT]
  omega

theorem slidesBefore_total (a b : Service) : slidesBefore a b ∨ slidesBefore b a := by
  unfold slidesBefore
  rcases fieldLT_trichotomy a.featured_priority b.featured_priority with h | h | h
  · exact Or.inr (Or.inl h)
  · rcases le_total a.created_at b.created_at with hc | hc
    · exact Or.inr (Or.inr ⟨h.symm, hc⟩)
    · exact Or.inl (Or.inr ⟨h, hc⟩)
  · exact Or.inl (Or.inl h)

theorem slidesBefore_trans {a b c : Service} (h1 : slidesBefore a b) (h2 : slidesBefore b c) :
    slidesBefore a c := by
  unfold slidesBefore at *
  rcases h1 with h1 | ⟨e1, c1⟩ <;> rcases h2 with h2 | ⟨e2, c2⟩
  · exact Or.inl (fieldLT_trans h2 h1)
  · exact Or.inl (by rw [← e2]; exact h1)
  · exact Or.inl (by rw [e1]; exact h2)
  · exact Or.inr ⟨e1.trans e2, le_trans c2 c1⟩

theorem trendingBefore_total (a b : Service) : trendingBefore a b ∨ trendingBefore b a := by
  unfold trendingBefore
  rcases fieldLT_trichotomy a.featured_priority b.featured_priority with h | h | h
  · exact Or.inr (Or.inl h)
  · rcases lt_trichotomy a.views_count b.views_count with hv | hv | hv
    · exact Or.inr (Or.inr ⟨h.symm, Or.inl hv⟩)
    · rcases le_total a.created_at b.created_at with hc | hc
      · exact Or.inr (Or.inr ⟨h.symm, Or.inr ⟨hv.symm, hc⟩⟩)
      · exact Or.inl (Or.inr ⟨h, Or.inr ⟨hv, hc⟩⟩)
    · exact Or.inl (Or.inr ⟨h, Or.inl hv⟩)
  · exact Or.inl (Or.inl h)

theorem trendingBefore_trans {a b c : Service} (h1 : trendingBefore a b)
    (h2 : trendingBefore b c) : trendingBefore a c := by
  unfold trendingBefore at *
  rcases h1 with h1 | ⟨e1, c1⟩ <;> rcases h2 with h2 | ⟨e2, c2⟩
  · exact Or.inl (fieldLT_trans h2 h1)
  · exact Or.inl (by rw [← e2]; exact h1)
  · exact Or.inl (by rw [e1]; exact h2)
  · refine Or.inr ⟨e1.trans e2, ?_⟩
    rcases c1 with v1 | ⟨v1, d1⟩ <;> rcases c2 with v2 | ⟨v2, d2⟩
    · exact Or.inl (lt_trans v2 v1)
    · exact Or.inl (by rw [← v2]; exact v1)
    · exact Or.inl (by rw [v1]; exact v2)
    · exact Or.inr ⟨v1.trans v2, le_trans d2 d1⟩

theorem dateAfter_iff (t : Option Int) (now : Int) :
    dateAfter t now = true ↔ ∃ u ∈ t, now < u := by
  cases t <;> simp [dateAfter]

theorem slidesQuery_iff (now : Int) (s : Service) :
    slidesQuery now s = true ↔ SlideEligible now s := by
  unfold slidesQuery SlideEligible
  rw [Bool.and_eq_true, Bool.and_eq_true, Bool.and_eq_true, dateAfter_iff]
  have hloc : textIn s.promotion_location slideLocations = true ↔
      ∃ l ∈ s.promotion_location,
        l = "homepage" ∨ l = "both" ∨ l = "homepage_slides" ∨ l = "top_carousel" := by
    cases s.promotion_location <;> simp [textIn, slideLocations]
  rw [hloc]
  exact ⟨fun ⟨⟨⟨a, b⟩, c⟩, d⟩ => ⟨a, b, c, d⟩, fun ⟨a, b, c, d⟩ => ⟨⟨⟨a, b⟩, c⟩, d⟩⟩

theorem trendingQuery_iff (now : Int) (s : Service) :
    trendingQuery now s = true ↔ TrendingEligible now s := by
  unfold trendingQuery TrendingEligible
  rw [Bool.and_eq_true, Bool.and_eq_true, Bool.and_eq_true, Bool.and_eq_true, dateAfter_iff]
  have hloc : textIn s.promotion_location trendingLocations = true ↔
      ∃ l ∈ s.promotion_location,
        l = "trending_section" ∨ l = "increased_visibility" ∨ l = "search_priority" := by
    cases s.promotion_location <;> simp [textIn, trendingLocations]
  have htype : (s.promotion_type == some "trending") = true ↔
      s.promotion_type = some "trending" := by simp
  rw [hloc, htype]
  exact ⟨fun ⟨⟨⟨⟨a, b⟩, c⟩, d⟩, e⟩ => ⟨a, b, c, d, e⟩,
    fun ⟨a, b, c, d, e⟩ => ⟨⟨⟨⟨a, b⟩, c⟩, d⟩, e⟩⟩

/-- Filtering, sorting with a total and transitive order and keeping the first
`k` entries yields the ranked prefix of the eligible members. -/
theorem isRankedPrefix_take_sort (k : Nat) (all : List Service) (eligible : Service → Prop)
    [DecidablePred eligible] (q : Service → Bool) (hq : ∀ s, q s = true ↔ eligible s)
    (before : Service → Service → Prop) [DecidableRel before]
    (htotal : ∀ a b, before a b ∨ before b a)
    (htrans : ∀ a b c, before a b → before b c → before a c) :
    IsRankedPrefix k all eligible before (((all.filter q).insertionSort before).take k) := by
  haveI : IsTotal Service before := ⟨htotal⟩
  haveI : IsTrans Service before := ⟨htrans⟩
  have hfilter : (fun s => decide (eligible s)) = q := by
    funext s
    by_cases h : eligible s
    · simp [h, (hq s).mpr h]
    · have hqs : q s = false := by
        cases hqv : q s with
        | false => rfl
        | true => exact absurd ((hq s).mp hqv) h
      simp [h, hqs]
  have hsorted : ((all.filter q).insertionSort before).Sorted before :=
    List.sorted_insertionSort before _
  unfold IsRankedPrefix
  rw [hfilter]
  refine ⟨List.Pairwise.sublist (List.take_sublist _ _) hsorted, ?_,
    ((all.filter q).insertionSort before).drop k, ?_, ?_⟩
  · rw [List.length_take, List.length_insertionSort]
  · rw [List.take_append_drop]
    exact List.perm_insertionSort before _
  · intro x hx y hy
    exact hsorted.rel_of_mem_take_of_mem_drop hx hy

theorem fieldLT_iff (x y : Option Int) :
    fieldLT x y = true ↔ priorityRank x < priorityRank y := by
  cases x with
  | none =>
    cases y with
    | none => simp [fieldLT, priorityRank]
    | some b => simp [fieldLT, priorityRank]
  | some a =>
    cases y with
    | none => simp [fieldLT, priorityRank]
    | some b => simp [fieldLT, priorityRank]

theorem priorityRank_injective {x y : Option Int} (h : priorityRank x = priorityRank y) :
    x = y := by
  cases x <;> cases y <;> simp_all [priorityRank]

/-- The sort of the featured-slides query is the descending order of the
rank. -/
theorem slidesBefore_iff (a b : Service) : slidesBefore a b ↔ slidesDescending a b := by
  unfold slidesBefore slidesDescending slideRank
  rw [Prod.Lex.le_iff, fieldLT_iff]
  constructor
  · rintro (h | ⟨h1, h2⟩)
    · exact Or.inl h
    · exact Or.inr ⟨by rw [h1], h2⟩
  · rintro (h | ⟨h1, h2⟩)
    · exact Or.inl h
    · exact Or.inr ⟨(priorityRank_injective h1).symm, h2⟩

/-- The sort of the trending query is the descending order of the rank. -/
theorem trendingBefore_iff (a b : Service) : trendingBefore a b ↔ trendingDescending a b := by
  unfold trendingBefore trendingDescending trendingRank
  rw [Prod.Lex.le_iff, fieldLT_iff]
  simp only [Prod.Lex.le_iff]
  constructor
  · rintro (h | ⟨h1, h2⟩)
    · exact Or.inl h
    · refine Or.inr ⟨by rw [h1], ?_⟩
      rcases h2 with h2 | ⟨h2, h3⟩
      · exact Or.inl h2
      · exact Or.inr ⟨h2.symm, h3⟩
  · rintro (h | ⟨h1, h2⟩)
    · exact Or.inl h
    · refine Or.inr ⟨(priorityRank_injective h1).symm, ?_⟩
      rcases h2 with h2 | ⟨h2, h3⟩
      · exact Or.inl h2
      · exact Or.inr ⟨h2.symm, h3⟩

theorem isRankedPrefix_congr {k : Nat} {all : List Service} {eligible : Service → Prop}
    [DecidablePred eligible] {before after : Service → Service → Prop}
    (h : ∀ a b, before a b ↔ after a b) {result : List Service}
    (hr : IsRankedPrefix k all eligible before result) :
    IsRankedPrefix k all eligible after result := by
  obtain ⟨h1, h2, rest, h3, h4⟩ := hr
  exact ⟨h1.imp (fun hab => (h _ _).mp hab), h2, rest, h3,
    fun x hx y hy => (h _ _).mp (h4 x hx y hy)⟩

/-- C18: the featured-slides view answers the first 5 (or all, if fewer) of the
services that are active, featured, with `featured_until` later than now and a
location among homepage, both, homepage_slides and top_carousel, ordered by
`featured_priority` descending, then `created_at` descending. -/
theorem featuredSlides_ranked (st : Store) (now : Int) :
    IsRankedPrefix 5 st.services (SlideEligible now) slidesDescending
      (featuredSlides st now) := by
  unfold featuredSlides
  exact isRankedPrefix_congr slidesBefore_iff
    (isRankedPrefix_take_sort 5 st.services (SlideEligible now) (slidesQuery now)
      (slidesQuery_iff now) slidesBefore slidesBefore_total
      (fun _ _ _ h1 h2 => slidesBefore_trans h1 h2))

/-- C19: the trending view answers the first 12 (or all, if fewer) of the
services that are active, featured, with `featured_until` later than now, of
type trending and with a location among trending_section, increased_visibility
and search_priority, ordered by `featured_priority` descending, then
`views_count` descending, then `created_at` descending. -/
theorem trendingServices_ranked (st : Store) (now : Int) :
    IsRankedPrefix 12 st.services (TrendingEligible now) trendingDescending
      (trendingServices st now) := by
  unfold trendingServices
  exact isRankedPrefix_congr trendingBefore_iff
    (isRankedPrefix_take_sort 12 st.services (TrendingEligible now) (trendingQuery now)
      (trendingQuery_iff now) trendingBefore trendingBefore_total
      (fun _ _ _ h1 h2 => trendingBefore_trans h1 h2))

theorem not_dateAfter_of_le {t now : Int} (h : t ≤ now) : dateAfter (some t) now = false := by
  simp [dateAfter, h]

/-- C20: a service whose `featured_until` is at or before the current time is
in neither the featured-slides answer nor the trending answer, whatever its
`is_featured` flag and whatever the store. -/
theorem expired_service_not_listed (st : Store) (now : Int) (s : Service) (t : Int)
    (ht : s.featured_until = some t) (hexp : t ≤ now) :
    s ∉ featuredSlides st now ∧ s ∉ trendingServices st now := by
  have hd : dateAfter s.featured_until now = false := by
    rw [ht]; exact not_dateAfter_of_le hexp
  constructor
  · intro hmem
    have h1 := (List.mem_insertionSort slidesBefore).mp (List.mem_of_mem_take hmem)
    have h2 := (List.mem_filter.mp h1).2
    simp [slidesQuery, hd] at h2
  · intro hmem
    have h1 := (List.mem_insertionSort trendingBefore).mp (List.mem_of_mem_take hmem)
    have h2 := (List.mem_filter.mp h1).2
    simp [trendingQuery, hd] at h2

theorem expired_service_not_listed_witness :
    promotedService trendingBody (addDays 1000 30) activeService ∉
      featuredSlides (promoteService hexHelpers promoStore bob (sampleId "d1") trendingBody 241
        1000).2 (addDays 1000 30) ∧
    promotedService trendingBody (addDays 1000 30) activeService ∉
      trendingServices (promoteService hexHelpers promoStore bob (sampleId "d1") trendingBody 241
        1000).2 (addDays 1000 30) :=
  expired_service_not_listed _ (addDays 1000 30)
    (promotedService trendingBody (addDays 1000 30) activeService) (addDays 1000 30) rfl
    (le_refl _)

/-! ## How the operations change the services and the ledger -/

theorem promotionStep_refl (s : Service) : PromotionStep s s :=
  ⟨rfl, Or.inl ⟨rfl, rfl⟩⟩

theorem find_id_map {f : Service → Service} (hf : ∀ s, (f s).id = s.id) (ss : List Service)
    (k : ObjectId) :
    (ss.map f).find? (fun x => x.id == k) = (ss.find? (fun x => x.id == k)).map f := by
  have hcomp : ((fun x : Service => x.id == k) ∘ f) = fun x => x.id == k := by
    funext x
    simp [Function.comp, hf x]
  rw [List.find?_map, hcomp]

theorem service_eq_of_id {ss : List Service} (hu : (ss.map (fun s => s.id)).Nodup)
    {a b : Service} (ha : a ∈ ss) (hb : b ∈ ss) (hid : a.id = b.id) : a = b := by
  induction ss with
  | nil => cases ha
  | cons x l ih =>
    rw [List.map_cons, List.nodup_cons] at hu
    rcases List.mem_cons.mp ha with rfl | ha' <;> rcases List.mem_cons.mp hb with rfl | hb'
    · rfl
    · exact absurd (hid ▸ List.mem_map_of_mem (fun s => s.id) hb') hu.1
    · exact absurd (hid ▸ List.mem_map_of_mem (fun s => s.id) ha') hu.1
    · exact ih hu.2 ha' hb'

theorem find_id_eraseP {ss : List Service} (hu : (ss.map (fun s => s.id)).Nodup)
    (p : Service → Bool) {k : ObjectId} {s : Service}
    (h : (ss.eraseP p).find? (fun x => x.id == k) = some s) :
    ss.find? (fun x => x.id == k) = some s := by
  induction ss with
  | nil => simp at h
  | cons a l ih =>
    rw [List.map_cons, List.nodup_cons] at hu
    rw [List.eraseP_cons] at h
    by_cases hp : p a = true
    · simp only [hp, cond_true] at h
      have hs : s ∈ l ∧ s.id = k :=
        ⟨List.mem_of_find?_eq_some h, by simpa using List.find?_some h⟩
      have hne : ¬ a.id = k := by
        intro e
        exact hu.1 (by rw [e, ← hs.2]; exact List.mem_map_of_mem (fun s => s.id) hs.1)
      simp [List.find?_cons, hne, h]
    · have hpf : p a = false := by simpa using hp
      simp only [hpf, cond_false] at h
      by_cases hk : a.id = k
      · simpa [List.find?_cons, hk] using h
      · have h' : (l.eraseP p).find? (fun x => x.id == k) = some s := by
          simpa [List.find?_cons, hk] using h
        simp [List.find?_cons, hk, ih hu.2 h']

/-- Each member of the changed collection continues a member of the old one,
or is new. -/
theorem servicesChange_mem {isNew : Service → Prop} {ss ss' : List Service}
    (h : ServicesChange isNew ss ss') {s' : Service} (hm : s' ∈ ss') :
    (∃ s ∈ ss, PromotionStep s s') ∨ isNew s' := by
  cases h with
  | same => exact Or.inl ⟨s', hm, promotionStep_refl s'⟩
  | mapped f hf =>
    obtain ⟨s, hs, rfl⟩ := List.mem_map.mp hm
    exact Or.inl ⟨s, hs, hf s⟩
  | saved found updated hmem hstep =>
    unfold saveService at hm
    obtain ⟨s, hs, hsv⟩ := List.mem_map.mp hm
    by_cases hid : s.id = updated.id
    · have e : s' = updated := by simpa [hid] using hsv.symm
      rw [e]
      exact Or.inl ⟨found, hmem, hstep⟩
    · have e : s' = s := by simpa [hid] using hsv.symm
      rw [e]
      exact Or.inl ⟨s, hs, promotionStep_refl s⟩
  | appended n hn =>
    rcases List.mem_append.mp hm with h1 | h1
    · exact Or.inl ⟨s', h1, promotionStep_refl s'⟩
    · have e : s' = n := by simpa using h1
      rw [e]
      exact Or.inr hn
  | erased p => exact Or.inl ⟨s', List.mem_of_mem_eraseP hm, promotionStep_refl s'⟩

/-- With unique ids, the service found under an `_id` after the change
continues the service found under it before. -/
theorem servicesChange_lookup {isNew : Service → Prop} {ss ss' : List Service}
    (h : ServicesChange isNew ss ss') (hu : (ss.map (fun s => s.id)).Nodup) {k : ObjectId}
    {s s' : Service} (h1 : ss.find? (fun x => x.id == k) = some s)
    (h2 : ss'.find? (fun x => x.id == k) = some s') : PromotionStep s s' := by
  cases h with
  | same =>
    rw [h1] at h2
    rw [← Option.some.inj h2]
    exact promotionStep_refl s
  | mapped f hf =>
    rw [find_id_map (fun x => (hf x).1), h1] at h2
    rw [← Option.some.inj h2]
    exact hf s
  | saved found updated hmem hstep =>
    rw [find_saveService, h1] at h2
    have hs : s ∈ ss := List.mem_of_find?_eq_some h1
    by_cases hid : s.id = updated.id
    · have e : s' = updated := by simpa [hid] using h2.symm
      have hsf : s = found := service_eq_of_id hu hs hmem (hid.trans hstep.1)
      rw [e, hsf]
      exact hstep
    · have e : s' = s := by simpa [hid] using h2.symm
      rw [e]
      exact promotionStep_refl s
  | appended n hn =>
    rw [List.find?_append, h1] at h2
    have e : s = s' := by simpa using h2
    rw [← e]
    exact promotionStep_refl s
  | erased p =>
    have h3 := find_id_eraseP hu p h2
    rw [h1] at h3
    rw [← Option.some.inj h3]
    exact promotionStep_refl s

theorem ServicesChange.mono {P Q : Service → Prop} (hPQ : ∀ n, P n → Q n)
    {ss ss' : List Service} (h : ServicesChange P ss ss') : ServicesChange Q ss ss' := by
  cases h with
  | same => exact ServicesChange.same
  | mapped f hf => exact ServicesChange.mapped f hf
  | saved found updated hmem hstep => exact ServicesChange.saved found updated hmem hstep
  | appended n hn => exact ServicesChange.appended n (hPQ n hn)
  | erased p => exact ServicesChange.erased p

theorem getService_change (isNew : Service → Prop) (H : Helpers) (st : Store)
    (idParam : String) :
    ServicesChange isNew st.services (getService H st idParam).2.services ∧
    (getService H st idParam).2.promotions = st.promotions := by
  unfold getService
  split
  · exact ⟨ServicesChange.same, rfl⟩
  · split
    · exact ⟨ServicesChange.same, rfl⟩
    · refine ⟨?_, rfl⟩
      unfold incViewsCount
      refine ServicesChange.mapped _ (fun s => ?_)
      by_cases h : s.id = H.toObjectId idParam
      · simp [h, PromotionStep]
      · simp [h, PromotionStep]

theorem createService_change (H : Helpers) (st : Store) (u : ReqUser) (body : ServiceBody)
    (newId : ObjectId) (now : Int) :
    ServicesChange (fun n => n.id = newId) st.services
      (createService H st u body newId now).2.services ∧
    (createService H st u body newId now).2.promotions = st.promotions := by
  unfold createService
  simp only
  split
  · exact ⟨ServicesChange.same, rfl⟩
  · split
    · exact ⟨ServicesChange.same, rfl⟩
    · split
      · exact ⟨ServicesChange.appended _ rfl, rfl⟩
      · exact ⟨ServicesChange.same, rfl⟩

theorem updateService_change (isNew : Service → Prop) (H : Helpers) (st : Store) (u : ReqUser)
    (idParam : String) (body : ServiceBody) :
    ServicesChange isNew st.services (updateService H st u idParam body).2.services ∧
    (updateService H st u idParam body).2.promotions = st.promotions := by
  unfold updateService
  simp only
  split
  · exact ⟨ServicesChange.same, rfl⟩
  · split
    · exact ⟨ServicesChange.same, rfl⟩
    · split
      · exact ⟨ServicesChange.same, rfl⟩
      · split
        · exact ⟨ServicesChange.same, rfl⟩
        · rename_i provider _ service hs
          exact ⟨ServicesChange.saved service _ (findServiceOfProvider_some hs).1
            ⟨rfl, Or.inl ⟨rfl, rfl⟩⟩, rfl⟩

theorem deleteService_change (isNew : Service → Prop) (H : Helpers) (st : Store) (u : ReqUser)
    (idParam : String) :
    ServicesChange isNew st.services (deleteService H st u idParam).2.services ∧
    (deleteService H st u idParam).2.promotions = st.promotions := by
  unfold deleteService
  split
  · exact ⟨ServicesChange.same, rfl⟩
  · split
    · exact ⟨ServicesChange.same, rfl⟩
    · split
      · exact ⟨ServicesChange.same, rfl⟩
      · exact ⟨ServicesChange.erased _, rfl⟩

theorem toggleServiceStatus_change (isNew : Service → Prop) (H : Helpers) (st : Store)
    (u : ReqUser) (idParam : String) :
    ServicesChange isNew st.services (toggleServiceStatus H st u idParam).2.services ∧
    (toggleServiceStatus H st u idParam).2.promotions = st.promotions := by
  unfold toggleServiceStatus
  split
  · exact ⟨ServicesChange.same, rfl⟩
  · split
    · exact ⟨ServicesChange.same, rfl⟩
    · split
      · exact ⟨ServicesChange.same, rfl⟩
      · rename_i provider _ service hs
        exact ⟨ServicesChange.saved service _ (findServiceOfProvider_some hs).1
          ⟨rfl, Or.inl ⟨rfl, rfl⟩⟩, rfl⟩

theorem promotedService_step (body : PromoteBody) (expires : Int) (s : Service) :
    PromotionStep s (promotedService body expires s) :=
  ⟨rfl, Or.inr ⟨rfl, rfl⟩⟩

/-- The promote handler saves at most the promoted service, and appends a
ledger record only for a service it has saved as featured. -/
theorem promoteService_change (isNew : Service → Prop) (H : Helpers) (st : Store)
    (u : ReqUser) (idParam : String) (body : PromoteBody) (newId : ObjectId) (now : Int) :
    ServicesChange isNew st.services
      (promoteService H st u idParam body newId now).2.services ∧
    ((promoteService H st u idParam body newId now).2.promotions = st.promotions ∨
     ∃ r updated,
      (promoteService H st u idParam body newId now).2.promotions = st.promotions ++ [r] ∧
      (promoteService H st u idParam body newId now).2.services =
        saveService updated st.services ∧
      r.service_id = updated.id ∧ updated.is_featured = true) := by
  unfold promoteService
  split
  · exact ⟨ServicesChange.same, Or.inl rfl⟩
  · simp only
    split
    · exact ⟨ServicesChange.same, Or.inl rfl⟩
    · split
      · exact ⟨ServicesChange.same, Or.inl rfl⟩
      · rename_i provider _ service hs
        have hmem := (findServiceOfProvider_some hs).1
        split
        · exact ⟨ServicesChange.same, Or.inl rfl⟩
        · rename_i expires _
          split
          · exact ⟨ServicesChange.same, Or.inl rfl⟩
          · split
            · exact ⟨ServicesChange.saved service _ hmem
                (promotedService_step body expires service), Or.inl rfl⟩
            · split
              · exact ⟨ServicesChange.saved service _ hmem
                  (promotedService_step body expires service), Or.inl rfl⟩
              · exact ⟨ServicesChange.saved service _ hmem
                  (promotedService_step body expires service),
                  Or.inr ⟨_, promotedService body expires service, rfl, rfl, rfl, rfl⟩⟩

theorem incBookingsCount_change (isNew : Service → Prop) (k : ObjectId) (ss : List Service) :
    ServicesChange isNew ss (incBookingsCount k ss) := by
  unfold incBookingsCount
  refine ServicesChange.mapped _ (fun s => ?_)
  by_cases h : s.id = k
  · simp [h, PromotionStep]
  · simp [h, PromotionStep]

theorem createBooking_change (isNew : Service → Prop) (H : Helpers) (st : Store) (u : ReqUser)
    (body : CreateBookingBody) (newId : ObjectId) (now : Int) :
    ServicesChange isNew st.services (createBooking H st u body newId now).2.services ∧
    (createBooking H st u body newId now).2.promotions = st.promotions := by
  cases hsucc : (createBooking H st u body newId now).1.success with
  | false => rw [createBooking_fail hsucc]; exact ⟨ServicesChange.same, rfl⟩
  | true =>
    obtain ⟨sid, s, p, hval, hsid, hv, hs, ha, hp⟩ := createBooking_success hsucc
    obtain ⟨b, _, _, _, h4, _⟩ := createBooking_ok u newId now hval hsid hv hs ha hp
    rw [h4]
    exact ⟨incBookingsCount_change isNew _ _, rfl⟩

theorem updateBookingStatus_change (isNew : Service → Prop) (H : Helpers) (st : Store)
    (u : ReqUser) (idParam : String) (status : Option String) :
    ServicesChange isNew st.services (updateBookingStatus H st u idParam status).2.services ∧
    (updateBookingStatus H st u idParam status).2.promotions = st.promotions := by
  cases hsucc : (updateBookingStatus H st u idParam status).1.success with
  | false => rw [updateBookingStatus_fail hsucc]; exact ⟨ServicesChange.same, rfl⟩
  | true =>
    obtain ⟨t, p, b, ht, hv, hp, hb⟩ := updateBookingStatus_success hsucc
    rw [updateBookingStatus_ok ht hv hp hb]
    exact ⟨ServicesChange.same, rfl⟩

theorem cancelBooking_change (isNew : Service → Prop) (H : Helpers) (st : Store)
    (u : ReqUser) (idParam : String) :
    ServicesChange isNew st.services (cancelBooking H st u idParam).2.services ∧
    (cancelBooking H st u idParam).2.promotions = st.promotions := by
  cases hsucc : (cancelBooking H st u idParam).1.success with
  | false => rw [cancelBooking_fail hsucc]; exact ⟨ServicesChange.same, rfl⟩
  | true =>
    obtain ⟨b, hv, hb, hne⟩ := cancelBooking_success hsucc
    rw [cancelBooking_ok hv hb hne]
    exact ⟨ServicesChange.same, rfl⟩

/-- Every operation changes the services in one of the listed ways, a created
service carrying a fresh `_id`, and appends a ledger record only together with
saving the service it names as featured. -/
theorem operation_change (H : Helpers) (st : Store) (op : Operation) :
    ServicesChange (fun n => op.fresh st → ∀ r ∈ st.promotions, r.service_id ≠ n.id)
      st.services (op.apply H st).services ∧
    ((op.apply H st).promotions = st.promotions ∨
     ∃ r updated, (op.apply H st).promotions = st.promotions ++ [r] ∧
      (op.apply H st).services = saveService updated st.services ∧
      r.service_id = updated.id ∧ updated.is_featured = true) := by
  cases op with
  | service req =>
    cases req with
    | view idParam =>
      exact ⟨(getService_change _ H st idParam).1, Or.inl (getService_change (fun _ => True) H st idParam).2⟩
    | create u body newId now =>
      refine ⟨?_, Or.inl (createService_change H st u body newId now).2⟩
      refine ServicesChange.mono ?_ (createService_change H st u body newId now).1
      intro n hn hf r hr
      rw [hn]
      exact hf.2 r hr
    | update u idParam body =>
      exact ⟨(updateService_change _ H st u idParam body).1,
        Or.inl (updateService_change (fun _ => True) H st u idParam body).2⟩
    | delete u idParam =>
      exact ⟨(deleteService_change _ H st u idParam).1,
        Or.inl (deleteService_change (fun _ => True) H st u idParam).2⟩
    | promote u idParam body newId now =>
      exact ⟨(promoteService_change _ H st u idParam body newId now).1,
        (promoteService_change (fun _ => True) H st u idParam body newId now).2⟩
    | toggle u idParam =>
      exact ⟨(toggleServiceStatus_change _ H st u idParam).1,
        Or.inl (toggleServiceStatus_change (fun _ => True) H st u idParam).2⟩
  | booking req =>
    cases req with
    | create u body newId now =>
      exact ⟨(createBooking_change _ H st u body newId now).1,
        Or.inl (createBooking_change (fun _ => True) H st u body newId now).2⟩
    | updateStatus u idParam status =>
      exact ⟨(updateBookingStatus_change _ H st u idParam status).1,
        Or.inl (updateBookingStatus_change (fun _ => True) H st u idParam status).2⟩
    | cancel u idParam =>
      exact ⟨(cancelBooking_change _ H st u idParam).1,
        Or.inl (cancelBooking_change (fun _ => True) H st u idParam).2⟩

/-! ## The priority counter and the featured flag -/

/-- C14: with unique service ids, a successful promote sets the service's
`featured_priority` to its previous value (absent counted as 0) plus 1, and
after any service or booking operation a service that is still stored has the
priority it had or that priority plus 1: no operation lowers or resets it. -/
theorem featured_priority_monotonic (H : Helpers) (st : Store) (hu : st.uniqueServiceIds) :
    (∀ u idParam body newId now s,
      findServiceById st (H.toObjectId idParam) = some s →
      (promoteService H st u idParam body newId now).1.success = true →
      ∃ s', findServiceById (promoteService H st u idParam body newId now).2
          (H.toObjectId idParam) = some s' ∧
        s'.featured_priority = some (s.featured_priority.getD 0 + 1)) ∧
    (∀ (op : Operation) sid s s',
      findServiceById st sid = some s →
      findServiceById (op.apply H st) sid = some s' →
      s'.featured_priority = s.featured_priority ∨
      s'.featured_priority = some (s.featured_priority.getD 0 + 1)) := by
  constructor
  · intro u idParam body newId now s hs hsucc
    obtain ⟨p, s0, t, expires, hv, hp, hs0, he, ht, hmem⟩ := promoteService_success hsucc
    obtain ⟨hm0, hid0, _⟩ := findServiceOfProvider_some hs0
    obtain ⟨hm, hid⟩ := findServiceById_some hs
    have e : s0 = s := service_eq_of_id hu hm0 hm (hid0.trans hid.symm)
    rw [promoteService_ok u body newId now hv hp hs0 he ht hmem]
    refine ⟨promotedService body expires s0, findServiceById_saved _ hs0 rfl, ?_⟩
    rw [← e]
    rfl
  · intro op sid s s' hs hs'
    have hstep := servicesChange_lookup (operation_change H st op).1 hu hs hs'
    rcases hstep.2 with h | h
    · exact Or.inl h.1
    · exact Or.inr h.1

theorem featured_priority_monotonic_witness :
    ∃ s', findServiceById (promoteService hexHelpers promoStore bob (sampleId "d1") trendingBody
        241 1000).2 (hexHelpers.toObjectId (sampleId "d1")) = some s' ∧
      s'.featured_priority = some (activeService.featured_priority.getD 0 + 1) :=
  (featured_priority_monotonic hexHelpers promoStore (by decide)).1 bob (sampleId "d1")
    trendingBody 241 1000 activeService (by decide) (by decide)

theorem ledgerInvariant_step (H : Helpers) (st : Store) (op : Operation) (hf : op.fresh st)
    (hinv : LedgerInvariant st) : LedgerInvariant (op.apply H st) := by
  obtain ⟨hch, hpromo⟩ := operation_change H st op
  have hold : ∀ r ∈ st.promotions, ∀ s' ∈ (op.apply H st).services,
      s'.id = r.service_id → s'.is_featured = true := by
    intro r hr s' hs' hid
    rcases servicesChange_mem hch hs' with ⟨s, hs, hstep⟩ | hnew
    · have hfeat : s.is_featured = true := hinv r hr s hs (hstep.1.symm.trans hid)
      rcases hstep.2 with h | h
      · rw [h.2]; exact hfeat
      · exact h.2
    · exact absurd hid.symm (hnew hf r hr)
  intro r hr s' hs' hid
  rcases hpromo with hp | ⟨r0, updated, hp, hsv, hrid, hfeat⟩
  · rw [hp] at hr
    exact hold r hr s' hs' hid
  · rw [hp] at hr
    rcases List.mem_append.mp hr with hr1 | hr1
    · exact hold r hr1 s' hs' hid
    · have e : r = r0 := by simpa using hr1
      rw [hsv] at hs'
      unfold saveService at hs'
      obtain ⟨x, _, hx⟩ := List.mem_map.mp hs'
      by_cases hxid : x.id = updated.id
      · have e2 : s' = updated := by simpa [hxid] using hx.symm
        rw [e2]; exact hfeat
      · have e2 : s' = x := by simpa [hxid] using hx.symm
        rw [e2, e, hrid] at hid
        exact absurd hid hxid

theorem reachable_ledgerInvariant {H : Helpers} {st : Store} (h : Reachable H st) :
    LedgerInvariant st := by
  induction h with
  | init st0 h0 =>
    intro r hr
    rw [h0] at hr
    cases hr
  | step st0 op _ hf ih => exact ledgerInvariant_step H st0 op hf ih

theorem reachable_promotedStore : Reachable hexHelpers promotedStore :=
  Reachable.step promoStore promoteRequest (Reachable.init promoStore rfl) trivial

/-- C17, the claim fails: in the store reached by bob's 30-day promote at time
1000, at the time 31 days later the service 0xd1 still has
`is_featured = true` while no ledger record for it expires later than that
time. -/
theorem featured_flag_outlives_promotion :
    Reachable hexHelpers promotedStore ∧
    ∃ s ∈ promotedStore.services, s.is_featured = true ∧
      ¬ ∃ r ∈ promotedStore.promotions, r.service_id = s.id ∧ addDays 1000 31 < r.expires_at :=
  ⟨reachable_promotedStore, by decide⟩

/-- C17, as amended: in every store reachable through the service and booking
operations from a store with an empty ledger, at every time, a service for
which a ledger record exists whose `expires_at` is later than the current time
has `is_featured = true`. -/
theorem featured_while_promotion_unexpired (H : Helpers) (st : Store) (now : Int)
    (h : Reachable H st) (s : Service) (hs : s ∈ st.services)
    (hr : ∃ r ∈ st.promotions, r.service_id = s.id ∧ now < r.expires_at) :
    s.is_featured = true := by
  obtain ⟨r, hmem, hid, _⟩ := hr
  exact reachable_ledgerInvariant h r hmem s hs hid.symm

theorem featured_while_promotion_unexpired_witness :
    (promotedService trendingBody (addDays 1000 30) activeService).is_featured = true :=
  featured_while_promotion_unexpired hexHelpers promotedStore 2000 reachable_promotedStore
    (promotedService trendingBody (addDays 1000 30) activeService) (by decide) (by decide)

/-! ## Deletion and update of a service -/

theorem perm_cons_eraseP_of_find {p : Service → Bool} {ss : List Service} {s : Service}
    (h : ss.find? p = some s) : ss.Perm (s :: ss.eraseP p) := by
  induction ss with
  | nil => simp at h
  | cons a l ih =>
    by_cases hp : p a = true
    · have e : a = s := by simpa [List.find?_cons, hp] using h
      rw [List.eraseP_cons, hp, e]
      exact List.Perm.refl _
    · have hpf : p a = false := by simpa using hp
      have h' : l.find? p = some s := by simpa [List.find?_cons, hpf] using h
      rw [List.eraseP_cons, hpf]
      exact ((ih h').cons a).trans (List.Perm.swap s a _)

theorem deleteService_success {H : Helpers} {st : Store} {u : ReqUser} {idParam : String}
    (h : (deleteService H st u idParam).1.success = true) :
    ∃ p s, H.isValidObjectId idParam = true ∧
      findProviderByUser st (H.toObjectId u.id) = some p ∧
      findServiceOfProvider st (H.toObjectId idParam) p.id = some s ∧
      (deleteService H st u idParam).2.services = st.services.eraseP
        (fun x => x.id == H.toObjectId idParam && x.provider_id == p.id) ∧
      (deleteService H st u idParam).2.providers = st.providers ∧
      (deleteService H st u idParam).2.bookings = st.bookings ∧
      (deleteService H st u idParam).2.promotions = st.promotions := by
  unfold deleteService at h ⊢
  cases hv : H.isValidObjectId idParam with
  | false => simp [hv] at h
  | true =>
    cases hp : findProviderByUser st (H.toObjectId u.id) with
    | none => simp [hv, hp] at h
    | some p =>
      cases hs : findServiceOfProvider st (H.toObjectId idParam) p.id with
      | none => simp [hv, hp, hs] at h
      | some s => exact ⟨p, s, rfl, rfl, hs, by simp [hs], by simp [hs], by simp [hs], by simp [hs]⟩

theorem deleteService_fail {H : Helpers} {st : Store} {u : ReqUser} {idParam : String}
    (h : (deleteService H st u idParam).1.success = false) :
    (deleteService H st u idParam).2 = st := by
  unfold deleteService at h ⊢
  cases hv : H.isValidObjectId idParam with
  | false => simp [hv]
  | true =>
    cases hp : findProviderByUser st (H.toObjectId u.id) with
    | none => simp [hv, hp]
    | some p =>
      cases hs : findServiceOfProvider st (H.toObjectId idParam) p.id with
      | none => simp [hv, hp, hs]
      | some s => simp [hv, hp, hs] at h

/-- C26: a deletion is answered with success only when the requester owns a
provider profile whose id is the `provider_id` of the service; it then removes
exactly that one service and nothing else of the store.  For every other
requester the request fails and the store, hence the set of services, is
unchanged. -/
theorem service_deletion_only_by_owner (H : Helpers) (st : Store) (u : ReqUser)
    (idParam : String) :
    ((deleteService H st u idParam).1.success = true →
      OwnsService H st u (H.toObjectId idParam) ∧
      ∃ p s, findProviderByUser st (H.toObjectId u.id) = some p ∧
        s.id = H.toObjectId idParam ∧ s.provider_id = p.id ∧
        st.services.Perm (s :: (deleteService H st u idParam).2.services) ∧
        (deleteService H st u idParam).2.providers = st.providers ∧
        (deleteService H st u idParam).2.bookings = st.bookings ∧
        (deleteService H st u idParam).2.promotions = st.promotions) ∧
    ((deleteService H st u idParam).1.success = false →
      (deleteService H st u idParam).2 = st) ∧
    (¬ OwnsService H st u (H.toObjectId idParam) →
      (deleteService H st u idParam).1.success = false ∧
      (deleteService H st u idParam).2 = st) := by
  have hown : (deleteService H st u idParam).1.success = true →
      OwnsService H st u (H.toObjectId idParam) := by
    intro hsucc
    obtain ⟨p, s, _, hp, hs, _⟩ := deleteService_success hsucc
    obtain ⟨hpm, hpu⟩ := findProviderByUser_some hp
    obtain ⟨hsm, hsi, hsp⟩ := findServiceOfProvider_some hs
    exact ⟨p, hpm, hpu, s, hsm, hsi, hsp⟩
  refine ⟨fun hsucc => ⟨hown hsucc, ?_⟩, deleteService_fail, fun hno => ?_⟩
  · obtain ⟨p, s, _, hp, hs, hss, hpr, hbk, hpm⟩ := deleteService_success hsucc
    obtain ⟨_, hsi, hsp⟩ := findServiceOfProvider_some hs
    refine ⟨p, s, hp, hsi, hsp, ?_, hpr, hbk, hpm⟩
    rw [hss]
    exact perm_cons_eraseP_of_find hs
  · have hfail : (deleteService H st u idParam).1.success = false := by
      cases hsucc : (deleteService H st u idParam).1.success with
      | false => rfl
      | true => exact absurd (hown hsucc) hno
    exact ⟨hfail, deleteService_fail hfail⟩

theorem service_deletion_only_by_owner_witness :
    (deleteService hexHelpers promoStore carol (sampleId "d1")).1.success = false ∧
    (deleteService hexHelpers promoStore carol (sampleId "d1")).2 = promoStore :=
  (service_deletion_only_by_owner hexHelpers promoStore carol (sampleId "d1")).2.2 (by decide)

theorem updateService_cases (H : Helpers) (st : Store) (u : ReqUser) (idParam : String)
    (body : ServiceBody) :
    (updateService H st u idParam body).2 = st ∨
    ∃ (p : ServiceProvider) (s : Service),
      findServiceOfProvider st (H.toObjectId idParam) p.id = some s ∧
      (updateService H st u idParam body).2.services =
        saveService (applyServiceUpdate body s) st.services ∧
      (updateService H st u idParam body).2.providers = st.providers ∧
      (updateService H st u idParam body).2.bookings = st.bookings ∧
      (updateService H st u idParam body).2.promotions = st.promotions := by
  unfold updateService
  simp only
  split
  · exact Or.inl rfl
  · split
    · exact Or.inl rfl
    · split
      · exact Or.inl rfl
      · split
        · exact Or.inl rfl
        · rename_i provider _ service hs
          exact Or.inr ⟨_, service, hs, rfl, rfl, rfl, rfl⟩

theorem applyServiceUpdate_protected (body : ServiceBody) (s : Service) :
    SameProtectedFields s (applyServiceUpdate body s) :=
  ⟨rfl, rfl, rfl, rfl, rfl, rfl, rfl, rfl, rfl, rfl⟩

theorem sameProtectedFields_refl (s : Service) : SameProtectedFields s s :=
  ⟨rfl, rfl, rfl, rfl, rfl, rfl, rfl, rfl, rfl, rfl⟩

/-- C27: a service update, whatever it changes (the price included), leaves
the bookings, hence every booking's `total_amount`, the providers and the
ledger as they were, keeps the number of services, and leaves in every stored
service the `provider_id`, `is_active`, `is_featured`, `featured_until`,
`featured_priority`, `promotion_type`, `promotion_location`, `views_count` and
`bookings_count`; a service other than the targeted one is not changed at
all. -/
theorem service_update_frame (H : Helpers) (st : Store) (u : ReqUser) (idParam : String)
    (body : ServiceBody) (hu : st.uniqueServiceIds) :
    (updateService H st u idParam body).2.bookings = st.bookings ∧
    (updateService H st u idParam body).2.providers = st.providers ∧
    (updateService H st u idParam body).2.promotions = st.promotions ∧
    (updateService H st u idParam body).2.services.length = st.services.length ∧
    ∀ sid s, findServiceById st sid = some s →
      ∃ s', findServiceById (updateService H st u idParam body).2 sid = some s' ∧
        SameProtectedFields s s' ∧ (sid ≠ H.toObjectId idParam → s' = s) := by
  rcases updateService_cases H st u idParam body with h | ⟨p, found, hf, hss, hpr, hbk, hpm⟩
  · rw [h]
    exact ⟨rfl, rfl, rfl, rfl, fun sid s hs => ⟨s, hs, sameProtectedFields_refl s, fun _ => rfl⟩⟩
  · refine ⟨hbk, hpr, hpm, ?_, ?_⟩
    · rw [hss]; unfold saveService; rw [List.length_map]
    · intro sid s hs
      obtain ⟨hfm, hfi, _⟩ := findServiceOfProvider_some hf
      obtain ⟨hsm, hsi⟩ := findServiceById_some hs
      have hlook : findServiceById (updateService H st u idParam body).2 sid =
          some (if s.id == (applyServiceUpdate body found).id then applyServiceUpdate body found
            else s) := by
        unfold findServiceById at hs ⊢
        rw [hss, find_saveService, hs]
        rfl
      by_cases hid : s.id = found.id
      · have e : s = found := service_eq_of_id hu hsm hfm hid
        refine ⟨applyServiceUpdate body found, ?_, ?_, ?_⟩
        · rw [hlook]
          have hid2 : s.id = (applyServiceUpdate body found).id := hid
          simp [hid2]
        · rw [e]; exact applyServiceUpdate_protected body found
        · intro hne
          exact absurd (hsi.symm.trans (hid.trans hfi)) hne
      · refine ⟨s, ?_, sameProtectedFields_refl s, fun _ => rfl⟩
        rw [hlook]
        have hid2 : ¬ s.id = (applyServiceUpdate body found).id := hid
        simp [hid2]

theorem service_update_frame_witness :
    (updateService hexHelpers promoStore bob (sampleId "d1") priceBody).2.bookings =
      promoStore.bookings ∧
    ∃ s', findServiceById (updateService hexHelpers promoStore bob (sampleId "d1")
        priceBody).2 209 = some s' ∧
      SameProtectedFields activeService s' ∧
      (209 ≠ hexHelpers.toObjectId (sampleId "d1") → s' = activeService) :=
  have h := service_update_frame hexHelpers promoStore bob (sampleId "d1") priceBody
    (by decide)
  ⟨h.1, h.2.2.2.2 209 activeService (by decide)⟩

/-! ## Promote without a promotion type -/

/-- C28, the code at the failing input: bob's promote of his service 0xd1 with
an empty body is answered 500 and appends no ledger record, yet the service,
not featured and of priority 0 before, is stored featured, with priority 1 and
`featured_until` 30 days ahead. -/
theorem promote_without_type_saves_service :
    (promoteService hexHelpers promoStore bob (sampleId "d1") emptyPromoteBody 241
      1000).1.status = 500 ∧
    (promoteService hexHelpers promoStore bob (sampleId "d1") emptyPromoteBody 241
      1000).1.success = false ∧
    (promoteService hexHelpers promoStore bob (sampleId "d1") emptyPromoteBody 241
      1000).2.promotions = [] ∧
    findServiceById promoStore 209 = some activeService ∧
    activeService.is_featured = false ∧ activeService.featured_priority = some 0 ∧
    ∃ s, findServiceById (promoteService hexHelpers promoStore bob (sampleId "d1")
        emptyPromoteBody 241 1000).2 209 = some s ∧
      s.is_featured = true ∧ s.featured_priority = some 1 ∧
      s.featured_until = some (addDays 1000 30) := by
  refine ⟨by decide, by decide, by decide, by decide, by decide, by decide,
    promotedService emptyPromoteBody (addDays 1000 30) activeService, by decide, by decide,
    by decide, by decide⟩

/-! ## Route shadowing -/

theorem serve_handled {α : Type} {routes : List (Route α)} {m : Method} {path : List String}
    {a : Bool} {h : α} (hs : serve routes m path a = Outcome.handled h) :
    ∃ r ∈ routes, r.handler = h ∧ r.method = m ∧ matchPath r.path path = true := by
  unfold serve at hs
  cases hf : routes.find? (fun r => r.method == m && matchPath r.path path) with
  | none => simp [hf] at hs
  | some r =>
    have hmatch := List.find?_some hf
    simp only [Bool.and_eq_true, beq_iff_eq] at hmatch
    refine ⟨r, List.mem_of_find?_eq_some hf, ?_, hmatch.1, hmatch.2⟩
    rw [hf] at hs
    simp only at hs
    split at hs
    · cases hs
    · exact Outcome.handled.inj hs

theorem matchPath_fixed {text : String} {path : List String}
    (h : matchPath [Segment.fixed text] path = true) : path = [text] := by
  rcases path with _ | ⟨x, _ | ⟨y, zs⟩⟩
  · simp [matchPath] at h
  · simp [matchPath] at h
    rw [h]
  · simp [matchPath] at h

/-- No request to the services router is answered by the trending handler. -/
theorem trending_handler_unreachable (m : Method) (path : List String) (a : Bool) :
    serve servicesRouter m path a ≠ Outcome.handled ServiceHandler.trending := by
  intro h
  obtain ⟨r, hmem, hh, hm, hp⟩ := serve_handled h
  simp only [servicesRouter, List.mem_cons, List.mem_singleton, List.not_mem_nil, or_false] at hmem
  rcases hmem with e | e | e | e | e | e | e | e | e | e <;> rw [e] at hh hm hp <;>
    simp at hh
  have hpath := matchPath_fixed hp
  simp only at hm
  rw [← hm, hpath] at h
  revert h
  cases a <;> decide

/-- No request to the bookings router is answered by the recent-activity or
the provider-analytics handler. -/
theorem analytics_handlers_unreachable (m : Method) (path : List String) (a : Bool) :
    serve bookingsRouter m path a ≠ Outcome.handled BookingHandler.recentActivity ∧
    serve bookingsRouter m path a ≠ Outcome.handled BookingHandler.providerAnalytics := by
  constructor
  · intro h
    obtain ⟨r, hmem, hh, hm, hp⟩ := serve_handled h
    simp only [bookingsRouter, List.mem_cons, List.mem_singleton, List.not_mem_nil, or_false]
      at hmem
    rcases hmem with e | e | e | e | e | e | e <;> rw [e] at hh hm hp <;> simp at hh
    have hpath := matchPath_fixed hp
    simp only at hm
    rw [← hm, hpath] at h
    revert h
    cases a <;> decide
  · intro h
    obtain ⟨r, hmem, hh, hm, hp⟩ := serve_handled h
    simp only [bookingsRouter, List.mem_cons, List.mem_singleton, List.not_mem_nil, or_false]
      at hmem
    rcases hmem with e | e | e | e | e | e | e <;> rw [e] at hh hm hp <;> simp at hh
    have hpath := matchPath_fixed hp
    simp only at hm
    rw [← hm, hpath] at h
    revert h
    cases a <;> decide

/-- C30, the code at the failing inputs: a GET for `/trending` on the services
router is taken by the `/:id` handler; on the bookings router a GET for
`/recent-activity` without a token is answered 401 by the `authenticateJWT` of
`/:id`, and with a token both it and a GET for `/provider-analytics` are taken
by the `/:id` handler. -/
theorem static_routes_shadowed_by_id_route :
    serve servicesRouter Method.GET ["trending"] false =
      Outcome.handled ServiceHandler.getById ∧
    serve bookingsRouter Method.GET ["recent-activity"] false = Outcome.unauthorized ∧
    serve bookingsRouter Method.GET ["recent-activity"] true =
      Outcome.handled BookingHandler.getById ∧
    serve bookingsRouter Method.GET ["provider-analytics"] true =
      Outcome.handled BookingHandler.getById := by
  decide

/-! ## Listing bookings -/

/-- C29, the code at the failing input: alice, as the JWT strategy hands her to
the handler (user document 0xa1, `user_type` traveler), lists the bookings and
is answered with the booking of traveler 0xa2 as well. -/
theorem listBookings_returns_foreign_booking :
    jwtStrategy listStore 161 = some alice ∧ alice.user_type = "traveler" ∧
    hexHelpers.toObjectId alice.id = 161 ∧
    (listBookings hexHelpers listStore alice none 0 10).success = true ∧
    danaBooking ∈ (listBookings hexHelpers listStore alice none 0 10).bookings ∧
    danaBooking.traveler_id ≠ hexHelpers.toObjectId alice.id := by
  decide

/-- For a caller the JWT strategy authenticated, the listing selects by
`status` alone, whoever the caller is. -/
theorem listBookings_of_jwt_user (H : Helpers) (st : Store) (payloadId : ObjectId)
    (user : ReqUser) (status : Option String) (skip pageLimit : Nat)
    (h : jwtStrategy st payloadId = some user) :
    listBookings H st user status skip pageLimit =
      answerBookings st (fun b => statusQuery status b) skip pageLimit := by
  unfold jwtStrategy at h
  cases hf : st.users.find? (fun u => u.id == payloadId) with
  | none => simp [hf] at h
  | some doc =>
    rw [hf] at h
    have e : user = { id := hexText doc.id, user_type := doc.user_type } :=
      (Option.some.inj h).symm
    rw [e]
    simp [listBookings]

/-! ## Provider analytics -/

theorem revenueOf_foldl_zero (bs : List Booking) (acc : Int)
    (h : ∀ b ∈ bs, b.total_price = none) :
    bs.foldl (fun sum b => sum + b.total_price.getD 0) acc = acc := by
  induction bs generalizing acc with
  | nil => rfl
  | cons a l ih =>
    have ha : a.total_price = none := h a (List.mem_cons_self a l)
    simp only [List.foldl_cons, ha, Option.getD_none, add_zero]
    exact ih acc (fun b hb => h b (List.mem_cons_of_mem a hb))

/-- Bookings that do not carry the column `total_price`, as every booking
written through the model, add up to a revenue of 0. -/
theorem revenueOf_eq_zero (bs : List Booking) (h : ∀ b ∈ bs, b.total_price = none) :
    revenueOf bs = 0 :=
  revenueOf_foldl_zero bs 0 h

/-- The booking a creation persists does not carry `total_price`. -/
theorem createBooking_no_total_price (H : Helpers) (st : Store) (u : ReqUser)
    (body : CreateBookingBody) (newId : ObjectId) (now : Int) (b : Booking)
    (h : (createBooking H st u body newId now).1.booking = some b) : b.total_price = none := by
  unfold createBooking at h
  simp only at h
  split at h
  · simp at h
  · split at h
    · split at h
      · simp at h
      · split at h
        · simp at h
        · split at h
          · simp at h
          · split at h
            · simp at h
            · simp only [Option.some.injEq] at h
              rw [← h]
    · simp at h

/-- C21, the code at the failing input: the provider 0xc1 has in the 30-day
window one confirmed booking with `total_amount` 300, the sum of
`total_amount` over the confirmed or completed bookings of the window is 300,
and the analytics answer a total revenue of 0. -/
theorem analytics_revenue_ignores_total_amount :
    januaryBooking ∈
      (windowBookings analyticsStore 193 (analyticsStart analyticsNow none)).filter
        isConfirmed ∧
    amountOf ((windowBookings analyticsStore 193 (analyticsStart analyticsNow none)).filter
      isConfirmed) = 300 ∧
    (providerAnalytics hexHelpers analyticsStore bob none analyticsNow).map
      (fun a => a.revenueTotal) = some 0 := by
  decide

theorem growthOf_ne_none (current previous : Int) : growthOf current previous ≠ none := by
  unfold growthOf
  split
  · rename_i hpos
    have hne : ¬ previous = 0 := by omega
    simp [quotient, hne]
  · simp

theorem growthOf_zero_previous (current : Int) : growthOf current 0 = some 0 := by
  simp [growthOf]

/-- C22: in the analytics of a provider the revenue growth is 0 whenever the
revenue the handler computes for the previous period is 0 (as it is for
bookings without the column `total_price`), the booking growth is 0 whenever
the previous period has no confirmed or completed booking, and neither growth
is ever the non-finite result of a division by zero. -/
theorem analytics_growth_guarded (H : Helpers) (st : Store) (u : ReqUser)
    (timeRange : Option String) (now : Int) (p : ServiceProvider)
    (hp : findProviderByUser st (H.toObjectId u.id) = some p) :
    ∃ a, providerAnalytics H st u timeRange now = some a ∧
      (revenueOf (previousWindowBookings st p.id (analyticsPreviousStart now timeRange)
          (analyticsStart now timeRange)) = 0 → a.revenueGrowth = some 0) ∧
      (previousWindowBookings st p.id (analyticsPreviousStart now timeRange)
          (analyticsStart now timeRange) = [] → a.bookingsGrowth = some 0) ∧
      ((∀ b ∈ st.bookings, b.total_price = none) → a.revenueGrowth = some 0) ∧
      a.revenueGrowth ≠ none ∧ a.bookingsGrowth ≠ none := by
  have hzero : ∀ prev, revenueOf prev = 0 → ∀ cur, growthOf cur (revenueOf prev) = some 0 := by
    intro prev h0 cur
    rw [h0]
    exact growthOf_zero_previous cur
  unfold providerAnalytics
  rw [hp]
  refine ⟨_, rfl, ?_, ?_, ?_, ?_, ?_⟩
  · intro h0
    exact hzero _ h0 _
  · intro h0
    simp only [h0, List.length_nil, Nat.cast_zero]
    exact growthOf_zero_previous _
  · intro hnone
    refine hzero _ (revenueOf_eq_zero _ (fun b hb => hnone b ?_)) _
    unfold previousWindowBookings at hb
    exact (List.mem_filter.mp hb).1
  · exact growthOf_ne_none _ _
  · exact growthOf_ne_none _ _

theorem analytics_growth_guarded_witness :
    ∃ a, providerAnalytics hexHelpers analyticsStore bob none analyticsNow = some a ∧
      (revenueOf (previousWindowBookings analyticsStore sampleProvider.id
          (analyticsPreviousStart analyticsNow none) (analyticsStart analyticsNow none)) = 0 →
        a.revenueGrowth = some 0) ∧
      (previousWindowBookings analyticsStore sampleProvider.id
          (analyticsPreviousStart analyticsNow none) (analyticsStart analyticsNow none) = [] →
        a.bookingsGrowth = some 0) ∧
      ((∀ b ∈ analyticsStore.bookings, b.total_price = none) → a.revenueGrowth = some 0) ∧
      a.revenueGrowth ≠ none ∧ a.bookingsGrowth ≠ none :=
  analytics_growth_guarded hexHelpers analyticsStore bob none analyticsNow sampleProvider
    (by decide)

/-- C23: the ranges are 7, 30, 90 and 365 days; the current window starts at
`now - range`, the previous window starts at `now - 2 * range` and ends before
the start of the current one, so both have the length `range`, and no booking
is fetched for both. -/
theorem analytics_windows (now : Int) (timeRange : Option String) :
    rangeDays (some "7days") = 7 ∧ rangeDays (some "30days") = 30 ∧
    rangeDays (some "90days") = 90 ∧ rangeDays (some "1year") = 365 ∧
    analyticsStart now timeRange = now - rangeDays timeRange * msPerDay ∧
    analyticsPreviousStart now timeRange = now - 2 * (rangeDays timeRange * msPerDay) ∧
    analyticsStart now timeRange - analyticsPreviousStart now timeRange =
      now - analyticsStart now timeRange ∧
    ∀ (st : Store) (pid : ObjectId) (b : Booking),
      (b ∈ windowBookings st pid (analyticsStart now timeRange) ↔
        b ∈ st.bookings ∧ b.provider_id = pid ∧ analyticsStart now timeRange ≤ b.created_at) ∧
      (b ∈ previousWindowBookings st pid (analyticsPreviousStart now timeRange)
          (analyticsStart now timeRange) ↔
        b ∈ st.bookings ∧ b.provider_id = pid ∧
        analyticsPreviousStart now timeRange ≤ b.created_at ∧
        b.created_at < analyticsStart now timeRange ∧ isConfirmed b = true) ∧
      ¬ (b ∈ windowBookings st pid (analyticsStart now timeRange) ∧
         b ∈ previousWindowBookings st pid (analyticsPreviousStart now timeRange)
          (analyticsStart now timeRange)) := by
  have hstart : analyticsStart now timeRange = now - rangeDays timeRange * msPerDay := by
    unfold analyticsStart msPerDay; ring
  have hprev : analyticsPreviousStart now timeRange =
      now - 2 * (rangeDays timeRange * msPerDay) := by
    unfold analyticsPreviousStart; rw [hstart]; ring
  refine ⟨by decide, by decide, by decide, by decide, hstart, hprev, ?_, ?_⟩
  · rw [hprev, hstart]; ring
  · intro st pid b
    have h1 : b ∈ windowBookings st pid (analyticsStart now timeRange) ↔
        b ∈ st.bookings ∧ b.provider_id = pid ∧ analyticsStart now timeRange ≤ b.created_at := by
      simp [windowBookings, List.mem_filter]
    have h2 : b ∈ previousWindowBookings st pid (analyticsPreviousStart now timeRange)
          (analyticsStart now timeRange) ↔
        b ∈ st.bookings ∧ b.provider_id = pid ∧
        analyticsPreviousStart now timeRange ≤ b.created_at ∧
        b.created_at < analyticsStart now timeRange ∧ isConfirmed b = true := by
      simp [previousWindowBookings, List.mem_filter, and_assoc]
    refine ⟨h1, h2, ?_⟩
    rintro ⟨hw, hpw⟩
    have := (h1.mp hw).2.2
    have := (h2.mp hpw).2.2.2.1
    omega

/-- The integer `percentageOf` computes is `Math.round` of the quotient times
100: the floor of the value plus one half. -/
theorem percentageOf_eq_round (bookings totalBookings : Nat) (h : 0 < totalBookings) :
    percentageOf bookings totalBookings =
      ⌊((bookings : ℚ) / (totalBookings : ℚ)) * 100 + 1 / 2⌋ := by
  have ht : (totalBookings : ℚ) ≠ 0 := by exact_mod_cast Nat.pos_iff_ne_zero.mp h
  have hq : ((bookings : ℚ) / (totalBookings : ℚ)) * 100 + 1 / 2 =
      (((200 * (bookings : ℤ) + (totalBookings : ℤ) : ℤ) : ℚ)) /
        (((2 * totalBookings : ℕ) : ℚ)) := by
    push_cast
    field_simp
    ring
  rw [hq, Rat.floor_intCast_div_natCast]
  unfold percentageOf
  rw [if_pos h]
  push_cast
  rfl

/-- The list `topCountries` has at most five entries, ordered by their number
of bookings descending. -/
theorem topCountries_five_sorted (st : Store) (bs : List Booking) (totalBookings : Nat) :
    (topCountries st bs totalBookings).length ≤ 5 ∧
    (topCountries st bs totalBookings).Pairwise (fun a b => b.bookings ≤ a.bookings) := by
  haveI : IsTotal CountryShare (fun a b => b.bookings ≤ a.bookings) :=
    ⟨fun a b => le_total b.bookings a.bookings⟩
  haveI : IsTrans CountryShare (fun a b => b.bookings ≤ a.bookings) :=
    ⟨fun _ _ _ h1 h2 => le_trans h2 h1⟩
  unfold topCountries
  refine ⟨List.length_take_le _ _, ?_⟩
  exact List.Pairwise.sublist (List.take_sublist _ _)
    (List.sorted_insertionSort (fun a b : CountryShare => b.bookings ≤ a.bookings) _)

/-- C24, the code at the failing input: the provider 0xc1 has two bookings in
the window, one confirmed and one pending, both filed under "Unknown"; the one
entry of `topCountries` counts 2 bookings and carries the percentage 200. -/
theorem top_country_percentage_exceeds_100 :
    (providerAnalytics hexHelpers analyticsStore bob none analyticsNow).map
      (fun a => a.topCountries) =
      some [{ country := "Unknown", bookings := 2, percentage := 200 }] ∧
    (providerAnalytics hexHelpers analyticsStore bob none analyticsNow).map
      (fun a => a.bookingsTotal) = some 1 ∧
    (windowBookings analyticsStore 193 (analyticsStart analyticsNow none)).length = 2 := by
  decide

/-- The list `monthlyData` has six entries. -/
theorem monthlyData_length (now : Int) (bs : List Booking) : (monthlyData now bs).length = 6 :=
  rfl

/-- C25, the code at the failing input: the confirmed booking created on
2025-01-31 at noon is in the fetched window and lies in January 2025, one of
the six months of the series made on 2025-02-15, and no entry of the series
counts it. -/
theorem monthly_series_misses_last_day :
    januaryBooking ∈ windowBookings analyticsStore 193 (analyticsStart analyticsNow none) ∧
    isConfirmed januaryBooking = true ∧
    monthOf januaryBooking.created_at = (2025, 1) ∧
    (providerAnalytics hexHelpers analyticsStore bob none analyticsNow).map
      (fun a => a.monthlyData.map (fun e => (e.month, e.bookings))) =
      some [("Sep", 0), ("Oct", 0), ("Nov", 0), ("Dec", 0), ("Jan", 0), ("Feb", 0)] := by
  decide

end Backend
